import Mathlib

/-!
# krb5_child: a shallow embedding of the credential-acquisition worker

The definitions below follow `src/providers/krb5/krb5_child.c` function by
function and keep the names of the C source.  Two functions of other
modules close the development: `sdap_idmap_get_dom_sid_from_object` of
`src/providers/ldap/sdap_idmap.c` and `get_ipa_hostgroupname` of
`src/providers/ipa/ipa_hbac_hosts.c`.

Conventions of the embedding:

* A byte is a natural number; whenever bytes are assembled into a machine
  word each byte is reduced modulo 256.  Multi-byte words use the byte
  order of the host (`memcpy` of the integer); the little-endian order of
  the usual targets is modelled.
* `size_t` is 64 bits wide; sums computed in `size_t` are reduced modulo
  `2 ^ 64` where the source performs them unchecked.
* A C string is the list of its bytes without the terminating NUL.  A
  pointer into a buffer is the list of the bytes found from that address
  on; reading a C string through such a pointer stops at the first NUL or
  where the modelled memory ends.
* Calls into libkrb5, libc and the other sssd modules are not under `src/`:
  their outcomes are supplied by an environment record, and functions with
  side effects return the list of calls they made.
* Heap allocation (`talloc_*`, `calloc`, and the allocation of an option
  block by `sss_krb5_get_init_creds_opt_alloc`) is taken to succeed; the
  `ENOMEM` exits that follow each allocation are therefore not part of the
  model.
* Numeric values of named constants that come from headers outside `src/`
  are fields of parameter records (`Krb5Codes`, `SssdErrors`, `SssCli`,
  `AuthtokTypes`, `ResponseTypes`); the `errno` values and `S_IFMT` are those
  of Linux.
-/

namespace Krb5Child

/-! ## Constants -/

/-- The value of `EOK` (success). -/
def EOK : Int := 0
/-- The Linux value of `EIO` (input/output error). -/
def EIO : Int := 5
/-- The Linux value of `ENOMEM`. -/
def ENOMEM : Int := 12
/-- The Linux value of `EACCES` (permission denied). -/
def EACCES : Int := 13
/-- The Linux value of `EEXIST` (file exists). -/
def EEXIST : Int := 17
/-- The Linux value of `EINVAL` (invalid argument). -/
def EINVAL : Int := 22

/-- Error codes of libkrb5 (`krb5.h`) that the worker names.  The header is
not part of the repository; the numeric values are parameters. -/
structure Krb5Codes where
  KRB5_LIBOS_CANTREADPWD : Int
  KRB5_KDC_UNREACH : Int
  KRB5KDC_ERR_KEY_EXP : Int
  KRB5KRB_AP_ERR_BAD_INTEGRITY : Int
  KRB5_PREAUTH_FAILED : Int
  KRB5KDC_ERR_PREAUTH_FAILED : Int
  KRB5_KT_END : Int
  deriving Repr, DecidableEq

/-- The six `case` labels besides `0` in the `switch` of `map_krb5_error` are
pairwise different and different from `0`, as C requires of the labels of one
`switch`. -/
def Krb5Codes.LabelsDistinct (K : Krb5Codes) : Prop :=
  List.Nodup [0, K.KRB5_LIBOS_CANTREADPWD, K.KRB5_KDC_UNREACH, K.KRB5KDC_ERR_KEY_EXP,
    K.KRB5KRB_AP_ERR_BAD_INTEGRITY, K.KRB5_PREAUTH_FAILED, K.KRB5KDC_ERR_PREAUTH_FAILED]

instance (K : Krb5Codes) : Decidable K.LabelsDistinct := by
  unfold Krb5Codes.LabelsDistinct; infer_instance

/-- The values the MIT Kerberos error tables assign to the codes. -/
def mitCodes : Krb5Codes where
  KRB5_LIBOS_CANTREADPWD := -1765328254
  KRB5_KDC_UNREACH := -1765328228
  KRB5KDC_ERR_KEY_EXP := -1765328361
  KRB5KRB_AP_ERR_BAD_INTEGRITY := -1765328353
  KRB5_PREAUTH_FAILED := -1765328174
  KRB5KDC_ERR_PREAUTH_FAILED := -1765328360
  KRB5_KT_END := -1765328202

/-- The reportable error taxonomy of sssd (`util/util_errors.h`, not under
`src/`); the numeric values are parameters. -/
structure SssdErrors where
  ERR_OK : Int
  ERR_INTERNAL : Int
  ERR_INVALID_CRED_TYPE : Int
  ERR_NO_CREDS : Int
  ERR_CREDS_EXPIRED : Int
  ERR_AUTH_DENIED : Int
  ERR_AUTH_FAILED : Int
  ERR_CHPASS_FAILED : Int
  ERR_NETWORK_IO : Int
  deriving Repr, DecidableEq

/-- The code for success differs from every failure code that
`map_krb5_error` can return. -/
def SssdErrors.OkDistinct (E : SssdErrors) : Prop :=
  E.ERR_OK ≠ E.ERR_NO_CREDS ∧ E.ERR_OK ≠ E.ERR_NETWORK_IO ∧
  E.ERR_OK ≠ E.ERR_CREDS_EXPIRED ∧ E.ERR_OK ≠ E.ERR_AUTH_FAILED ∧
  E.ERR_OK ≠ E.ERR_INTERNAL

instance (E : SssdErrors) : Decidable E.OkDistinct := by
  unfold SssdErrors.OkDistinct; infer_instance

/-- The taxonomy as numbered from `ERR_BASE = 0x555D0000` with success `0`. -/
def sssdErrors : SssdErrors where
  ERR_OK := 0
  ERR_INTERNAL := 0x555D0001
  ERR_INVALID_CRED_TYPE := 0x555D0003
  ERR_NO_CREDS := 0x555D0004
  ERR_CREDS_EXPIRED := 0x555D0005
  ERR_AUTH_DENIED := 0x555D0008
  ERR_AUTH_FAILED := 0x555D0009
  ERR_CHPASS_FAILED := 0x555D000A
  ERR_NETWORK_IO := 0x555D000B

/-! ## Error Mapper -/

/-- The `switch` of `map_krb5_error`; the diagnostic logging that precedes
it has no effect on the result. -/
def map_krb5_error (K : Krb5Codes) (E : SssdErrors) (kerr : Int) : Int :=
  if kerr = 0 then E.ERR_OK
  else if kerr = K.KRB5_LIBOS_CANTREADPWD then E.ERR_NO_CREDS
  else if kerr = K.KRB5_KDC_UNREACH then E.ERR_NETWORK_IO
  else if kerr = K.KRB5KDC_ERR_KEY_EXP then E.ERR_CREDS_EXPIRED
  else if kerr = K.KRB5KRB_AP_ERR_BAD_INTEGRITY then E.ERR_AUTH_FAILED
  else if kerr = K.KRB5_PREAUTH_FAILED then E.ERR_AUTH_FAILED
  else if kerr = K.KRB5KDC_ERR_PREAUTH_FAILED then E.ERR_AUTH_FAILED
  else E.ERR_INTERNAL

/-! ## Byte-level helpers -/

/-- The four bytes of a 32-bit unsigned word in host (little-endian) order. -/
def le32 (v : Nat) : List Nat :=
  [v % 256, v / 256 % 256, v / 65536 % 256, v / 16777216 % 256]

/-- The 32-bit unsigned word stored at offset `p` of `buf`. -/
def get32 (buf : List Nat) (p : Nat) : Nat :=
  buf.getD p 0 % 256 + 256 * (buf.getD (p + 1) 0 % 256) + 65536 * (buf.getD (p + 2) 0 % 256)
    + 16777216 * (buf.getD (p + 3) 0 % 256)

/-- The four bytes of an `int32_t` (two's complement). -/
def int32_bytes (v : Int) : List Nat := le32 (v % 4294967296).toNat

/-- The `int` that has the bit pattern of a 32-bit unsigned word. -/
def int32_of_uint32 (v : Nat) : Int := if v < 2 ^ 31 then (v : Int) else (v : Int) - 2 ^ 32

/-! ## Wire Codec: the response -/

/-- One element of the response list (`struct response_data`): `len` is the
number of payload bytes that `data` points to. -/
structure response_data where
  type : Int
  len : Nat
  data : List Nat
  deriving Repr, DecidableEq

/-- Modelled from the spec: the helper `safealign_memcpy(dest, src, n, pctr)`
(`util/util.h`) is not under `src/`.  The response is serialized as "status
then each message as (type, length, bytes)" with "no padding": called with
`dest = &buf[*pctr]` the helper copies `n` bytes of `src` over the bytes of
`buf` at the counter and advances the counter by `n`. -/
def safealign_memcpy (buf : List Nat) (src : List Nat) (n : Nat) (pctr : Nat) :
    List Nat × Nat :=
  (buf.take pctr ++ src.take n ++ buf.drop (pctr + n), pctr + n)

/-- Modelled from the spec: the macro `SAFEALIGN_SET_INT32(&buf[*pctr], value,
pctr)` (`util/util.h`) is not under `src/`.  It stores the four bytes of the
`int32_t` `value` at the counter and advances the counter by four, which gives
the 4-byte status, type and length of the response format. -/
def SAFEALIGN_SET_INT32 (buf : List Nat) (value : Int) (pctr : Nat) : List Nat × Nat :=
  safealign_memcpy buf (int32_bytes value) 4 pctr

/-- A fresh array of `count` bytes; `junk` is the content the allocator
leaves in it. -/
def talloc_array (junk : Nat → Nat) (count : Nat) : List Nat :=
  (List.range count).map junk

/-- The function `pack_response_packet`: a first pass over the list adds up
the size in `size_t`, the buffer is allocated, and a second pass writes the
status and then type, length and payload of each message at the running
offset `p`.  The result is the buffer and the final offset. -/
def pack_response_packet (junk : Nat → Nat) (error : Int) (resp_list : List response_data) :
    Except Int (List Nat × Nat) :=
  let size := resp_list.foldl (fun size pdr => (size + (2 * 4 + pdr.len)) % 2 ^ 64) 4
  let buf := talloc_array junk size
  let bp := SAFEALIGN_SET_INT32 buf error 0
  let bp := resp_list.foldl (fun bp pdr =>
      let bp := SAFEALIGN_SET_INT32 bp.1 pdr.type bp.2
      let bp := SAFEALIGN_SET_INT32 bp.1 (pdr.len : Int) bp.2
      safealign_memcpy bp.1 pdr.data pdr.len bp.2) bp
  .ok bp

/-- The response format in the words of the specification: the status, then
each message as type, length and payload bytes, in list order. -/
def response_wire (error : Int) (resp_list : List response_data) : List Nat :=
  int32_bytes error ++
    resp_list.flatMap (fun m => int32_bytes m.type ++ int32_bytes (m.len : Int) ++ m.data)

/-- The response size in the words of the specification: a fixed header of
four bytes plus header and payload of each message. -/
def response_size (resp_list : List response_data) : Nat :=
  4 + (resp_list.map (fun m => 8 + m.data.length)).sum

/-- The bytes the messages of a list occupy, by the `len` fields. -/
def msgs_size : List response_data → Nat
  | [] => 0
  | m :: l => 8 + m.len + msgs_size l

/-- A short response list used as a concrete instance. -/
def sampleResponse : List response_data :=
  [{ type := 3, len := 2, data := [9, 8] }, { type := 258, len := 0, data := [] }]

/-! ## Calls to the environment -/

/-- A principal as far as the worker looks at it: its name and its realm. -/
structure Principal where
  name : List Nat
  realm : List Nat
  deriving Repr, DecidableEq

/-- The calls to the operating system, to libkrb5 and to other sssd modules
that the models record, with the arguments that matter (calls that only free
memory or write to the log are left out). -/
inductive Call where
  | umask (mask : Nat)
  | umask_restore
  | mkdir (path : List Nat) (mode : Nat)
  | stat (path : List Nat)
  | mkstemp (template : List Nat)
  | close
  | rename (oldpath newpath : List Nat)
  | become_user (uid gid : Nat)
  | krb5_cc_resolve (name : List Nat)
  | krb5_cc_set_default_name (name : List Nat)
  | krb5_cc_new_unique
  | krb5_cc_initialize
  | krb5_copy_principal
  | krb5_build_principal_ext
  | krb5_cc_store_cred
  | krb5_cc_switch
  | krb5_cc_close
  | krb5_cc_destroy
  | krb5_kt_resolve
  | krb5_kt_start_seq_get
  | krb5_kt_next_entry
  | krb5_kt_end_seq_get
  | krb5_kt_close
  | krb5_unparse_name
  | krb5_verify_init_creds (server : Option Principal) (result : Int)
  | sss_extract_pac
  | sss_pac_make_request
  | krb5_kt_default
  | find_principal_in_keytab (primary realm : Option (List Nat))
  | krb5_parse_name (name : List Nat)
  | krb5_cc_retrieve_cred
  | krb5_get_init_creds_keytab
  | sss_krb5_get_init_creds_opt_set_fast_ccache_name (name : List Nat)
  | sss_krb5_get_init_creds_opt_set_fast_flags
  | krb5_get_init_creds_password (password in_tkt_service : Option (List Nat))
  | krb5_change_password (newpw : Option (List Nat))
  | krb5_get_renewed_creds
  | unsetenv (name : List Nat)
  | krb5_set_default_realm (realm : Option (List Nat))
  | krb5_kuserok (princ : Principal) (luser : Option (List Nat))
  | read
  | write (buf : List Nat)
  | krb5_responder_otp_get_challenge
  | sss_authtok_get_password
  | pam_add_response (type : Int)
  | krb5_responder_otp_set_answer (ti : Nat) (value pin : Option (List Nat))
  | krb5_responder_otp_challenge_free
  deriving Repr, DecidableEq

/-! ## Credential-Cache Manager -/

/-- The fields of `struct stat` that `create_ccdir` reads. -/
structure stat_t where
  st_uid : Nat
  st_gid : Nat
  st_mode : Nat
  deriving Repr, DecidableEq

/-- Outcomes of the system and library calls of the cache manager.  A system
call yields either success or the `errno` it leaves; a libkrb5 call yields its
`krb5_error_code`. -/
structure CcacheEnv where
  mkdir : List Nat → Nat → Except Int Unit
  stat : List Nat → Except Int stat_t
  mkstemp : List Nat → Except Int (List Nat)
  rename : List Nat → List Nat → Except Int Unit
  become_user : Nat → Nat → Int
  sss_krb5_residual_check_type : List Nat → Option (List Nat)
  krb5_cc_resolve : List Nat → Int
  krb5_cc_set_default_name : List Nat → Int
  krb5_cc_new_unique : Int
  krb5_cc_initialize : Int
  krb5_copy_principal : Int
  krb5_build_principal_ext : Int
  krb5_cc_store_cred : Int
  krb5_cc_switch : Int
  krb5_cc_close : Int

/-- The Linux value of the file-type mask `S_IFMT`. -/
def S_IFMT : Nat := 0o170000

/-- The expression `st_mode & ~S_IFMT` on the 32-bit `mode_t`. -/
def mode_without_type (st_mode : Nat) : Nat := Nat.land st_mode (0xFFFFFFFF - S_IFMT)

/-- The function `create_ccdir`. -/
def create_ccdir (env : CcacheEnv) (dirname : List Nat) (uid gid : Nat) : Int × List Call :=
  let calls := [Call.umask 0, Call.mkdir dirname 0o700, Call.umask_restore]
  match env.mkdir dirname 0o700 with
  | .ok _ => (EOK, calls)
  | .error errno =>
    if errno = EEXIST then
      match env.stat dirname with
      | .error _ => ( EIO, calls ++ [Call.stat dirname])
      | .ok statbuf =>
        if statbuf.st_uid ≠ uid ∨ statbuf.st_gid ≠ gid then
          (EACCES, calls ++ [Call.stat dirname])
        else if mode_without_type statbuf.st_mode ≠ 0o700 then
          (EACCES, calls ++ [Call.stat dirname])
        else (EOK, calls ++ [Call.stat dirname])
    else (errno, calls)

/-- The function `create_empty_cred`. -/
def create_empty_cred (env : CcacheEnv) : Int × List Call :=
  if env.krb5_copy_principal ≠ 0 then (env.krb5_copy_principal, [Call.krb5_copy_principal])
  else (env.krb5_build_principal_ext, [Call.krb5_copy_principal, Call.krb5_build_principal_ext])

/-- The function `store_creds_in_ccache` (built with `HAVE_KRB5_DIRCACHE`);
`creds` tells whether a credential was supplied (`creds != NULL`). -/
def store_creds_in_ccache (env : CcacheEnv) (creds : Bool) : Int × List Call :=
  if env.krb5_cc_initialize ≠ 0 then (env.krb5_cc_initialize, [Call.krb5_cc_initialize])
  else
    let l_cred := if creds then (0, []) else create_empty_cred env
    if l_cred.1 ≠ 0 then (l_cred.1, [Call.krb5_cc_initialize] ++ l_cred.2)
    else if env.krb5_cc_store_cred ≠ 0 then
      (env.krb5_cc_store_cred, [Call.krb5_cc_initialize] ++ l_cred.2 ++ [Call.krb5_cc_store_cred])
    else if env.krb5_cc_switch ≠ 0 then
      (env.krb5_cc_switch, [Call.krb5_cc_initialize] ++ l_cred.2 ++
        [Call.krb5_cc_store_cred, Call.krb5_cc_switch])
    else
      (env.krb5_cc_close, [Call.krb5_cc_initialize] ++ l_cred.2 ++
        [Call.krb5_cc_store_cred, Call.krb5_cc_switch, Call.krb5_cc_close])

/-- The offset `strrchr(s, c) - s` of the last occurrence of `c` in `s`. -/
def strrchr : List Nat → Nat → Option Nat
  | [], _ => none
  | x :: xs, c =>
    match strrchr xs c with
    | some i => some (i + 1)
    | none => if x = c then some 0 else none

/-- The bytes of `"FILE:"`. -/
def str_FILE : List Nat := [70, 73, 76, 69, 58]
/-- The bytes of `"/.krb5cc_dummy_XXXXXX"`. -/
def str_dummy_template : List Nat :=
  [47, 46, 107, 114, 98, 53, 99, 99, 95, 100, 117, 109, 109, 121, 95, 88, 88, 88, 88, 88, 88]
/-- The bytes of `"XXXXXX"`. -/
def str_XXXXXX : List Nat := [88, 88, 88, 88, 88, 88]

/-- The function `create_ccache_file`.  After `mkstemp` succeeded the
temporary name is the one `mkstemp` wrote into the template. -/
def create_ccache_file (env : CcacheEnv) (ccname : List Nat) (creds : Bool) :
    Int × List Call :=
  let cc_file_name := if ccname.take 5 = str_FILE then ccname.drop 5 else ccname
  if cc_file_name.head? ≠ some 47 then (EINVAL, [])
  else
    let dummy := (strrchr cc_file_name 47).getD 0
    let tmp_ccname := cc_file_name.take dummy ++ str_dummy_template
    let calls := [Call.umask 0o077, Call.mkstemp tmp_ccname, Call.umask_restore]
    match env.mkstemp tmp_ccname with
    | .error errno => (errno, calls)
    | .ok tmp_ccname =>
      let calls := calls ++ [Call.krb5_cc_resolve tmp_ccname]
      if env.krb5_cc_resolve tmp_ccname ≠ 0 then
        (env.krb5_cc_resolve tmp_ccname, calls ++ [Call.close])
      else
        let st := store_creds_in_ccache env creds
        let calls := calls ++ st.2 ++ [Call.close]
        if st.1 ≠ 0 then (st.1, calls ++ [Call.krb5_cc_destroy])
        else
          let ccname_len := cc_file_name.length
          if ccname_len ≥ 6 ∧ cc_file_name.drop (ccname_len - 6) = str_XXXXXX then
            match env.mkstemp cc_file_name with
            | .error errno =>
              (errno, calls ++ [Call.mkstemp cc_file_name] ++
                (if errno ≠ 0 then [Call.krb5_cc_destroy] else []))
            | .ok final_name =>
              match env.rename tmp_ccname final_name with
              | .error errno =>
                (errno, calls ++ [Call.mkstemp cc_file_name, Call.rename tmp_ccname final_name]
                  ++ (if errno ≠ 0 then [Call.krb5_cc_destroy] else []) ++ [Call.close])
              | .ok _ =>
                (0, calls ++ [Call.mkstemp cc_file_name, Call.rename tmp_ccname final_name,
                  Call.close])
          else
            match env.rename tmp_ccname cc_file_name with
            | .error errno =>
              (errno, calls ++ [Call.rename tmp_ccname cc_file_name]
                ++ (if errno ≠ 0 then [Call.krb5_cc_destroy] else []))
            | .ok _ => (0, calls ++ [Call.rename tmp_ccname cc_file_name])

/-- The tail of `create_ccache_in_dir` from `store_creds_in_ccache` on, with
the cleanup at `done` for a resolved cache handle. -/
def create_ccache_in_dir_store (env : CcacheEnv) (creds : Bool) (calls : List Call) :
    Int × List Call :=
  let st := store_creds_in_ccache env creds
  if st.1 ≠ 0 then (st.1, calls ++ st.2 ++ [Call.krb5_cc_destroy])
  else (st.1, calls ++ st.2)

/-- The function `create_ccache_in_dir`. -/
def create_ccache_in_dir (env : CcacheEnv) (uid gid : Nat) (ccname : List Nat)
    (creds : Bool) : Int × List Call :=
  match env.sss_krb5_residual_check_type ccname with
  | none => ( EIO, [])
  | some dirname =>
    let kerr := env.become_user uid gid
    let calls := [Call.become_user uid gid]
    if kerr ≠ EOK then (kerr, calls)
    else if dirname.head? = some 58 then
      let kerr := env.krb5_cc_resolve ccname
      let calls := calls ++ [Call.krb5_cc_resolve ccname]
      if kerr ≠ 0 then (kerr, calls)
      else create_ccache_in_dir_store env creds calls
    else if dirname.head? = some 47 then
      let dir := create_ccdir env dirname uid gid
      let calls := calls ++ dir.2
      if dir.1 ≠ 0 then (dir.1, calls)
      else
        let kerr := env.krb5_cc_set_default_name ccname
        let calls := calls ++ [Call.krb5_cc_set_default_name ccname]
        if kerr ≠ 0 then (kerr, calls)
        else
          let kerr := env.krb5_cc_new_unique
          let calls := calls ++ [Call.krb5_cc_new_unique]
          if kerr ≠ 0 then (kerr, calls)
          else create_ccache_in_dir_store env creds calls
    else ( EIO, calls)

/-- An environment in which the directory exists, with the given owner and
mode, and every other call succeeds. -/
def existingDirEnv (owner group mode : Nat) (become : Int) : CcacheEnv where
  mkdir := fun _ _ => .error EEXIST
  stat := fun _ => .ok { st_uid := owner, st_gid := group, st_mode := mode }
  mkstemp := fun t => .ok t
  rename := fun _ _ => .ok ()
  become_user := fun _ _ => become
  sss_krb5_residual_check_type := fun n => if n.take 4 = [68, 73, 82, 58] then some (n.drop 4) else none
  krb5_cc_resolve := fun _ => 0
  krb5_cc_set_default_name := fun _ => 0
  krb5_cc_new_unique := 0
  krb5_cc_initialize := 0
  krb5_copy_principal := 0
  krb5_build_principal_ext := 0
  krb5_cc_store_cred := 0
  krb5_cc_switch := 0
  krb5_cc_close := 0

/-- The bytes of `"DIR:/run/u"`. -/
def str_DIR_run_u : List Nat := [68, 73, 82, 58, 47, 114, 117, 110, 47, 117]
/-- The bytes of `"/run/u"`. -/
def str_run_u : List Nat := [47, 114, 117, 110, 47, 117]

/-- The calls by which `create_ccache_in_dir` writes: setting the default
cache name, creating the unique sub-cache, and the calls that
`store_creds_in_ccache` makes. -/
def Call.isCacheWrite : Call → Bool
  | .krb5_cc_set_default_name _ => true
  | .krb5_cc_new_unique => true
  | Call.krb5_cc_initialize => true
  | .krb5_copy_principal => true
  | .krb5_build_principal_ext => true
  | .krb5_cc_store_cred => true
  | .krb5_cc_switch => true
  | .krb5_cc_close => true
  | .krb5_cc_destroy => true
  | _ => false

/-- The path of a cache name in the words of the specification: the name
with an optional leading `"FILE:"` removed. -/
def cache_path (ccname : List Nat) : List Nat :=
  if str_FILE <+: ccname then ccname.drop str_FILE.length else ccname

/-- The bytes of `"FILE:tmp/cc"`. -/
def str_FILE_tmp_cc : List Nat := [70, 73, 76, 69, 58, 116, 109, 112, 47, 99, 99]

/-! ## TGT Validator -/

/-- Outcomes of the keytab and verification calls of `validate_tgt`.
`kt_entries` are the principals of the entries that the successive calls of
`krb5_kt_next_entry` return with status 0, and `kt_stop` is the status of the
call that follows them (`KRB5_KT_END` at the end of the keytab, another code
when reading fails).  `validation_ccache` tells whether
`krb5_verify_init_creds` leaves a cache handle behind. -/
structure ValidateEnv where
  krb5_kt_resolve : Int
  krb5_kt_start_seq_get : Int
  kt_entries : List Principal
  kt_stop : Int
  krb5_copy_principal : Principal → Int
  krb5_kt_end_seq_get : Int
  krb5_unparse_name : Option Principal → Int
  krb5_verify_init_creds : Option Principal → Int
  validation_ccache : Bool

/-- Outcomes of the extraction of the privilege certificate and of the
request to the PAC responder (`ret` and `errnop` of `sss_pac_make_request`). -/
structure PacEnv where
  sss_extract_pac : Int
  sss_pac_make_request : Int × Int

/-- The glibc value of `NSS_STATUS_SUCCESS`. -/
def NSS_STATUS_SUCCESS : Int := 1

/-- The function `sss_send_pac`. -/
def sss_send_pac (pac : PacEnv) : Int :=
  if pac.sss_pac_make_request.1 ≠ NSS_STATUS_SUCCESS ∨ pac.sss_pac_make_request.2 ≠ 0 then EIO
  else EOK

/-- The state in which the `while` loop over the keytab of `validate_tgt`
ends: `failed` holds the error of `krb5_copy_principal` when the loop was
left through `goto done`. -/
structure KtScan where
  failed : Option Int
  validation_princ : Option Principal
  realm_entry_found : Bool
  kt_err : Int
  calls : List Call
  deriving Repr, DecidableEq

/-- The `while` loop of `validate_tgt` over the keytab: every entry read
replaces `validation_princ`, and the loop breaks at the first entry whose
realm is the realm of the authenticated principal (`krb5_realm_compare`). -/
def validate_tgt_scan (env : ValidateEnv) (princ : Principal) :
    List Principal → Option Principal → KtScan
  | [], validation_princ =>
    { failed := none, validation_princ := validation_princ, realm_entry_found := false,
      kt_err := env.kt_stop, calls := [Call.krb5_kt_next_entry] }
  | entry :: rest, _ =>
    if env.krb5_copy_principal entry ≠ 0 then
      { failed := some (env.krb5_copy_principal entry), validation_princ := none,
        realm_entry_found := false, kt_err := 0,
        calls := [Call.krb5_kt_next_entry, Call.krb5_copy_principal] }
    else if entry.realm = princ.realm then
      { failed := none, validation_princ := some entry, realm_entry_found := true, kt_err := 0,
        calls := [Call.krb5_kt_next_entry, Call.krb5_copy_principal] }
    else
      let r := validate_tgt_scan env princ rest (some entry)
      { r with calls := [Call.krb5_kt_next_entry, Call.krb5_copy_principal] ++ r.calls }

/-- The cleanup of `validate_tgt` at the label `done`. -/
def validate_tgt_done (validation_ccache : Bool) : List Call :=
  (if validation_ccache then [Call.krb5_cc_destroy] else []) ++ [Call.krb5_kt_close]

/-- The function `validate_tgt`, for the authenticated principal `princ`
(`kr->princ`) and the flag `kr->upn_from_different_realm`. -/
def validate_tgt (K : Krb5Codes) (env : ValidateEnv) (pac : PacEnv) (princ : Principal)
    (upn_from_different_realm : Bool) : Int × List Call :=
  if env.krb5_kt_resolve ≠ 0 then (env.krb5_kt_resolve, [Call.krb5_kt_resolve])
  else if env.krb5_kt_start_seq_get ≠ 0 then
    (env.krb5_kt_start_seq_get, [Call.krb5_kt_resolve, Call.krb5_kt_start_seq_get])
  else
    let scan := validate_tgt_scan env princ env.kt_entries none
    let calls := [Call.krb5_kt_resolve, Call.krb5_kt_start_seq_get] ++ scan.calls
    match scan.failed with
    | some kerr => (kerr, calls ++ validate_tgt_done false)
    | none =>
      let kerr := env.krb5_kt_end_seq_get
      let calls := calls ++ [Call.krb5_kt_end_seq_get]
      if kerr ≠ 0 then (kerr, calls ++ validate_tgt_done false)
      else if scan.kt_err ≠ 0 ∧ scan.kt_err ≠ K.KRB5_KT_END then
        (kerr, calls ++ validate_tgt_done false)
      else
        let kerr := env.krb5_unparse_name scan.validation_princ
        let calls := calls ++ [Call.krb5_unparse_name]
        if kerr ≠ 0 then (kerr, calls ++ validate_tgt_done false)
        else
          let kerr := env.krb5_verify_init_creds scan.validation_princ
          let calls := calls ++ [Call.krb5_verify_init_creds scan.validation_princ kerr]
          if kerr ≠ 0 then (kerr, calls ++ validate_tgt_done env.validation_ccache)
          else if upn_from_different_realm then
            let kerr := pac.sss_extract_pac
            let calls := calls ++ [Call.sss_extract_pac]
            if kerr ≠ 0 then (0, calls ++ validate_tgt_done env.validation_ccache)
            else
              let kerr := sss_send_pac pac
              let calls := calls ++ [Call.sss_pac_make_request]
              ((if kerr ≠ 0 then 0 else kerr), calls ++ validate_tgt_done env.validation_ccache)
          else (kerr, calls ++ validate_tgt_done env.validation_ccache)

/-- The realm `EXAMPLE.COM`. -/
def realm_EXAMPLE_COM : List Nat := [69, 88, 65, 77, 80, 76, 69, 46, 67, 79, 77]
/-- The user principal `alice@EXAMPLE.COM`. -/
def princ_alice : Principal := { name := [97, 108, 105, 99, 101], realm := realm_EXAMPLE_COM }
/-- The host principal `host@EXAMPLE.COM`. -/
def princ_host : Principal := { name := [104, 111, 115, 116], realm := realm_EXAMPLE_COM }

/-- A keytab with one entry of the realm of the user, every call
succeeding. -/
def goodKeytabEnv : ValidateEnv where
  krb5_kt_resolve := 0
  krb5_kt_start_seq_get := 0
  kt_entries := [princ_host]
  kt_stop := mitCodes.KRB5_KT_END
  krb5_copy_principal := fun _ => 0
  krb5_kt_end_seq_get := 0
  krb5_unparse_name := fun _ => 0
  krb5_verify_init_creds := fun _ => 0
  validation_ccache := true

/-- A keytab that opens but whose first read fails with `EIO`; no call of
`krb5_verify_init_creds` could succeed (the oracle answers
`KRB5KRB_AP_ERR_BAD_INTEGRITY`). -/
def unreadableKeytabEnv : ValidateEnv where
  krb5_kt_resolve := 0
  krb5_kt_start_seq_get := 0
  kt_entries := []
  kt_stop := EIO
  krb5_copy_principal := fun _ => 0
  krb5_kt_end_seq_get := 0
  krb5_unparse_name := fun _ => 0
  krb5_verify_init_creds := fun _ => mitCodes.KRB5KRB_AP_ERR_BAD_INTEGRITY
  validation_ccache := false

/-- A PAC environment in which the extraction fails. -/
def failingPacEnv : PacEnv := { sss_extract_pac := 2, sss_pac_make_request := (0, 5) }

/-! ## Wire Codec: the request -/

/-- Command tags of `sss_cli.h` (not under `src/`) that the worker names;
the numeric values are parameters. -/
structure SssCli where
  SSS_PAM_AUTHENTICATE : Int
  SSS_PAM_ACCT_MGMT : Int
  SSS_PAM_CHAUTHTOK : Int
  SSS_PAM_CHAUTHTOK_PRELIM : Int
  SSS_CMD_RENEW : Int
  deriving Repr, DecidableEq

/-- The command tags as numbered in `sss_cli.h`. -/
def sssCli : SssCli where
  SSS_PAM_AUTHENTICATE := 0x00F1
  SSS_PAM_ACCT_MGMT := 0x00F3
  SSS_PAM_CHAUTHTOK := 0x00F6
  SSS_PAM_CHAUTHTOK_PRELIM := 0x00F7
  SSS_CMD_RENEW := 0x00F8

/-- Values of `enum sss_authtok_type` (`util/authtok.h`, not under `src/`);
the numeric values are parameters. -/
structure AuthtokTypes where
  SSS_AUTHTOK_TYPE_EMPTY : Nat
  SSS_AUTHTOK_TYPE_PASSWORD : Nat
  SSS_AUTHTOK_TYPE_CCFILE : Nat
  deriving Repr, DecidableEq

/-- The three token types are pairwise different 32-bit values, as the
labels of the `switch` in `unpack_authtok` must be. -/
def AuthtokTypes.Distinct (A : AuthtokTypes) : Prop :=
  A.SSS_AUTHTOK_TYPE_EMPTY ≠ A.SSS_AUTHTOK_TYPE_PASSWORD ∧
  A.SSS_AUTHTOK_TYPE_EMPTY ≠ A.SSS_AUTHTOK_TYPE_CCFILE ∧
  A.SSS_AUTHTOK_TYPE_PASSWORD ≠ A.SSS_AUTHTOK_TYPE_CCFILE ∧
  A.SSS_AUTHTOK_TYPE_EMPTY < 2 ^ 32 ∧ A.SSS_AUTHTOK_TYPE_PASSWORD < 2 ^ 32 ∧
  A.SSS_AUTHTOK_TYPE_CCFILE < 2 ^ 32

instance (A : AuthtokTypes) : Decidable A.Distinct := by
  unfold AuthtokTypes.Distinct; infer_instance

/-- The token types as numbered in `util/authtok.h`. -/
def authtokTypes : AuthtokTypes where
  SSS_AUTHTOK_TYPE_EMPTY := 0
  SSS_AUTHTOK_TYPE_PASSWORD := 1
  SSS_AUTHTOK_TYPE_CCFILE := 2

/-- A credential token (`struct sss_auth_token`): its type and, for the
typed tokens, the string it holds. -/
structure sss_auth_token where
  type : Nat
  data : List Nat
  deriving Repr, DecidableEq

/-- The result of `sss_authtok_set_empty`: the empty token. -/
def sss_authtok_set_empty (A : AuthtokTypes) : sss_auth_token :=
  { type := A.SSS_AUTHTOK_TYPE_EMPTY, data := [] }

/-- Modelled from the spec: `sss_authtok_set_password` and
`sss_authtok_set_ccfile` (`util/authtok.c`) are not under `src/`.  The
specification lists the token kinds (empty / password /
cache-file-reference); `unpack_authtok` hands the setter only the address of
the payload and the length 0, so the value stored is the NUL-terminated
string `str` found at that address, and a string of length zero is refused
with `EINVAL` (a typed token is never empty). -/
def sss_authtok_set_string (type : Nat) (str : List Nat) : Except Int sss_auth_token :=
  if str.length = 0 then .error EINVAL else .ok { type := type, data := str }

/-- The setter for a password token, see `sss_authtok_set_string`. -/
def sss_authtok_set_password (A : AuthtokTypes) (str : List Nat) : Except Int sss_auth_token :=
  sss_authtok_set_string A.SSS_AUTHTOK_TYPE_PASSWORD str

/-- The setter for a cache-file token, see `sss_authtok_set_string`. -/
def sss_authtok_set_ccfile (A : AuthtokTypes) (str : List Nat) : Except Int sss_auth_token :=
  sss_authtok_set_string A.SSS_AUTHTOK_TYPE_CCFILE str

/-- The C string that starts at the first byte of `mem`. -/
def c_string (mem : List Nat) : List Nat := mem.takeWhile (fun b => b % 256 != 0)

/-- The function `talloc_strndup(ctx, ptr, len)` for the bytes `mem` at
`ptr`: at most `len` bytes, ending before the first NUL. -/
def talloc_strndup (mem : List Nat) (len : Nat) : List Nat := c_string (mem.take len)

/-- A step of unpacking: from the buffer, its size and the read cursor `p`
to an error code or to a value and the advanced cursor. -/
def Unpack (α : Type) : Type := List Nat → Nat → Nat → Except Int (α × Nat)

instance : Monad Unpack where
  pure a := fun _ _ p => .ok (a, p)
  bind m k := fun buf size p =>
    match m buf size p with
    | .error e => .error e
    | .ok (a, p) => k a buf size p

/-- Modelled from the spec: the macro `SAFEALIGN_COPY_UINT32_CHECK(dest,
buf + p, size, &p)` (`util/util.h`) is not under `src/`.  By the
specification the decoder fails "if any declared length would read past the
buffer end": when fewer than four bytes lie between the cursor and `size`
the enclosing function returns `EINVAL`; otherwise the four bytes at the
cursor are copied into the 32-bit destination and the cursor advances by
four. -/
def SAFEALIGN_COPY_UINT32_CHECK : Unpack Nat := fun buf size p =>
  if p + 4 > size then .error EINVAL else .ok (get32 buf p, p + 4)

/-- The three statements that follow the reading of each length word:
`if ((p + len) > size) return EINVAL;`
`x = talloc_strndup(pd, (char *)(buf + p), len);`
`p += len;` with the sum taken in `size_t`. -/
def unpack_strndup (len : Nat) : Unpack (List Nat) := fun buf size p =>
  if (p + len) % 2 ^ 64 > size then .error EINVAL
  else .ok (talloc_strndup (buf.drop p) len, (p + len) % 2 ^ 64)

/-- The function `unpack_authtok`. -/
def unpack_authtok (A : AuthtokTypes) : Unpack sss_auth_token := do
  let auth_token_type ← SAFEALIGN_COPY_UINT32_CHECK
  let auth_token_length ← SAFEALIGN_COPY_UINT32_CHECK
  fun buf size p =>
    if (p + auth_token_length) % 2 ^ 64 > size then .error EINVAL
    else
      let ret : Except Int sss_auth_token :=
        if auth_token_type = A.SSS_AUTHTOK_TYPE_EMPTY then .ok (sss_authtok_set_empty A)
        else if auth_token_type = A.SSS_AUTHTOK_TYPE_PASSWORD then
          sss_authtok_set_password A (c_string (buf.drop p))
        else if auth_token_type = A.SSS_AUTHTOK_TYPE_CCFILE then
          sss_authtok_set_ccfile A (c_string (buf.drop p))
        else .error EINVAL
      match ret with
      | .error e => .error e
      | .ok tok => .ok (tok, (p + auth_token_length) % 2 ^ 64)

/-- The fields of `struct krb5_req` and of its `struct pam_data` that
`unpack_buffer` fills; `none` stands for a `NULL` string. -/
structure krb5_req where
  cmd : Int
  uid : Nat
  gid : Nat
  validate : Bool
  upn_from_different_realm : Bool
  use_enterprise_princ : Bool
  upn : List Nat
  ccname : Option (List Nat)
  keytab : Option (List Nat)
  authtok : sss_auth_token
  newauthtok : sss_auth_token
  user : Option (List Nat)
  deriving Repr, DecidableEq

/-- The condition of the first `if` on the command in `unpack_buffer`. -/
def cmd_has_ccname (C : SssCli) (cmd : Int) : Prop :=
  cmd = C.SSS_PAM_AUTHENTICATE ∨ cmd = C.SSS_CMD_RENEW ∨
    cmd = C.SSS_PAM_CHAUTHTOK_PRELIM ∨ cmd = C.SSS_PAM_CHAUTHTOK

instance (C : SssCli) (cmd : Int) : Decidable (cmd_has_ccname C cmd) := by
  unfold cmd_has_ccname; infer_instance

/-- The statements of `unpack_buffer` from the first read on, threading the
cursor `p`; the result is the filled request and the word `*offline`. -/
def unpack_buffer_body (C : SssCli) (A : AuthtokTypes) : Unpack (krb5_req × Nat) := do
  let cmd32 ← SAFEALIGN_COPY_UINT32_CHECK
  let uid ← SAFEALIGN_COPY_UINT32_CHECK
  let gid ← SAFEALIGN_COPY_UINT32_CHECK
  let validate ← SAFEALIGN_COPY_UINT32_CHECK
  let offline ← SAFEALIGN_COPY_UINT32_CHECK
  let different_realm ← SAFEALIGN_COPY_UINT32_CHECK
  let use_enterprise_princ ← SAFEALIGN_COPY_UINT32_CHECK
  let len ← SAFEALIGN_COPY_UINT32_CHECK
  let upn ← unpack_strndup len
  let cc ←
    (if cmd_has_ccname C (int32_of_uint32 cmd32) then do
      let len ← SAFEALIGN_COPY_UINT32_CHECK
      let ccname ← unpack_strndup len
      let len ← SAFEALIGN_COPY_UINT32_CHECK
      let keytab ← unpack_strndup len
      let authtok ← unpack_authtok A
      pure (some ccname, some keytab, authtok)
    else
      pure (none, none, sss_authtok_set_empty A))
  let newauthtok ←
    (if int32_of_uint32 cmd32 = C.SSS_PAM_CHAUTHTOK then unpack_authtok A
    else pure (sss_authtok_set_empty A))
  let user ←
    (if int32_of_uint32 cmd32 = C.SSS_PAM_ACCT_MGMT then do
      let len ← SAFEALIGN_COPY_UINT32_CHECK
      let user ← unpack_strndup len
      pure (some user)
    else
      pure none)
  pure ({ cmd := int32_of_uint32 cmd32, uid := uid, gid := gid,
          validate := validate != 0,
          upn_from_different_realm := different_realm != 0,
          use_enterprise_princ := use_enterprise_princ != 0,
          upn := upn, ccname := cc.1, keytab := cc.2.1,
          authtok := cc.2.2, newauthtok := newauthtok, user := user }, offline)

/-- The function `unpack_buffer(buf, size, kr, offline)`: `buf` is the
memory from the start of the buffer on, `size` the number of bytes received.
The cursor starts at 0; on `EOK` the result is the filled request and the
word stored in `*offline`. -/
def unpack_buffer (C : SssCli) (A : AuthtokTypes) (buf : List Nat) (size : Nat) :
    Except Int (krb5_req × Nat) :=
  match unpack_buffer_body C A buf size 0 with
  | .error e => .error e
  | .ok (r, _) => .ok r

/-- The behaviour of an unpacking step `d` on every buffer that holds `bytes`
at the cursor and is cut off after `n` bytes (`mem` is whatever lies behind
the received bytes): the step fails with `EINVAL`, or all of `bytes` was
received and the step returns a value satisfying `val` with the cursor behind
`bytes`. -/
def TruncSafe {α : Type} (d : Unpack α) (bytes : List Nat) (val : α → Prop) : Prop :=
  ∀ (pre rest mem : List Nat) (n : Nat), pre.length ≤ n → n < 2 ^ 63 →
    d ((pre ++ (bytes ++ rest)).take n ++ mem) n pre.length = .error EINVAL ∨
    (pre.length + bytes.length ≤ n ∧
      ∃ a, val a ∧
        d ((pre ++ (bytes ++ rest)).take n ++ mem) n pre.length
          = .ok (a, pre.length + bytes.length))

/-- The step `d` reads exactly `bytes` and returns `a`: on every buffer that
holds `bytes` at the cursor, with at least that much received. -/
def Reads {α : Type} (d : Unpack α) (bytes : List Nat) (a : α) : Prop :=
  ∀ (pre rest : List Nat) (n : Nat), pre.length + bytes.length ≤ n → n < 2 ^ 63 →
    d (pre ++ (bytes ++ rest)) n pre.length = .ok (a, pre.length + bytes.length)

/-- A credential token as it lies on the wire: type word and payload. -/
structure WireTok where
  type : Nat
  payload : List Nat
  deriving Repr, DecidableEq

/-- The content of a request buffer in the words of the specification: the
seven fixed words (command tag, uid, gid, validate, offline, cross-realm and
enterprise-principal flags), the principal name, and the fields that depend
on the command. -/
structure Wire where
  cmd : Nat
  uid : Nat
  gid : Nat
  validate : Nat
  offline : Nat
  different_realm : Nat
  use_enterprise_princ : Nat
  upn : List Nat
  ccname : List Nat
  keytab : List Nat
  authtok : WireTok
  newauthtok : WireTok
  user : List Nat
  deriving Repr, DecidableEq

/-- A length-prefixed field: the 4-byte length, then the bytes. -/
def wire_field (s : List Nat) : List Nat := le32 s.length ++ s

/-- A token on the wire: the 4-byte type, the 4-byte length, the payload. -/
def wire_tok (t : WireTok) : List Nat := le32 t.type ++ le32 t.payload.length ++ t.payload

/-- The request buffer for the content `w`: the seven words and the
principal name; the cache name, the keytab path and the current-credential
token for authenticate, renew, change-password-preliminary and
change-password; the new-credential token for change-password; the user name
for account-check. -/
def wire_layout (C : SssCli) (w : Wire) : List Nat :=
  le32 w.cmd ++ le32 w.uid ++ le32 w.gid ++ le32 w.validate ++ le32 w.offline ++
  le32 w.different_realm ++ le32 w.use_enterprise_princ ++ wire_field w.upn ++
  (if cmd_has_ccname C (int32_of_uint32 w.cmd) then
      wire_field w.ccname ++ wire_field w.keytab ++ wire_tok w.authtok else []) ++
  (if int32_of_uint32 w.cmd = C.SSS_PAM_CHAUTHTOK then wire_tok w.newauthtok else []) ++
  (if int32_of_uint32 w.cmd = C.SSS_PAM_ACCT_MGMT then wire_field w.user else [])

/-- Every word of the content fits 32 bits and every declared length fits
the 32-bit length word. -/
structure Wire.WellFormed (w : Wire) : Prop where
  cmd : w.cmd < 2 ^ 32
  uid : w.uid < 2 ^ 32
  gid : w.gid < 2 ^ 32
  validate : w.validate < 2 ^ 32
  offline : w.offline < 2 ^ 32
  different_realm : w.different_realm < 2 ^ 32
  use_enterprise_princ : w.use_enterprise_princ < 2 ^ 32
  upn : w.upn.length < 2 ^ 32
  ccname : w.ccname.length < 2 ^ 32
  keytab : w.keytab.length < 2 ^ 32
  authtok_type : w.authtok.type < 2 ^ 32
  authtok : w.authtok.payload.length < 2 ^ 32
  newauthtok_type : w.newauthtok.type < 2 ^ 32
  newauthtok : w.newauthtok.payload.length < 2 ^ 32
  user : w.user.length < 2 ^ 32

/-- The token that `unpack_authtok` builds from a token on the wire, when it
accepts it: the empty token for the empty type; for a password or a
cache-file reference the string that ends at the first NUL of the payload,
provided the payload holds a NUL and the string is not empty. -/
def WireTok.value (A : AuthtokTypes) (t : WireTok) : Option sss_auth_token :=
  if t.type = A.SSS_AUTHTOK_TYPE_EMPTY then some (sss_authtok_set_empty A)
  else if t.type = A.SSS_AUTHTOK_TYPE_PASSWORD ∨ t.type = A.SSS_AUTHTOK_TYPE_CCFILE then
    if (c_string t.payload).length < t.payload.length ∧ (c_string t.payload).length ≠ 0 then
      some { type := t.type, data := c_string t.payload }
    else none
  else none

/-- The tokens that the command puts on the wire are ones that
`unpack_authtok` accepts. -/
structure Wire.Decodable (C : SssCli) (A : AuthtokTypes) (w : Wire) : Prop where
  authtok : cmd_has_ccname C (int32_of_uint32 w.cmd) → (w.authtok.value A).isSome
  newauthtok : int32_of_uint32 w.cmd = C.SSS_PAM_CHAUTHTOK → (w.newauthtok.value A).isSome

/-- The request that the content `w` of a buffer stands for. -/
def Wire.request (C : SssCli) (A : AuthtokTypes) (w : Wire) : krb5_req where
  cmd := int32_of_uint32 w.cmd
  uid := w.uid
  gid := w.gid
  validate := w.validate != 0
  upn_from_different_realm := w.different_realm != 0
  use_enterprise_princ := w.use_enterprise_princ != 0
  upn := c_string w.upn
  ccname := if cmd_has_ccname C (int32_of_uint32 w.cmd) then some (c_string w.ccname) else none
  keytab := if cmd_has_ccname C (int32_of_uint32 w.cmd) then some (c_string w.keytab) else none
  authtok := if cmd_has_ccname C (int32_of_uint32 w.cmd)
    then (w.authtok.value A).getD (sss_authtok_set_empty A) else sss_authtok_set_empty A
  newauthtok := if int32_of_uint32 w.cmd = C.SSS_PAM_CHAUTHTOK
    then (w.newauthtok.value A).getD (sss_authtok_set_empty A) else sss_authtok_set_empty A
  user := if int32_of_uint32 w.cmd = C.SSS_PAM_ACCT_MGMT then some (c_string w.user) else none

/-- A token as the parent puts it on the wire: the empty token has no
payload; a typed token carries its string followed by the terminating NUL,
and the declared length counts that NUL. -/
def sss_auth_token.toWire (A : AuthtokTypes) (t : sss_auth_token) : WireTok where
  type := t.type
  payload := if t.type = A.SSS_AUTHTOK_TYPE_EMPTY then [] else t.data ++ [0]

/-- The content of the buffer that carries the request `r` and the offline
flag: flags are sent as the words 0 and 1, the command tag as its 32-bit
pattern, and fields that the command does not use stay empty. -/
def krb5_req.toWire (A : AuthtokTypes) (r : krb5_req) (offline : Bool) : Wire where
  cmd := (r.cmd % 4294967296).toNat
  uid := r.uid
  gid := r.gid
  validate := if r.validate then 1 else 0
  offline := if offline then 1 else 0
  different_realm := if r.upn_from_different_realm then 1 else 0
  use_enterprise_princ := if r.use_enterprise_princ then 1 else 0
  upn := r.upn
  ccname := r.ccname.getD []
  keytab := r.keytab.getD []
  authtok := r.authtok.toWire A
  newauthtok := r.newauthtok.toWire A
  user := r.user.getD []

/-- Modelled from the spec: the encoder of the request lives in the parent
(`create_send_buffer` in `providers/krb5/krb5_child_handler.c`), which is not
under `src/`.  By the specification a request is the command tag, uid, gid
and the flags, then the length-prefixed principal name and, depending on the
command, the length-prefixed cache name, keytab path and current-credential
token, the new-credential token, or the user name; "every variable-length
field is prefixed by its byte length".  A typed token is sent with its
terminating NUL, which is what the decoder reads it by. -/
def encode_request (C : SssCli) (A : AuthtokTypes) (r : krb5_req) (offline : Bool) :
    List Nat :=
  wire_layout C (r.toWire A offline)

/-- A C string whose length fits the 32-bit length word: no byte is NUL. -/
def IsCString (s : List Nat) : Prop := (∀ b ∈ s, b % 256 ≠ 0) ∧ s.length < 2 ^ 32

instance (s : List Nat) : Decidable (IsCString s) := by
  unfold IsCString; infer_instance

/-- A valid credential token: the empty token, or a password or cache-file
reference holding a non-empty C string. -/
def sss_auth_token.Valid (A : AuthtokTypes) (t : sss_auth_token) : Prop :=
  (t.type = A.SSS_AUTHTOK_TYPE_EMPTY ∧ t.data = []) ∨
  ((t.type = A.SSS_AUTHTOK_TYPE_PASSWORD ∨ t.type = A.SSS_AUTHTOK_TYPE_CCFILE) ∧
    t.data ≠ [] ∧ (∀ b ∈ t.data, b % 256 ≠ 0) ∧ t.data.length + 1 < 2 ^ 32)

/-- A valid request: the tag is an `int`, uid and gid are 32-bit values, the
principal name is a C string, and exactly the fields that the command uses
are present: cache name, keytab path and current-credential token for
authenticate, renew, change-password-preliminary and change-password; the
new-credential token for change-password; the user name for account-check.
The other strings are `NULL` and the other tokens empty. -/
structure krb5_req.Valid (C : SssCli) (A : AuthtokTypes) (r : krb5_req) : Prop where
  cmd : -2147483648 ≤ r.cmd ∧ r.cmd < 2147483648
  uid : r.uid < 2 ^ 32
  gid : r.gid < 2 ^ 32
  upn : IsCString r.upn
  ccname : if cmd_has_ccname C r.cmd then ∃ s, r.ccname = some s ∧ IsCString s
    else r.ccname = none
  keytab : if cmd_has_ccname C r.cmd then ∃ s, r.keytab = some s ∧ IsCString s
    else r.keytab = none
  authtok : if cmd_has_ccname C r.cmd then r.authtok.Valid A
    else r.authtok = sss_authtok_set_empty A
  newauthtok : if r.cmd = C.SSS_PAM_CHAUTHTOK then r.newauthtok.Valid A
    else r.newauthtok = sss_authtok_set_empty A
  user : if r.cmd = C.SSS_PAM_ACCT_MGMT then ∃ s, r.user = some s ∧ IsCString s
    else r.user = none

/-! ## Entry point: the dispatch -/

/-- The operations that `main` dispatches to. -/
inductive Operation where
  | create_empty_ccache
  | tgt_req_child
  | changepw_child (prelim : Bool)
  | kuserok_child
  | renew_tgt_child
  deriving Repr, DecidableEq

/-- The status that each operation returns when `main` runs it. -/
structure OpsEnv where
  create_empty_ccache : Int
  tgt_req_child : Int
  changepw_child : Bool → Int
  kuserok_child : Int
  renew_tgt_child : Int

/-- The state in which the `switch` of `main` is left: the value of `ret`,
the operation that ran, and whether control goes on to `k5c_send_data`
(`break`) or jumps to `done` past it. -/
structure Dispatch where
  ret : Int
  ran : Option Operation
  send : Bool
  deriving Repr, DecidableEq

/-- The `switch (kr->pd->cmd)` of `main`. -/
def main_switch (C : SssCli) (K : Krb5Codes) (ops : OpsEnv) (cmd : Int) (offline : Nat) :
    Dispatch :=
  if cmd = C.SSS_PAM_AUTHENTICATE then
    if offline ≠ 0 then
      { ret := ops.create_empty_ccache, ran := some .create_empty_ccache, send := true }
    else { ret := ops.tgt_req_child, ran := some .tgt_req_child, send := true }
  else if cmd = C.SSS_PAM_CHAUTHTOK then
    { ret := ops.changepw_child false, ran := some (.changepw_child false), send := true }
  else if cmd = C.SSS_PAM_CHAUTHTOK_PRELIM then
    { ret := ops.changepw_child true, ran := some (.changepw_child true), send := true }
  else if cmd = C.SSS_PAM_ACCT_MGMT then
    { ret := ops.kuserok_child, ran := some .kuserok_child, send := true }
  else if cmd = C.SSS_CMD_RENEW then
    if offline ≠ 0 then { ret := K.KRB5_KDC_UNREACH, ran := none, send := false }
    else { ret := ops.renew_tgt_child, ran := some .renew_tgt_child, send := true }
  else { ret := EINVAL, ran := none, send := false }

/-- The command tag is none of the five operations. -/
def unknown_command (C : SssCli) (cmd : Int) : Prop :=
  cmd ∉ [C.SSS_PAM_AUTHENTICATE, C.SSS_PAM_ACCT_MGMT, C.SSS_PAM_CHAUTHTOK,
    C.SSS_PAM_CHAUTHTOK_PRELIM, C.SSS_CMD_RENEW]

instance (C : SssCli) (cmd : Int) : Decidable (unknown_command C cmd) := by
  unfold unknown_command; infer_instance

/-! ## Concrete requests -/

/-- An authenticate request for `a@B.C`, uid and gid 1000, validation on,
cache `/cc`, keytab `/kt`, password `pw`. -/
def sampleRequest : krb5_req where
  cmd := 0x00F1
  uid := 1000
  gid := 1000
  validate := true
  upn_from_different_realm := false
  use_enterprise_princ := false
  upn := [97, 64, 66, 46, 67]
  ccname := some [47, 99, 99]
  keytab := some [47, 107, 116]
  authtok := { type := 1, data := [112, 119] }
  newauthtok := { type := 0, data := [] }
  user := none

/-- The bytes of the buffer that carries `sampleRequest`, online. -/
def sampleBuffer : List Nat :=
  [0xF1, 0, 0, 0, 232, 3, 0, 0, 232, 3, 0, 0, 1, 0, 0, 0, 0, 0, 0, 0, 0, 0, 0, 0, 0, 0, 0, 0,
   5, 0, 0, 0, 97, 64, 66, 46, 67,
   3, 0, 0, 0, 47, 99, 99,
   3, 0, 0, 0, 47, 107, 116,
   1, 0, 0, 0, 3, 0, 0, 0, 112, 119, 0]

/-- A buffer with the command tag 0, which names no operation, followed by
uid and gid 1000, the flags and the principal name `a@B.C`. -/
def unknownCommandBuffer : List Nat :=
  [0, 0, 0, 0, 232, 3, 0, 0, 232, 3, 0, 0, 1, 0, 0, 0, 0, 0, 0, 0, 0, 0, 0, 0, 0, 0, 0, 0,
   5, 0, 0, 0, 97, 64, 66, 46, 67]

/-- The content of `unknownCommandBuffer`. -/
def unknownCommandWire : Wire where
  cmd := 0
  uid := 1000
  gid := 1000
  validate := 1
  offline := 0
  different_realm := 0
  use_enterprise_princ := 0
  upn := [97, 64, 66, 46, 67]
  ccname := []
  keytab := []
  authtok := { type := 0, payload := [] }
  newauthtok := { type := 0, payload := [] }
  user := []

/-- Operations that all return 0. -/
def okOps : OpsEnv where
  create_empty_ccache := 0
  tgt_req_child := 0
  changepw_child := fun _ => 0
  kuserok_child := 0
  renew_tgt_child := 0

/-- The content of `sampleBuffer`. -/
def sampleWire : Wire where
  cmd := 0xF1
  uid := 1000
  gid := 1000
  validate := 1
  offline := 0
  different_realm := 0
  use_enterprise_princ := 0
  upn := [97, 64, 66, 46, 67]
  ccname := [47, 99, 99]
  keytab := [47, 107, 116]
  authtok := { type := 1, payload := [112, 119, 0] }
  newauthtok := { type := 0, payload := [] }
  user := []

/-! ## Response messages and the prompter -/

/-- The value of `ENOENT`. -/
def ENOENT : Int := 2

/-- The message types that the worker puts into a response: the members of
`enum response_type` (`sss_cli.h`) and the two ticket-information types of
`krb5_common.h`. -/
structure ResponseTypes where
  SSS_PAM_ENV_ITEM : Int
  SSS_PAM_USER_INFO : Int
  SSS_PAM_TEXT_MSG : Int
  SSS_KRB5_INFO_TGT_LIFETIME : Int
  SSS_KRB5_INFO_UPN : Int
  SSS_OTP : Int

/-- The message types as the headers of sssd define them. -/
def responseTypes : ResponseTypes where
  SSS_PAM_ENV_ITEM := 0x03
  SSS_PAM_USER_INFO := 0x06
  SSS_PAM_TEXT_MSG := 0x07
  SSS_KRB5_INFO_TGT_LIFETIME := 0x40000001
  SSS_KRB5_INFO_UPN := 0x40000002
  SSS_OTP := 0x08

/-- Modelled from the spec: `pam_add_response` (`providers/dp_pam_data_util.c`)
is not under `src/`.  The specification has the response as an ordered list
of typed messages (type tag, length, payload) that only grows, in insertion
order; the new message holds a copy of the `len` bytes found at `data`.  The
call returns `EOK`, its only failure being that of an allocation. -/
def pam_add_response (resp_list : List response_data) (type : Int) (len : Nat)
    (data : List Nat) : List response_data :=
  resp_list ++ [{ type := type, len := len, data := data.take len }]

/-- The function `sss_krb5_prompter`, on the response list of `kr->pd`:
the value returned and the response list afterwards.  The banner is `none`
for `NULL`. -/
def sss_krb5_prompter (K : Krb5Codes) (R : ResponseTypes) (resp_list : List response_data)
    (banner : Option (List Nat)) (num_prompts : Int) : Int × List response_data :=
  if num_prompts ≠ 0 then (K.KRB5_LIBOS_CANTREADPWD, resp_list)
  else
    match banner with
    | none => (EOK, resp_list)
    | some b =>
      if b.head?.getD 0 % 256 = 0 then (EOK, resp_list)
      else
        (EOK, pam_add_response resp_list R.SSS_PAM_TEXT_MSG ((c_string b).length + 1)
          (c_string b ++ [0]))

/-- The bytes of `"hi"`. -/
def str_hi : List Nat := [104, 105]

/-! ## Armor cache -/

/-- The ticket times `sss_krb5_ticket_times`. -/
structure sss_krb5_ticket_times where
  authtime : Int
  starttime : Int
  endtime : Int
  renew_till : Int
  deriving Repr, DecidableEq

/-- Outcomes of the calls that prepare the armor cache.  `DB_PATH` is the
build-time directory of the private state; `time` is the value of
`time(NULL)`, the seconds since the Epoch; `krb5_cc_retrieve_cred` yields its
error code and the times of the ticket it found. -/
structure FastEnv where
  DB_PATH : List Nat
  cc : CcacheEnv
  krb5_kt_resolve : Int
  krb5_kt_default : Int
  find_principal_in_keytab : Option (List Nat) → Option (List Nat) → Int
  krb5_parse_name : List Nat → Int
  krb5_cc_retrieve_cred : Int × sss_krb5_ticket_times
  time : Nat
  krb5_get_init_creds_keytab : Int
  getenv_SSSD_KRB5_FAST_PRINCIPAL : Option (List Nat)
  sss_krb5_unparse_name_flags : Int × List Nat
  krb5_princ_realm : List Nat
  sss_krb5_get_init_creds_opt_set_fast_ccache_name : Int
  sss_krb5_get_init_creds_opt_set_fast_flags : Int

/-- The function `get_tgt_times`: the value returned, the content of `*tgtt`
afterwards, and the calls made. -/
def get_tgt_times (env : FastEnv) (ccname : List Nat) (tgtt : sss_krb5_ticket_times) :
    Int × sss_krb5_ticket_times × List Call :=
  let krberr := env.cc.krb5_cc_resolve ccname
  if krberr ≠ 0 then (krberr, tgtt, [Call.krb5_cc_resolve ccname])
  else
    let calls := [Call.krb5_cc_resolve ccname, Call.krb5_cc_retrieve_cred, Call.krb5_cc_close]
    if env.krb5_cc_retrieve_cred.1 ≠ 0 then (0, tgtt, calls)
    else (0, env.krb5_cc_retrieve_cred.2, calls)

/-- The function `get_and_save_tgt_with_keytab`. -/
def get_and_save_tgt_with_keytab (env : FastEnv) (ccname : List Nat) : Int × List Call :=
  let kerr := env.krb5_get_init_creds_keytab
  if kerr ≠ 0 then (kerr, [Call.krb5_get_init_creds_keytab])
  else
    let c := create_ccache_file env.cc ccname true
    if c.1 ≠ 0 then (c.1, Call.krb5_get_init_creds_keytab :: c.2)
    else (0, Call.krb5_get_init_creds_keytab :: c.2)

/-- What the conversion `%s` prints for a string argument; for `NULL` the C
library prints `(null)`. -/
def fmt_s (s : Option (List Nat)) : List Nat := s.getD [40, 110, 117, 108, 108, 41]

/-- The bytes of `"/fast_ccache_"`. -/
def str_fast_ccache : List Nat := [47, 102, 97, 115, 116, 95, 99, 99, 97, 99, 104, 101, 95]
/-- The bytes of `"krbtgt/"`. -/
def str_krbtgt : List Nat := [107, 114, 98, 116, 103, 116, 47]

/-- The name `"FILE:%s/fast_ccache_%s"` of the armor cache of a realm. -/
def fast_ccache_name (env : FastEnv) (realm : Option (List Nat)) : List Nat :=
  str_FILE ++ env.DB_PATH ++ str_fast_ccache ++ fmt_s realm

/-- The name `"krbtgt/%s@%s"` of the ticket-granting service of a realm. -/
def krbtgt_name (realm : Option (List Nat)) : List Nat :=
  str_krbtgt ++ fmt_s realm ++ [64] ++ fmt_s realm

/-- The time structure after `memset(&tgtt, 0, sizeof(tgtt))`. -/
def zero_times : sss_krb5_ticket_times :=
  { authtime := 0, starttime := 0, endtime := 0, renew_till := 0 }

/-- The function `check_fast_ccache`: the value returned, the value stored
in `*fast_ccname` (`none` when nothing is stored) and the calls made. -/
def check_fast_ccache (env : FastEnv) (primary realm keytab_name : Option (List Nat)) :
    Int × Option (List Nat) × List Call :=
  let ccname := fast_ccache_name env realm
  let kerr := if keytab_name.isSome then env.krb5_kt_resolve else env.krb5_kt_default
  let calls := [if keytab_name.isSome then Call.krb5_kt_resolve else Call.krb5_kt_default]
  if kerr ≠ 0 then (kerr, none, calls)
  else
    let kerr := env.find_principal_in_keytab primary realm
    let calls := calls ++ [Call.find_principal_in_keytab primary realm]
    if kerr ≠ 0 then (kerr, none, calls ++ [Call.krb5_kt_close])
    else
      let kerr := env.krb5_parse_name (krbtgt_name realm)
      let calls := calls ++ [Call.krb5_parse_name (krbtgt_name realm)]
      if kerr ≠ 0 then (kerr, none, calls ++ [Call.krb5_kt_close])
      else
        let t := get_tgt_times env ccname zero_times
        let calls := calls ++ t.2.2
        if t.1 = 0 ∧ t.2.1.endtime > (env.time : Int) then
          (0, some ccname, calls ++ [Call.krb5_kt_close])
        else
          let k := get_and_save_tgt_with_keytab env ccname
          if k.1 ≠ 0 then (k.1, none, calls ++ k.2 ++ [Call.krb5_kt_close])
          else (0, some ccname, calls ++ k.2 ++ [Call.krb5_kt_close])

/-- The first part of `k5c_setup_fast`: the armoring principal
(`fast_principal`, `fast_principal_realm`) taken from the variable
`SSSD_KRB5_FAST_PRINCIPAL`, or the realm `kr->realm` without a principal, or
the error with which the function returns; and the calls made. -/
def k5c_setup_fast_principal (env : FastEnv) (realm : Option (List Nat)) :
    Except Int (Option (List Nat) × Option (List Nat)) × List Call :=
  match env.getenv_SSSD_KRB5_FAST_PRINCIPAL with
  | some tmp_str =>
    if env.krb5_parse_name tmp_str ≠ 0 then
      (.error (env.krb5_parse_name tmp_str), [Call.krb5_parse_name tmp_str])
    else if env.sss_krb5_unparse_name_flags.1 ≠ 0 then
      (.error env.sss_krb5_unparse_name_flags.1,
        [Call.krb5_parse_name tmp_str, Call.krb5_unparse_name])
    else
      (.ok (some env.sss_krb5_unparse_name_flags.2, some env.krb5_princ_realm),
        [Call.krb5_parse_name tmp_str, Call.krb5_unparse_name])
  | none => (.ok (none, realm), [])

/-- The function `k5c_setup_fast` for the realm `kr->realm` and the keytab
`kr->keytab`: the value returned, the value of `kr->fast_ccname` afterwards
and the calls made. -/
def k5c_setup_fast (env : FastEnv) (realm keytab : Option (List Nat)) (demand : Bool) :
    Int × Option (List Nat) × List Call :=
  match k5c_setup_fast_principal env realm with
  | (.error kerr, calls) => (kerr, none, calls)
  | (.ok (fast_principal, fast_principal_realm), calls) =>
    let c := check_fast_ccache env fast_principal fast_principal_realm keytab
    let calls := calls ++ c.2.2
    if c.1 ≠ 0 then (c.1, c.2.1, calls)
    else
      let name := c.2.1.getD []
      let kerr := env.sss_krb5_get_init_creds_opt_set_fast_ccache_name
      let calls := calls ++ [Call.sss_krb5_get_init_creds_opt_set_fast_ccache_name name]
      if kerr ≠ 0 then (kerr, c.2.1, calls)
      else if demand then
        let kerr := env.sss_krb5_get_init_creds_opt_set_fast_flags
        let calls := calls ++ [Call.sss_krb5_get_init_creds_opt_set_fast_flags]
        if kerr ≠ 0 then (kerr, c.2.1, calls) else (EOK, c.2.1, calls)
      else (EOK, c.2.1, calls)

/-! ## Setup -/

/-- The function `sss_krb5_get_init_creds_opt_alloc`: it allocates the
option block, and allocation is taken to succeed. -/
def sss_krb5_get_init_creds_opt_alloc : Int := 0

/-- The function `get_changepw_options`; the options it sets on the block
are not observed. -/
def get_changepw_options : Int :=
  let kerr := sss_krb5_get_init_creds_opt_alloc
  if kerr ≠ 0 then kerr else 0

/-- The function `tolower` on the bytes of ASCII. -/
def tolower (b : Nat) : Nat := if 65 ≤ b ∧ b ≤ 90 then b + 32 else b

/-- The test `strcasecmp(a, b) == 0`. -/
def strcasecmp_eq (a b : List Nat) : Bool := a.map tolower == b.map tolower

/-- The bytes of `"never"`. -/
def str_never : List Nat := [110, 101, 118, 101, 114]
/-- The bytes of `"try"`. -/
def str_try : List Nat := [116, 114, 121]
/-- The bytes of `"demand"`. -/
def str_demand : List Nat := [100, 101, 109, 97, 110, 100]

/-- Outcomes of the calls of `k5c_setup`: the variables of the process
environment, the library calls, and whether the debug level has the bit
`SSSDBG_TRACE_ALL`. -/
structure SetupEnv where
  getenv_SSSD_KRB5_REALM : Option (List Nat)
  krb5_init_context : Int
  debug_level_trace_all : Bool
  sss_child_set_krb5_tracing : Int
  sss_krb5_parse_name_flags : List Nat → Bool → Int × Principal
  krb5_unparse_name : Int
  krb5_get_init_creds_opt_set_responder : Int
  getenv_SSSD_KRB5_RENEWABLE_LIFETIME : Option (List Nat)
  getenv_SSSD_KRB5_LIFETIME : Option (List Nat)
  krb5_string_to_deltat : List Nat → Int
  getenv_SSSD_KRB5_USE_FAST : Option (List Nat)
  fast : FastEnv

/-- The worker context `struct krb5_req` while an operation runs: the
decoded request, and the fields that `k5c_setup` and the operations fill. -/
structure KrState where
  req : krb5_req
  realm : Option (List Nat)
  princ : Principal
  fast_ccname : Option (List Nat)
  resp_list : List response_data
  deriving Repr, DecidableEq

/-- The worker context that `main` hands to `k5c_setup`: the decoded request
in the zeroed `struct krb5_req`. -/
def KrState.init (req : krb5_req) : KrState where
  req := req
  realm := none
  princ := { name := [], realm := [] }
  fast_ccname := none
  resp_list := []

/-- The part of `k5c_setup` that reads the FAST policy, entered when the
worker is online, with `kerr` as the steps before left it. -/
def k5c_setup_use_fast (env : SetupEnv) (st : KrState) (kerr : Int) : Int × KrState × List Call :=
  match env.getenv_SSSD_KRB5_USE_FAST with
  | none => (kerr, st, [])
  | some use_fast_str =>
    if strcasecmp_eq use_fast_str str_never then (kerr, st, [])
    else if strcasecmp_eq use_fast_str str_try then
      let f := k5c_setup_fast env.fast st.realm st.req.keytab false
      (f.1, { st with fast_ccname := f.2.1 }, f.2.2)
    else if strcasecmp_eq use_fast_str str_demand then
      let f := k5c_setup_fast env.fast st.realm st.req.keytab true
      (f.1, { st with fast_ccname := f.2.1 }, f.2.2)
    else (EINVAL, st, [])

/-- The function `k5c_setup` on the decoded request: the value returned, the
worker context afterwards and the calls made for the armor cache. -/
def k5c_setup (env : SetupEnv) (req : krb5_req) (offline : Nat) : Int × KrState × List Call :=
  let st : KrState := { KrState.init req with realm := env.getenv_SSSD_KRB5_REALM }
  if env.krb5_init_context ≠ 0 then (env.krb5_init_context, st, [])
  else if env.debug_level_trace_all ∧ env.sss_child_set_krb5_tracing ≠ 0 then ( EIO, st, [])
  else
    let p := env.sss_krb5_parse_name_flags req.upn req.use_enterprise_princ
    if p.1 ≠ 0 then (p.1, st, [])
    else
      let st := { st with princ := p.2 }
      if env.krb5_unparse_name ≠ 0 then (env.krb5_unparse_name, st, [])
      else if sss_krb5_get_init_creds_opt_alloc ≠ 0 then (sss_krb5_get_init_creds_opt_alloc, st, [])
      else if env.krb5_get_init_creds_opt_set_responder ≠ 0 then
        (env.krb5_get_init_creds_opt_set_responder, st, [])
      else
        let kerr := env.krb5_get_init_creds_opt_set_responder
        let r : Int := match env.getenv_SSSD_KRB5_RENEWABLE_LIFETIME with
          | none => kerr
          | some lifetime_str => env.krb5_string_to_deltat lifetime_str
        if r ≠ 0 then (r, st, [])
        else
          let l : Int := match env.getenv_SSSD_KRB5_LIFETIME with
            | none => r
            | some lifetime_str => env.krb5_string_to_deltat lifetime_str
          if l ≠ 0 then (l, st, [])
          else if offline = 0 then k5c_setup_use_fast env st l
          else (l, st, [])

/-! ## Operations -/

/-- The cache types `enum sss_krb5_cc_type` (`util/sss_krb5.h`). -/
inductive sss_krb5_cc_type where
  | SSS_KRB5_TYPE_FILE
  | SSS_KRB5_TYPE_DIR
  | SSS_KRB5_TYPE_UNKNOWN
  deriving Repr, DecidableEq

/-- What `krb5_change_password` leaves behind: the error code it returns,
the result code, and the bytes of the two `krb5_data` results (an empty list
for the length 0). -/
structure ChangePasswordResult where
  kerr : Int
  result_code : Int
  result_code_string : List Nat
  result_string : List Nat
  deriving Repr, DecidableEq

/-- Outcomes of the calls of the operations.  The two arguments of
`krb5_get_init_creds_password` are the password and the service name
`in_tkt_service`; with the error code the oracle gives the messages that the
callbacks registered with the library (the prompter, the expiry callback)
append to the response while the call runs.  `times` are the times of the
credentials obtained, `krb5_unparse_name_ext` yields its error code and the
buffer with the principal name, and `pack_user_info_chpass_error`
(`util/user_info_msg.c`) yields the payload built for a message text.  The
answer of `krb5_kuserok` is that of the mapping service in the state that the
two calls before it leave: its first two arguments tell whether `unsetenv`
and `krb5_set_default_realm` succeeded.  The getters
`sss_authtok_get_password` and `sss_authtok_get_ccfile` (`util/authtok.c`)
yield their return value and the string they store through the pointer
argument (`none` when they leave it `NULL`). -/
structure OpEnv where
  cc : CcacheEnv
  kt : ValidateEnv
  pac : PacEnv
  sss_krb5_get_type : List Nat → sss_krb5_cc_type
  krb5_get_init_creds_password : Option (List Nat) → Option (List Nat) → Int × List response_data
  times : sss_krb5_ticket_times
  krb5_unparse_name_ext : Int × List Nat
  krb5_change_password : Option (List Nat) → ChangePasswordResult
  pack_user_info_chpass_error : List Nat → List Nat
  krb5_get_renewed_creds : Int
  unsetenv : Int
  krb5_set_default_realm : Int
  krb5_kuserok : Bool → Bool → Principal → Option (List Nat) → Bool
  sss_authtok_get_password : sss_auth_token → Int × Option (List Nat)
  sss_authtok_get_ccfile : sss_auth_token → Int × Option (List Nat)

/-- The result of an operation: the status returned, the worker context
afterwards, and the calls made. -/
structure OpResult where
  ret : Int
  st : KrState
  calls : List Call
  deriving Repr, DecidableEq

/-- The bytes of `"KRB5CCNAME="`: the name `CCACHE_ENV_NAME` and the equals
sign of the format `"%s=%s"`. -/
def str_KRB5CCNAME_eq : List Nat := [75, 82, 66, 53, 67, 67, 78, 65, 77, 69, 61]

/-- The bytes of `SSSD_KRB5_CHANGEPW_PRINCIPAL`, `"kadmin/changepw"`. -/
def SSSD_KRB5_CHANGEPW_PRINCIPAL : List Nat :=
  [107, 97, 100, 109, 105, 110, 47, 99, 104, 97, 110, 103, 101, 112, 119]

/-- The bytes of `"_SSS_LOOPS"`. -/
def str_SSS_LOOPS : List Nat := [95, 83, 83, 83, 95, 76, 79, 79, 80, 83]

/-- The function `k5c_attach_ccname_msg`. -/
def k5c_attach_ccname_msg (E : SssdErrors) (R : ResponseTypes) (st : KrState) : Int × KrState :=
  match st.req.ccname with
  | none => (E.ERR_INTERNAL, st)
  | some ccname =>
    let msg := str_KRB5CCNAME_eq ++ c_string ccname
    (EOK, { st with resp_list :=
      pam_add_response st.resp_list R.SSS_PAM_ENV_ITEM (msg.length + 1) (msg ++ [0]) })

/-- The eight bytes of an `int64_t` (two's complement, host order). -/
def int64_bytes (v : Int) : List Nat :=
  le32 ((v % 18446744073709551616).toNat % 4294967296) ++
    le32 ((v % 18446744073709551616).toNat / 4294967296)

/-- The function `add_ticket_times_and_upn_to_response`: the response list
afterwards (its return value is only logged by the callers). -/
def add_ticket_times_and_upn_to_response (R : ResponseTypes) (env : OpEnv)
    (resp_list : List response_data) : List response_data :=
  let t := int64_bytes env.times.authtime ++ int64_bytes env.times.starttime ++
    int64_bytes env.times.endtime ++ int64_bytes env.times.renew_till
  let resp_list := pam_add_response resp_list R.SSS_KRB5_INFO_TGT_LIFETIME 32 t
  if env.krb5_unparse_name_ext.1 ≠ 0 then resp_list
  else
    pam_add_response resp_list R.SSS_KRB5_INFO_UPN env.krb5_unparse_name_ext.2.length
      env.krb5_unparse_name_ext.2

/-- The function `create_ccache`, built with `HAVE_KRB5_DIRCACHE`.  The
helper `sss_krb5_get_type` (`util/sss_krb5.c`) answers
`SSS_KRB5_TYPE_UNKNOWN` for a `NULL` name. -/
def create_ccache (env : OpEnv) (uid gid : Nat) (ccname : Option (List Nat)) (creds : Bool) :
    Int × List Call :=
  match ccname with
  | none => (EINVAL, [])
  | some name =>
    match env.sss_krb5_get_type name with
    | .SSS_KRB5_TYPE_FILE => create_ccache_file env.cc name creds
    | .SSS_KRB5_TYPE_DIR => create_ccache_in_dir env.cc uid gid name creds
    | .SSS_KRB5_TYPE_UNKNOWN => (EINVAL, [])

/-- The function `get_and_save_tgt`: the error code returned, the worker
context afterwards and the calls made. -/
def get_and_save_tgt (K : Krb5Codes) (R : ResponseTypes) (env : OpEnv) (st : KrState)
    (password : Option (List Nat)) : OpResult :=
  let a := env.krb5_get_init_creds_password password none
  let st := { st with resp_list := st.resp_list ++ a.2 }
  let calls := [Call.krb5_get_init_creds_password password none]
  if a.1 ≠ 0 then { ret := a.1, st := st, calls := calls }
  else
    let v : Int × List Call :=
      if st.req.validate then validate_tgt K env.kt env.pac st.princ st.req.upn_from_different_realm
      else (0, [])
    let calls := calls ++ v.2
    if v.1 ≠ 0 then { ret := v.1, st := st, calls := calls }
    else
      let b : Int × List Call :=
        if st.req.validate ∨ st.fast_ccname.isSome then
          (env.cc.become_user st.req.uid st.req.gid, [Call.become_user st.req.uid st.req.gid])
        else (0, [])
      let calls := calls ++ b.2
      if b.1 ≠ 0 then { ret := b.1, st := st, calls := calls }
      else
        let c := create_ccache env st.req.uid st.req.gid st.req.ccname true
        let calls := calls ++ c.2
        if c.1 ≠ 0 then { ret := c.1, st := st, calls := calls }
        else
          { ret := 0,
            st := { st with resp_list := add_ticket_times_and_upn_to_response R env st.resp_list },
            calls := calls }

/-- The worker context after `sss_authtok_set_empty(kr->pd->authtok)`. -/
def KrState.clear_authtok (A : AuthtokTypes) (st : KrState) : KrState :=
  { st with req := { st.req with authtok := sss_authtok_set_empty A } }

/-- The worker context after `sss_authtok_set_empty(kr->pd->newauthtok)`. -/
def KrState.clear_newauthtok (A : AuthtokTypes) (st : KrState) : KrState :=
  { st with req := { st.req with newauthtok := sss_authtok_set_empty A } }

/-- The function `tgt_req_child`.  The `switch (ret)` that follows
`sss_authtok_get_password` has no `case` label, so none of its statements is
ever executed: the function goes on with the pointer that the call left. -/
def tgt_req_child (K : Krb5Codes) (E : SssdErrors) (R : ResponseTypes) (A : AuthtokTypes)
    (env : OpEnv) (st : KrState) : OpResult :=
  let password := (env.sss_authtok_get_password st.req.authtok).2
  let g := get_and_save_tgt K R env st password
  if g.ret ≠ K.KRB5KDC_ERR_KEY_EXP then
    let a : Int × KrState := if g.ret = 0 then k5c_attach_ccname_msg E R g.st else (g.ret, g.st)
    { ret := map_krb5_error K E a.1, st := a.2.clear_authtok A, calls := g.calls }
  else if get_changepw_options ≠ 0 then
    { ret := get_changepw_options, st := g.st, calls := g.calls }
  else
    let a := env.krb5_get_init_creds_password password (some SSSD_KRB5_CHANGEPW_PRINCIPAL)
    let st := { g.st with resp_list := g.st.resp_list ++ a.2 }
    let calls := g.calls ++
      [Call.krb5_get_init_creds_password password (some SSSD_KRB5_CHANGEPW_PRINCIPAL)]
    { ret := if a.1 = 0 then E.ERR_CREDS_EXPIRED else map_krb5_error K E a.1,
      st := st.clear_authtok A, calls := calls }

/-- The message text that `changepw_child` takes from the results of
`krb5_change_password`: first the result-code string if it is not empty,
then, replacing it, the result string if that is not empty; `none` is
`NULL`. -/
def user_error_message (r : ChangePasswordResult) : Option (List Nat) :=
  let user_error_message : Option (List Nat) :=
    if r.result_code_string.length > 0 then
      some (talloc_strndup r.result_code_string r.result_code_string.length)
    else none
  if r.result_string.length > 0 then
    some (talloc_strndup r.result_string r.result_string.length)
  else user_error_message

/-- The function `changepw_child`. -/
def changepw_child (K : Krb5Codes) (E : SssdErrors) (R : ResponseTypes) (A : AuthtokTypes)
    (env : OpEnv) (st : KrState) (prelim : Bool) : OpResult :=
  let pw := env.sss_authtok_get_password st.req.authtok
  if pw.1 ≠ EOK then { ret := E.ERR_NO_CREDS, st := st, calls := [] }
  else if get_changepw_options ≠ 0 then { ret := get_changepw_options, st := st, calls := [] }
  else
    let a := env.krb5_get_init_creds_password pw.2 (some SSSD_KRB5_CHANGEPW_PRINCIPAL)
    let st := { st with resp_list := st.resp_list ++ a.2 }
    let calls := [Call.krb5_get_init_creds_password pw.2 (some SSSD_KRB5_CHANGEPW_PRINCIPAL)]
    if a.1 ≠ 0 then { ret := a.1, st := st, calls := calls }
    else
      let st := st.clear_authtok A
      if prelim then { ret := EOK, st := st, calls := calls }
      else
        let npw := env.sss_authtok_get_password st.req.newauthtok
        if npw.1 ≠ EOK then { ret := E.ERR_NO_CREDS, st := st, calls := calls }
        else
          let r := env.krb5_change_password npw.2
          let calls := calls ++ [Call.krb5_change_password npw.2]
          if r.kerr = K.KRB5_KDC_UNREACH then { ret := E.ERR_NETWORK_IO, st := st, calls := calls }
          else if r.kerr ≠ 0 ∨ r.result_code ≠ 0 then
            match user_error_message r with
            | some msg =>
              let user_resp := env.pack_user_info_chpass_error msg
              { ret := E.ERR_CHPASS_FAILED,
                st := { st with resp_list :=
                  pam_add_response st.resp_list R.SSS_PAM_USER_INFO user_resp.length user_resp },
                calls := calls }
            | none => { ret := E.ERR_CHPASS_FAILED, st := st, calls := calls }
          else
            let g := get_and_save_tgt K R env st npw.2
            let st := g.st.clear_newauthtok A
            let a : Int × KrState := if g.ret = 0 then k5c_attach_ccname_msg E R st else (g.ret, st)
            { ret := map_krb5_error K E a.1, st := a.2, calls := calls ++ g.calls }

/-- The function `kuserok_child`. -/
def kuserok_child (E : SssdErrors) (env : OpEnv) (st : KrState) : OpResult :=
  let calls := [Call.unsetenv str_SSS_LOOPS, Call.krb5_set_default_realm st.realm,
    Call.krb5_kuserok st.princ st.req.user]
  let access_allowed := env.krb5_kuserok (env.unsetenv == 0) (env.krb5_set_default_realm == 0)
    st.princ st.req.user
  if access_allowed then { ret := EOK, st := st, calls := calls }
  else { ret := E.ERR_AUTH_DENIED, st := st, calls := calls }

/-- The statements of `renew_tgt_child` between the fetch of the cache name
and the label `done`: the value of `kerr` at `done`, the worker context and
the calls made. -/
def renew_tgt_child_body (K : Krb5Codes) (E : SssdErrors) (R : ResponseTypes) (env : OpEnv)
    (st : KrState) (ccname : List Nat) : OpResult :=
  let calls := [Call.krb5_cc_resolve ccname]
  if env.cc.krb5_cc_resolve ccname ≠ 0 then
    { ret := env.cc.krb5_cc_resolve ccname, st := st, calls := calls }
  else
    let calls := calls ++ [Call.krb5_get_renewed_creds]
    if env.krb5_get_renewed_creds ≠ 0 then
      { ret := env.krb5_get_renewed_creds, st := st, calls := calls ++ [Call.krb5_cc_close] }
    else
      let v : Int × List Call :=
        if st.req.validate then
          validate_tgt K env.kt env.pac st.princ st.req.upn_from_different_realm
        else (0, [])
      let calls := calls ++ v.2
      if v.1 ≠ 0 then { ret := v.1, st := st, calls := calls ++ [Call.krb5_cc_close] }
      else
        let b : Int × List Call :=
          if st.req.validate ∨ st.fast_ccname.isSome then
            (env.cc.become_user st.req.uid st.req.gid, [Call.become_user st.req.uid st.req.gid])
          else (0, [])
        let calls := calls ++ b.2
        if b.1 ≠ 0 then { ret := b.1, st := st, calls := calls ++ [Call.krb5_cc_close] }
        else
          let calls := calls ++ [Call.krb5_cc_initialize]
          if env.cc.krb5_cc_initialize ≠ 0 then
            { ret := env.cc.krb5_cc_initialize, st := st, calls := calls ++ [Call.krb5_cc_close] }
          else
            let calls := calls ++ [Call.krb5_cc_store_cred]
            if env.cc.krb5_cc_store_cred ≠ 0 then
              { ret := env.cc.krb5_cc_store_cred, st := st,
                calls := calls ++ [Call.krb5_cc_close] }
            else
              let st := { st with
                resp_list := add_ticket_times_and_upn_to_response R env st.resp_list }
              let a := k5c_attach_ccname_msg E R st
              { ret := a.1, st := a.2, calls := calls ++ [Call.krb5_cc_close] }

/-- The function `renew_tgt_child`. -/
def renew_tgt_child (K : Krb5Codes) (E : SssdErrors) (R : ResponseTypes) (env : OpEnv)
    (st : KrState) : OpResult :=
  let cc := env.sss_authtok_get_ccfile st.req.authtok
  if cc.1 ≠ EOK then { ret := E.ERR_INVALID_CRED_TYPE, st := st, calls := [] }
  else
    let b := renew_tgt_child_body K E R env st (cc.2.getD [])
    { b with ret := map_krb5_error K E b.ret }

/-- The function `create_empty_ccache`. -/
def create_empty_ccache (K : Krb5Codes) (E : SssdErrors) (R : ResponseTypes) (env : OpEnv)
    (st : KrState) : OpResult :=
  let c := create_ccache env st.req.uid st.req.gid st.req.ccname false
  if c.1 ≠ 0 then { ret := map_krb5_error K E c.1, st := st, calls := c.2 }
  else
    let a := k5c_attach_ccname_msg E R st
    { ret := map_krb5_error K E a.1, st := a.2, calls := c.2 }

/-! ## Entry point: receive, run, send, exit -/

/-- Outcomes of the calls of `main`: the read of the request (the `errno`
left by a failed `sss_atomic_read_s`, or the bytes received), the content
`stack` of the receive buffer behind the bytes received, the environments of
setup and of the operations, the content `junk` of a fresh allocation, and
the write of the response (the `errno` left by a failed
`sss_atomic_write_s`, or the number of bytes written). -/
structure MainEnv where
  sss_atomic_read_s : Except Int (List Nat)
  stack : List Nat
  setup : SetupEnv
  op : OpEnv
  junk : Nat → Nat
  sss_atomic_write_s : List Nat → Except Int Nat

/-- The function `k5c_recv_data`: the error returned, or the request and the
word `*offline`. -/
def k5c_recv_data (C : SssCli) (A : AuthtokTypes) (env : MainEnv) : Except Int (krb5_req × Nat) :=
  match env.sss_atomic_read_s with
  | .error errno => .error errno
  | .ok buf => unpack_buffer C A (buf ++ env.stack) buf.length

/-- The function `k5c_send_data`: the value returned and the buffers handed
to `sss_atomic_write_s`. -/
def k5c_send_data (env : MainEnv) (resp_list : List response_data) (error : Int) :
    Int × List (List Nat) :=
  match pack_response_packet env.junk error resp_list with
  | .error ret => (ret, [])
  | .ok (buf, len) =>
    match env.sss_atomic_write_s (buf.take len) with
    | .error errno => (errno, [buf.take len])
    | .ok written =>
      if written ≠ len then (EOK, [buf.take len])
      else (EOK, [buf.take len])

/-- The operation that `main` runs, on the worker context that `k5c_setup`
left. -/
def run_operation (K : Krb5Codes) (E : SssdErrors) (R : ResponseTypes) (A : AuthtokTypes)
    (env : OpEnv) (st : KrState) : Operation → OpResult
  | .create_empty_ccache => create_empty_ccache K E R env st
  | .tgt_req_child => tgt_req_child K E R A env st
  | .changepw_child prelim => changepw_child K E R A env st prelim
  | .kuserok_child => kuserok_child E env st
  | .renew_tgt_child => renew_tgt_child K E R env st

/-- The statuses of the operations as `main_switch` takes them. -/
def operation_statuses (K : Krb5Codes) (E : SssdErrors) (R : ResponseTypes) (A : AuthtokTypes)
    (env : OpEnv) (st : KrState) : OpsEnv where
  create_empty_ccache := (run_operation K E R A env st .create_empty_ccache).ret
  tgt_req_child := (run_operation K E R A env st .tgt_req_child).ret
  changepw_child := fun prelim => (run_operation K E R A env st (.changepw_child prelim)).ret
  kuserok_child := (run_operation K E R A env st .kuserok_child).ret
  renew_tgt_child := (run_operation K E R A env st .renew_tgt_child).ret

/-- A run of `main`: the argument of `exit`, the operation that ran, the
calls that the operation made, and the buffers handed to
`sss_atomic_write_s` on the standard output. -/
structure MainRun where
  exit_code : Int
  ran : Option Operation
  calls : List Call
  writes : List (List Nat)
  deriving Repr, DecidableEq

/-- The end of `main` at the label `done`. -/
def main_exit (ret : Int) : Int := if ret = EOK then 0 else -1

/-- The function `main` from the call of `k5c_recv_data` on (the command
line is taken to be well formed).  A failed read that leaves `errno` at 0
makes `main` go on without a request; that run is not followed (`none`). -/
def main (C : SssCli) (K : Krb5Codes) (E : SssdErrors) (R : ResponseTypes) (A : AuthtokTypes)
    (env : MainEnv) : Option MainRun :=
  match k5c_recv_data C A env with
  | .error ret =>
    if ret ≠ EOK then some { exit_code := main_exit ret, ran := none, calls := [], writes := [] }
    else none
  | .ok (req, offline) =>
    let s := k5c_setup env.setup req offline
    if s.1 ≠ EOK then
      some { exit_code := main_exit s.1, ran := none, calls := s.2.2, writes := [] }
    else
      let st := s.2.1
      let d := main_switch C K (operation_statuses K E R A env.op st) req.cmd offline
      let o : Option OpResult := d.ran.map (run_operation K E R A env.op st)
      let calls := s.2.2 ++ (o.map (fun r => r.calls)).getD []
      if d.send then
        let resp_list := ((o.map (fun r => r.st)).getD st).resp_list
        let w := k5c_send_data env resp_list d.ret
        some { exit_code := main_exit w.1, ran := d.ran, calls := calls, writes := w.2 }
      else some { exit_code := main_exit d.ret, ran := d.ran, calls := calls, writes := [] }

/-! ## Words of the specification and concrete environments -/

/-- The armor cache `ccname` holds a ticket of the ticket-granting service
for the armoring principal whose end-time is strictly greater than the
current time: the cache opens, the ticket is found, and its end-time lies
after `time(NULL)`. -/
def FastEnv.holds_valid_ticket (env : FastEnv) (ccname : List Nat) : Prop :=
  env.cc.krb5_cc_resolve ccname = 0 ∧ env.krb5_cc_retrieve_cred.1 = 0 ∧
    env.krb5_cc_retrieve_cred.2.endtime > (env.time : Int)

instance (env : FastEnv) (ccname : List Nat) : Decidable (env.holds_valid_ticket ccname) := by
  unfold FastEnv.holds_valid_ticket; infer_instance

/-- The taxonomy of error codes that may cross the process boundary: ok,
no-credentials-supplied, invalid-credential-type, network-unreachable,
credentials-expired, authentication-failed, access-denied, change-failed and
internal. -/
def SssdErrors.taxonomy (E : SssdErrors) : List Int :=
  [E.ERR_OK, E.ERR_NO_CREDS, E.ERR_INVALID_CRED_TYPE, E.ERR_NETWORK_IO, E.ERR_CREDS_EXPIRED,
    E.ERR_AUTH_FAILED, E.ERR_AUTH_DENIED, E.ERR_CHPASS_FAILED, E.ERR_INTERNAL]

/-- The codes that `map_krb5_error` can yield. -/
def SssdErrors.mapped (E : SssdErrors) : List Int :=
  [E.ERR_OK, E.ERR_NO_CREDS, E.ERR_NETWORK_IO, E.ERR_CREDS_EXPIRED, E.ERR_AUTH_FAILED,
    E.ERR_INTERNAL]

/-- The bytes of `"/var/lib/sss/db"`. -/
def str_var_lib_sss_db : List Nat :=
  [47, 118, 97, 114, 47, 108, 105, 98, 47, 115, 115, 115, 47, 100, 98]

/-- The MIT Kerberos value of `KRB5_KT_NOTFOUND`. -/
def KRB5_KT_NOTFOUND : Int := -1765328203
/-- The MIT Kerberos value of `KRB5_PARSE_MALFORMED`. -/
def KRB5_PARSE_MALFORMED : Int := -1765328250

/-- An armor-cache environment in which the keytab opens and every call that
is not a parameter succeeds: `find` is the result of
`find_principal_in_keytab`, `parse` that of `krb5_parse_name`, `retrieve`
that of `krb5_cc_retrieve_cred`, `now` the current time and `acquire` the
result of `krb5_get_init_creds_keytab`. -/
def fastEnv (find parse : Int) (retrieve : Int × sss_krb5_ticket_times) (now : Nat)
    (acquire : Int) : FastEnv where
  DB_PATH := str_var_lib_sss_db
  cc := existingDirEnv 0 0 0o40700 0
  krb5_kt_resolve := 0
  krb5_kt_default := 0
  find_principal_in_keytab := fun _ _ => find
  krb5_parse_name := fun _ => parse
  krb5_cc_retrieve_cred := retrieve
  time := now
  krb5_get_init_creds_keytab := acquire
  getenv_SSSD_KRB5_FAST_PRINCIPAL := none
  sss_krb5_unparse_name_flags := (0, [])
  krb5_princ_realm := []
  sss_krb5_get_init_creds_opt_set_fast_ccache_name := 0
  sss_krb5_get_init_creds_opt_set_fast_flags := 0

/-- Ticket times with the given end-time. -/
def times_until (endtime : Int) : sss_krb5_ticket_times :=
  { authtime := 0, starttime := 0, endtime := endtime, renew_till := 0 }

/-- A setup environment for the realm `EXAMPLE.COM` in which every call
succeeds and the principal parsed is `alice@EXAMPLE.COM`; `use_fast` is the
value of the variable `SSSD_KRB5_USE_FAST`. -/
def setupEnv (use_fast : Option (List Nat)) (fast : FastEnv) : SetupEnv where
  getenv_SSSD_KRB5_REALM := some realm_EXAMPLE_COM
  krb5_init_context := 0
  debug_level_trace_all := false
  sss_child_set_krb5_tracing := 0
  sss_krb5_parse_name_flags := fun _ _ => (0, princ_alice)
  krb5_unparse_name := 0
  krb5_get_init_creds_opt_set_responder := 0
  getenv_SSSD_KRB5_RENEWABLE_LIFETIME := none
  getenv_SSSD_KRB5_LIFETIME := none
  krb5_string_to_deltat := fun _ => 0
  getenv_SSSD_KRB5_USE_FAST := use_fast
  fast := fast

/-- The bytes of `"DIR:"`. -/
def str_DIR : List Nat := [68, 73, 82, 58]

/-- An environment of the operations in which the cache and keytab calls
succeed: `acquire` is the error code of `krb5_get_init_creds_password` for a
password and a service, `change` the outcome of `krb5_change_password`, and
`allowed` the answer of `krb5_kuserok`.  The payload of a change-password
message is the type `SSS_PAM_USER_INFO_CHPASS_ERROR` (4), the length of the
text and the text.  A getter of the credential token gives the string of a
token of its type with `EOK`, `ENOENT` for the empty token and `EACCES` for
a token of another type. -/
def opEnv (acquire : Option (List Nat) → Option (List Nat) → Int)
    (change : ChangePasswordResult) (allowed : Bool) : OpEnv where
  cc := existingDirEnv 1000 1000 0o40700 0
  kt := goodKeytabEnv
  pac := { sss_extract_pac := 0, sss_pac_make_request := (1, 0) }
  sss_krb5_get_type := fun n =>
    if n.take 4 = str_DIR then .SSS_KRB5_TYPE_DIR else .SSS_KRB5_TYPE_FILE
  krb5_get_init_creds_password := fun pw svc => (acquire pw svc, [])
  times := times_until 2000
  krb5_unparse_name_ext := (0, [97, 64, 66, 46, 67, 0])
  krb5_change_password := fun _ => change
  pack_user_info_chpass_error := fun msg => le32 4 ++ le32 msg.length ++ msg
  krb5_get_renewed_creds := 0
  unsetenv := 0
  krb5_set_default_realm := 0
  krb5_kuserok := fun _ _ _ _ => allowed
  sss_authtok_get_password := fun tok =>
    if tok.type = 1 then (EOK, some tok.data)
    else if tok.type = 0 then (ENOENT, none) else (EACCES, none)
  sss_authtok_get_ccfile := fun tok =>
    if tok.type = 2 then (EOK, some tok.data)
    else if tok.type = 0 then (ENOENT, none) else (EACCES, none)

/-- The outcome of a password change that the server accepted. -/
def changeAccepted : ChangePasswordResult :=
  { kerr := 0, result_code := 0, result_code_string := [], result_string := [] }

/-- The worker context for `sampleRequest` after a setup without FAST. -/
def sampleState : KrState :=
  { KrState.init sampleRequest with realm := some realm_EXAMPLE_COM, princ := princ_alice }

/-- The context `sampleState` for a password change from `pw` to `nw`. -/
def chpassState : KrState :=
  { sampleState with req := { sampleRequest with
      cmd := 0x00F6, validate := false, newauthtok := { type := 1, data := [110, 119] } } }

/-- The bytes of the buffer of a password-change request (`SSS_PAM_CHAUTHTOK`)
for `a@B.C`, uid and gid 1000, no validation, online, cache `/cc`, keytab
`/kt`, current password `pw`, new password `nw`. -/
def chpassBuffer : List Nat :=
  [0xF6, 0, 0, 0, 232, 3, 0, 0, 232, 3, 0, 0, 0, 0, 0, 0, 0, 0, 0, 0, 0, 0, 0, 0, 0, 0, 0, 0,
   5, 0, 0, 0, 97, 64, 66, 46, 67,
   3, 0, 0, 0, 47, 99, 99,
   3, 0, 0, 0, 47, 107, 116,
   1, 0, 0, 0, 3, 0, 0, 0, 112, 119, 0,
   1, 0, 0, 0, 3, 0, 0, 0, 110, 119, 0]

/-- The bytes of the buffer of a renew request (`SSS_CMD_RENEW`) for `a@B.C`
with the offline word set to 1: cache `/cc`, keytab `/kt`, and a
cache-file token `/cc`. -/
def renewOfflineBuffer : List Nat :=
  [0xF8, 0, 0, 0, 232, 3, 0, 0, 232, 3, 0, 0, 0, 0, 0, 0, 1, 0, 0, 0, 0, 0, 0, 0, 0, 0, 0, 0,
   5, 0, 0, 0, 97, 64, 66, 46, 67,
   3, 0, 0, 0, 47, 99, 99,
   3, 0, 0, 0, 47, 107, 116,
   2, 0, 0, 0, 4, 0, 0, 0, 47, 99, 99, 0]

/-- The bytes of the buffer of an account-check request (`SSS_PAM_ACCT_MGMT`)
for `a@B.C` and the user name `al`, online. -/
def acctBuffer : List Nat :=
  [0xF3, 0, 0, 0, 232, 3, 0, 0, 232, 3, 0, 0, 0, 0, 0, 0, 0, 0, 0, 0, 0, 0, 0, 0, 0, 0, 0, 0,
   5, 0, 0, 0, 97, 64, 66, 46, 67,
   2, 0, 0, 0, 97, 108]

/-- An environment of `main`: the bytes `request` arrive, setup runs in
`setup`, the operations in `op`, a fresh allocation is filled with zeros,
and the write of the response gives `write`. -/
def mainEnv (request : List Nat) (setup : SetupEnv) (op : OpEnv)
    (write : List Nat → Except Int Nat) : MainEnv where
  sss_atomic_read_s := .ok request
  stack := []
  setup := setup
  op := op
  junk := fun _ => 0
  sss_atomic_write_s := write

/-- The acquisition outcomes of an expired password: the acquisition for the
ticket-granting service fails with `KRB5KDC_ERR_KEY_EXP`, the one for the
service `kadmin/changepw` gives `second`. -/
def expiredPassword (second : Int) : Option (List Nat) → Option (List Nat) → Int :=
  fun _ in_tkt_service => if in_tkt_service.isSome then second else mitCodes.KRB5KDC_ERR_KEY_EXP

/-- The outcome of a password change that did not reach the server. -/
def changeUnreachable : ChangePasswordResult :=
  { kerr := mitCodes.KRB5_KDC_UNREACH, result_code := -1, result_code_string := [],
    result_string := [] }

/-- The outcome of a password change that the server refused with the result
code 4, the result-code string `no` and the result string `hi`. -/
def changeRefused : ChangePasswordResult :=
  { kerr := 0, result_code := 4, result_code_string := [110, 111], result_string := str_hi }

/-- The request that `renewOfflineBuffer` carries. -/
def renewRequest : krb5_req where
  cmd := 0x00F8
  uid := 1000
  gid := 1000
  validate := false
  upn_from_different_realm := false
  use_enterprise_princ := false
  upn := [97, 64, 66, 46, 67]
  ccname := some [47, 99, 99]
  keytab := some [47, 107, 116]
  authtok := { type := 2, data := [47, 99, 99] }
  newauthtok := { type := 0, data := [] }
  user := none

/-! ## Words of the specification: the choice of the keytab entry -/

/-- The keytab entry that the specification has the validator use: the
first entry whose realm is the realm of the authenticated principal, else
the last entry of the keytab (`none` for an empty keytab). -/
def keytab_choice (princ : Principal) (entries : List Principal) : Option Principal :=
  match entries.find? (fun e => e.realm = princ.realm) with
  | some e => some e
  | none => entries.getLast?

/-- The realm `OTHER.ORG`. -/
def realm_OTHER_ORG : List Nat := [79, 84, 72, 69, 82, 46, 79, 82, 71]
/-- The host principal `host@OTHER.ORG`. -/
def princ_host_other : Principal := { name := [104, 111, 115, 116], realm := realm_OTHER_ORG }
/-- The service principal `nfs@OTHER.ORG`. -/
def princ_nfs_other : Principal := { name := [110, 102, 115], realm := realm_OTHER_ORG }

/-- A keytab with two entries, neither of the realm `EXAMPLE.COM`, read to
its end with every call succeeding. -/
def foreignKeytabEnv : ValidateEnv where
  krb5_kt_resolve := 0
  krb5_kt_start_seq_get := 0
  kt_entries := [princ_host_other, princ_nfs_other]
  kt_stop := mitCodes.KRB5_KT_END
  krb5_copy_principal := fun _ => 0
  krb5_kt_end_seq_get := 0
  krb5_unparse_name := fun _ => 0
  krb5_verify_init_creds := fun _ => 0
  validation_ccache := true

/-- A keytab whose second entry is of the realm `EXAMPLE.COM`, followed by
one more entry of that realm. -/
def mixedKeytabEnv : ValidateEnv :=
  { foreignKeytabEnv with kt_entries := [princ_host_other, princ_host, princ_alice] }

/-! ## One-time-password responder -/

/-- The Linux value of `EPROTO`. -/
def EPROTO : Int := 71
/-- The Linux value of `EBADMSG`. -/
def EBADMSG : Int := 74
/-- The Linux value of `EMSGSIZE`. -/
def EMSGSIZE : Int := 90
/-- The Linux value of `ENOTSUP`. -/
def ENOTSUP : Int := 95

/-- The flag masks and format numbers of the OTP responder interface of
libkrb5 (`krb5.h`, not part of the repository); the values are parameters. -/
structure OtpConsts where
  KRB5_RESPONDER_OTP_FLAGS_COLLECT_TOKEN : Nat
  KRB5_RESPONDER_OTP_FLAGS_COLLECT_PIN : Nat
  KRB5_RESPONDER_OTP_FLAGS_NEXTOTP : Nat
  KRB5_RESPONDER_OTP_FLAGS_SEPARATE_PIN : Nat
  KRB5_RESPONDER_OTP_FORMAT_DECIMAL : Int
  KRB5_RESPONDER_OTP_FORMAT_HEXADECIMAL : Int
  KRB5_RESPONDER_OTP_FORMAT_ALPHANUMERIC : Int

/-- The three `case` labels of the `switch` of `pick_checker` are pairwise
different, as C requires of the labels of one `switch`. -/
def OtpConsts.FormatsDistinct (O : OtpConsts) : Prop :=
  List.Nodup [O.KRB5_RESPONDER_OTP_FORMAT_DECIMAL, O.KRB5_RESPONDER_OTP_FORMAT_HEXADECIMAL,
    O.KRB5_RESPONDER_OTP_FORMAT_ALPHANUMERIC]

instance (O : OtpConsts) : Decidable O.FormatsDistinct := by
  unfold OtpConsts.FormatsDistinct; infer_instance

/-- The values that MIT Kerberos gives the masks and formats. -/
def mitOtp : OtpConsts where
  KRB5_RESPONDER_OTP_FLAGS_COLLECT_TOKEN := 0x0001
  KRB5_RESPONDER_OTP_FLAGS_COLLECT_PIN := 0x0002
  KRB5_RESPONDER_OTP_FLAGS_NEXTOTP := 0x0004
  KRB5_RESPONDER_OTP_FLAGS_SEPARATE_PIN := 0x0008
  KRB5_RESPONDER_OTP_FORMAT_DECIMAL := 0
  KRB5_RESPONDER_OTP_FORMAT_HEXADECIMAL := 1
  KRB5_RESPONDER_OTP_FORMAT_ALPHANUMERIC := 2

/-- The fields of `krb5_responder_otp_tokeninfo` that the worker reads: the
flag word, the format and the length (both `krb5_int32`, -1 when the server
did not specify them) and the challenge (`none` for `NULL`). -/
structure krb5_responder_otp_tokeninfo where
  flags : Nat
  format : Int
  length : Int
  challenge : Option (List Nat)
  deriving Repr, DecidableEq

/-- The test `flags & mask` of C. -/
def has_flag (flags mask : Nat) : Bool := Nat.land flags mask != 0

/-- The function `isdigit` in the C locale. -/
def isdigit (c : Nat) : Bool := decide (48 ≤ c ∧ c ≤ 57)
/-- The function `isxdigit` in the C locale. -/
def isxdigit (c : Nat) : Bool :=
  decide ((48 ≤ c ∧ c ≤ 57) ∨ (65 ≤ c ∧ c ≤ 70) ∨ (97 ≤ c ∧ c ≤ 102))
/-- The function `isalnum` in the C locale. -/
def isalnum (c : Nat) : Bool :=
  decide ((48 ≤ c ∧ c ≤ 57) ∨ (65 ≤ c ∧ c ≤ 90) ∨ (97 ≤ c ∧ c ≤ 122))

/-- The function `pick_checker`; `none` is `NULL`. -/
def pick_checker (O : OtpConsts) (format : Int) : Option (Nat → Bool) :=
  if format = O.KRB5_RESPONDER_OTP_FORMAT_DECIMAL then some isdigit
  else if format = O.KRB5_RESPONDER_OTP_FORMAT_HEXADECIMAL then some isxdigit
  else if format = O.KRB5_RESPONDER_OTP_FORMAT_ALPHANUMERIC then some isalnum
  else none

/-- The value of a `krb5_int32` converted to `size_t`, as the comparisons of
`ti->length` with `len` convert it. -/
def size_t_of_int32 (v : Int) : Nat := (v % 2 ^ 64).toNat

/-- The statements of `tokeninfo_matches` before its loop, for the password
memory `pwd` and its length `len`: the error returned, or the values of
`token`, `pin` and `check` with which the loop is entered.  After the PIN is
copied the token is moved to the front of its buffer by `memmove`; the bytes
of the buffer are the copy of the password and its NUL (a password that is
shorter than `len` would make the C code read past the copy, where the model
finds nothing). -/
def tokeninfo_collect (O : OtpConsts) (ti : krb5_responder_otp_tokeninfo) (pwd : List Nat)
    (len : Nat) :
    Except Int (Option (List Nat) × Option (List Nat) × Option (Nat → Bool)) :=
  if has_flag ti.flags O.KRB5_RESPONDER_OTP_FLAGS_NEXTOTP then .error ENOTSUP
  else if ti.challenge.isSome then .error ENOTSUP
  else if ti.length = 0 then .error EPROTO
  else if has_flag ti.flags O.KRB5_RESPONDER_OTP_FLAGS_COLLECT_TOKEN then
    let token := talloc_strndup pwd len
    if has_flag ti.flags O.KRB5_RESPONDER_OTP_FLAGS_COLLECT_PIN then
      if has_flag ti.flags O.KRB5_RESPONDER_OTP_FLAGS_SEPARATE_PIN then
        if ti.length < 1 then .error ENOTSUP
        else if size_t_of_int32 ti.length ≥ len then .error EMSGSIZE
        else
          let pin := talloc_strndup pwd (len - size_t_of_int32 ti.length)
          let token := c_string ((token ++ [0]).drop (len - size_t_of_int32 ti.length))
          .ok (some token, some pin, pick_checker O ti.format)
      else if ti.length > 0 ∧ size_t_of_int32 ti.length > len then .error EMSGSIZE
      else .ok (some token, none, none)
    else if ti.length > 0 ∧ size_t_of_int32 ti.length ≠ len then .error EMSGSIZE
    else .ok (some token, none, pick_checker O ti.format)
  else .ok (none, some (talloc_strndup pwd len), none)

/-- What `tokeninfo_matches` hands back: its return value, and the strings
stored through `out_token` and `out_pin` (`none` where the pointer is left
as it was, `NULL`). -/
structure otp_match where
  ret : Int
  token : Option (List Nat)
  pin : Option (List Nat)
  deriving Repr, DecidableEq

/-- The function `tokeninfo_matches`: after the statements of
`tokeninfo_collect`, the loop hands every character of the token to the
checker, if there is one, and returns `EBADMSG` at the first that fails. -/
def tokeninfo_matches (O : OtpConsts) (ti : krb5_responder_otp_tokeninfo) (pwd : List Nat)
    (len : Nat) : otp_match :=
  match tokeninfo_collect O ti pwd len with
  | .error e => { ret := e, token := none, pin := none }
  | .ok (token, pin, check) =>
    match check with
    | some chk =>
      if (token.getD []).all chk then { ret := 0, token := token, pin := pin }
      else { ret := EBADMSG, token := none, pin := none }
    | none => { ret := 0, token := token, pin := pin }


/-- The state in which the `for` loop of `answer_otp` is left: the index
`i` and the tokeninfo `chl->tokeninfo[i]` found there (`none` for the `NULL`
that ends the array), the value of `ret`, whether the loop was left by
`goto done` (`aborted`), and the token and PIN that a match stored. -/
structure OtpScan where
  i : Nat
  at_i : Option krb5_responder_otp_tokeninfo
  ret : Int
  aborted : Bool
  token : Option (List Nat)
  pin : Option (List Nat)
  deriving Repr, DecidableEq

/-- The `for` loop of `answer_otp` over the tokeninfos from index `i` on,
`m` being the call of `tokeninfo_matches` on a tokeninfo.  In the `switch`
the four listed codes leave the `switch` only, so the loop goes on with the
next tokeninfo; any other code jumps to `done`. -/
def answer_otp_loop (m : krb5_responder_otp_tokeninfo → otp_match) :
    List krb5_responder_otp_tokeninfo → Nat → Int → OtpScan
  | [], i, ret =>
    { i := i, at_i := none, ret := ret, aborted := false, token := none, pin := none }
  | ti :: rest, i, _ =>
    if (m ti).ret = EOK then
      { i := i, at_i := some ti, ret := (m ti).ret, aborted := false, token := (m ti).token,
        pin := (m ti).pin }
    else if (m ti).ret = EBADMSG ∨ (m ti).ret = EMSGSIZE ∨ (m ti).ret = ENOTSUP ∨
        (m ti).ret = EPROTO then
      answer_otp_loop m rest (i + 1) (m ti).ret
    else
      { i := i, at_i := some ti, ret := (m ti).ret, aborted := true, token := none,
        pin := none }

/-- Outcomes of the calls of `answer_otp`: `krb5_responder_otp_get_challenge`
yields its return value and the challenge (`none` for `NULL`; the challenge
is its array of tokeninfos up to the terminating `NULL`, `none` for a `NULL`
array); the getter of the credential token yields its return value, the
password and its length; `krb5_responder_otp_set_answer` yields its return
value for an index, a token value and a PIN. -/
structure OtpEnv where
  krb5_responder_otp_get_challenge :
    Int × Option (Option (List krb5_responder_otp_tokeninfo))
  sss_authtok_get_password : sss_auth_token → Int × List Nat × Nat
  krb5_responder_otp_set_answer : Nat → Option (List Nat) → Option (List Nat) → Int

/-- What a run of `answer_otp` leaves: the value returned, the response list
of `kr->pd`, and the calls made, among them the answer given to the
library. -/
structure OtpRun where
  ret : Int
  resp_list : List response_data
  calls : List Call
  deriving Repr, DecidableEq

/-- The function `answer_otp` with the matcher `m` in the place of the call
of `tokeninfo_matches` (given the password and its length). -/
def answer_otp_with (O : OtpConsts) (R : ResponseTypes) (env : OtpEnv)
    (m : List Nat → Nat → krb5_responder_otp_tokeninfo → otp_match)
    (authtok : sss_auth_token) (resp_list : List response_data) : OtpRun :=
  let calls := [Call.krb5_responder_otp_get_challenge]
  match env.krb5_responder_otp_get_challenge with
  | (ret, none) => { ret := ret, resp_list := resp_list, calls := calls }
  | (ret, some tokeninfo) =>
    if ret ≠ EOK then { ret := ret, resp_list := resp_list, calls := calls }
    else
      let done := [Call.krb5_responder_otp_challenge_free]
      if (tokeninfo.getD []) = [] then
        { ret := EINVAL, resp_list := resp_list, calls := calls ++ done }
      else
        let pw := env.sss_authtok_get_password authtok
        let calls := calls ++ [Call.sss_authtok_get_password]
        if pw.1 ≠ EOK then { ret := pw.1, resp_list := resp_list, calls := calls ++ done }
        else
          let s := answer_otp_loop (m pw.2.1 pw.2.2) (tokeninfo.getD []) 0 pw.1
          if s.aborted then { ret := s.ret, resp_list := resp_list, calls := calls ++ done }
          else
            match s.at_i with
            | none => { ret := EOK, resp_list := resp_list, calls := calls ++ done }
            | some ti =>
              let answer := Call.krb5_responder_otp_set_answer s.i s.token s.pin
              let ret := env.krb5_responder_otp_set_answer s.i s.token s.pin
              if has_flag ti.flags O.KRB5_RESPONDER_OTP_FLAGS_COLLECT_TOKEN then
                { ret := ret, resp_list := pam_add_response resp_list R.SSS_OTP 0 [],
                  calls := calls ++ [Call.pam_add_response R.SSS_OTP, answer] ++ done }
              else { ret := ret, resp_list := resp_list, calls := calls ++ [answer] ++ done }

/-- The function `answer_otp`. -/
def answer_otp (O : OtpConsts) (R : ResponseTypes) (env : OtpEnv) (authtok : sss_auth_token)
    (resp_list : List response_data) : OtpRun :=
  answer_otp_with O R env (fun pwd len ti => tokeninfo_matches O ti pwd len) authtok resp_list

/-- The function `sss_krb5_responder` for a context `kr` that is not
`NULL`. -/
def sss_krb5_responder (O : OtpConsts) (R : ResponseTypes) (env : OtpEnv)
    (authtok : sss_auth_token) (resp_list : List response_data) : OtpRun :=
  answer_otp O R env authtok resp_list


/-- A rejection that lets the loop of `answer_otp` go on with the next
tokeninfo: one of `EBADMSG`, `EMSGSIZE`, `ENOTSUP`, `EPROTO`. -/
def otp_rejected (ret : Int) : Prop :=
  ret ≠ EOK ∧ (ret = EBADMSG ∨ ret = EMSGSIZE ∨ ret = ENOTSUP ∨ ret = EPROTO)

instance (ret : Int) : Decidable (otp_rejected ret) := by
  unfold otp_rejected; infer_instance

/-- An OTP environment with the challenge `tokeninfo`, in which the getter
gives the password of a password token (type 1) with its length, and the
answer is accepted. -/
def otpEnv (tokeninfo : List krb5_responder_otp_tokeninfo) : OtpEnv where
  krb5_responder_otp_get_challenge := (EOK, some (some tokeninfo))
  sss_authtok_get_password := fun tok =>
    if tok.type = 1 then (EOK, tok.data, tok.data.length) else (EACCES, [], 0)
  krb5_responder_otp_set_answer := fun _ _ _ => 0

/-- A tokeninfo that asks for a PIN only, of a length of 4. -/
def pinOnlyTokeninfo : krb5_responder_otp_tokeninfo :=
  { flags := 2, format := -1, length := 4, challenge := none }

/-- A tokeninfo that asks for a decimal token value of 6 digits. -/
def sixDigitTokeninfo : krb5_responder_otp_tokeninfo :=
  { flags := 1, format := 0, length := 6, challenge := none }

/-- A tokeninfo that asks for the next token value (`NEXTOTP`). -/
def nextOtpTokeninfo : krb5_responder_otp_tokeninfo :=
  { flags := 5, format := 0, length := 6, challenge := none }

/-- A tokeninfo that asks for PIN and decimal token value together, of a
length of at most 4. -/
def pinAndTokenTokeninfo : krb5_responder_otp_tokeninfo :=
  { flags := 3, format := 0, length := 4, challenge := none }


/-! ## An authenticate request without a password -/

/-- The acquisition outcome of a library that is given no password: with a
`NULL` password it turns to the prompter, which cannot read one
(`KRB5_LIBOS_CANTREADPWD`); with a password it succeeds. -/
def acquireNeedsPassword : Option (List Nat) → Option (List Nat) → Int :=
  fun password _ => if password.isNone then mitCodes.KRB5_LIBOS_CANTREADPWD else 0

/-- The context `sampleState` of an authenticate request whose credential
token is a cache-file token (type 2) holding `/cc` instead of a password. -/
def ccfileAuthState : KrState :=
  { sampleState with req := { sampleRequest with authtok := { type := 2, data := [47, 99, 99] } } }

/-- The context `sampleState` of an authenticate request whose credential
token is empty (type 0). -/
def emptyAuthState : KrState :=
  { sampleState with req := { sampleRequest with authtok := { type := 0, data := [] } } }

/-! ## The SID of the domain (`sdap_idmap.c`) -/

/-- The Linux value of `ERANGE`. -/
def ERANGE : Int := 34
/-- The value of `UINT32_MAX`. -/
def UINT32_MAX : Int := 4294967295
/-- The value of `ULLONG_MAX` for the 64-bit `unsigned long long`. -/
def ULLONG_MAX : Nat := 2 ^ 64 - 1

/-- The macros `DOM_SID_PREFIX` and `DOM_SID_PREFIX_LEN`, which come from a
header that is not under `src/`. -/
structure SidConsts where
  DOM_SID_PREFIX : List Nat
  DOM_SID_PREFIX_LEN : Nat
  deriving Repr, DecidableEq

/-- The values of the macros: the bytes of `"S-1-5-21-"` and their number. -/
def sidConsts : SidConsts where
  DOM_SID_PREFIX := [83, 45, 49, 45, 53, 45, 50, 49, 45]
  DOM_SID_PREFIX_LEN := 9

/-- The function `isspace` in the C locale. -/
def isspace (c : Nat) : Bool := decide (c = 32 ∨ (9 ≤ c ∧ c ≤ 13))

/-- The test `strncmp(a, b, n) == 0` for two C strings: at most `n` bytes
are compared, and the comparison ends with the terminating NUL. -/
def strncmp_eq (a b : List Nat) (n : Nat) : Bool :=
  (c_string a ++ [0]).take n == (c_string b ++ [0]).take n

/-- What a call of `strtoull` leaves: the value returned, the offset of
`*endptr` from `nptr`, and the value of `errno` when it was 0 before. -/
structure strtoull_result where
  value : Nat
  endptr : Nat
  errno : Int
  deriving Repr, DecidableEq

/-- The C library function `strtoull(nptr, &endptr, 10)`: white space is
skipped, one sign is taken, then the decimal digits.  Without a digit nothing
is converted: 0 is returned and `*endptr` is `nptr`; `noconv` is the value
that the library leaves in `errno` then (0 with glibc, `EINVAL` where the
library reports it).  A value above `ULLONG_MAX` gives `ULLONG_MAX` and
`ERANGE`; with a minus sign the value is negated in `unsigned long long`. -/
def strtoull (noconv : Int) (nptr : List Nat) : strtoull_result :=
  let s := c_string nptr
  let ws := (s.takeWhile isspace).length
  let sign : Nat := if (s.drop ws).head? = some 43 ∨ (s.drop ws).head? = some 45 then 1 else 0
  let digits := (s.drop (ws + sign)).takeWhile isdigit
  if digits.isEmpty then { value := 0, endptr := 0, errno := noconv }
  else
    let v := digits.foldl (fun acc d => 10 * acc + (d - 48)) 0
    let endptr := ws + sign + digits.length
    if v > ULLONG_MAX then { value := ULLONG_MAX, endptr := endptr, errno := ERANGE }
    else if (s.drop ws).head? = some 45 then
      { value := (2 ^ 64 - v) % 2 ^ 64, endptr := endptr, errno := 0 }
    else { value := v, endptr := endptr, errno := 0 }

/-- The value of an `unsigned long long` after it is stored in a
`long long` (two's complement, 64 bits). -/
def long_long_of_ull (v : Nat) : Int :=
  if v % 2 ^ 64 < 2 ^ 63 then ((v % 2 ^ 64 : Nat) : Int) else ((v % 2 ^ 64 : Nat) : Int) - 2 ^ 64

/-- One pass of the `do` loop of `sdap_idmap_get_dom_sid_from_object` with
`p` at the offset `p` of `object_sid`: `EINVAL`, or the offsets of `endptr`
and of the new `p`.  The result of `strtoull` is stored in the `long long`
variable `a` before it is compared with `UINT32_MAX`. -/
def dom_sid_number (noconv : Int) (object_sid : List Nat) (p : Nat) : Except Int (Nat × Nat) :=
  let r := strtoull noconv (object_sid.drop p)
  let a := long_long_of_ull r.value
  if r.errno ≠ 0 ∨ a > UINT32_MAX then .error EINVAL
  else if ((c_string object_sid).drop (p + r.endptr)).head? = some 45 then
    .ok (p + r.endptr, p + r.endptr + 1)
  else .error EINVAL

/-- The `do` loop of `sdap_idmap_get_dom_sid_from_object` with `n` passes
still to make: `EINVAL`, or the offset of `endptr` after the last pass. -/
def dom_sid_numbers (noconv : Int) (object_sid : List Nat) : Nat → Nat → Nat → Except Int Nat
  | 0, _, endptr => .ok endptr
  | n + 1, p, _ =>
    match dom_sid_number noconv object_sid p with
    | .error e => .error e
    | .ok (endptr, p) => dom_sid_numbers noconv object_sid n p endptr

/-- The function `sdap_idmap_get_dom_sid_from_object`: the value returned
and the string stored through `dom_sid_str` (`none` where nothing is
stored).  The argument `none` is the `NULL` pointer. -/
def sdap_idmap_get_dom_sid_from_object (S : SidConsts) (noconv : Int)
    (object_sid : Option (List Nat)) : Int × Option (List Nat) :=
  match object_sid with
  | none => (EINVAL, none)
  | some sid =>
    if !strncmp_eq sid S.DOM_SID_PREFIX S.DOM_SID_PREFIX_LEN then (EINVAL, none)
    else
      match dom_sid_numbers noconv sid 3 S.DOM_SID_PREFIX_LEN 0 with
      | .error e => (e, none)
      | .ok endptr => (EOK, some (talloc_strndup sid endptr))

/-- The bytes of `S-1-5-21-9223372036854775808-2-3-500`: the first
sub-authority is `2 ^ 63`. -/
def sidHugeSubauthority : List Nat :=
  [83, 45, 49, 45, 53, 45, 50, 49, 45, 57, 50, 50, 51, 51, 55, 50, 48, 51, 54, 56, 53, 52, 55,
    55, 53, 56, 48, 56, 45, 50, 45, 51, 45, 53, 48, 48]

/-- The bytes of `S-1-5-21-4294967296-2-3-500`: the first sub-authority is
`UINT32_MAX + 1`. -/
def sidLargeSubauthority : List Nat :=
  [83, 45, 49, 45, 53, 45, 50, 49, 45, 52, 50, 57, 52, 57, 54, 55, 50, 57, 54, 45, 50, 45, 51,
    45, 53, 48, 48]

/-- The bytes of `S-1-5-21-1-2-3-500`. -/
def sidOfUser : List Nat :=
  [83, 45, 49, 45, 53, 45, 50, 49, 45, 49, 45, 50, 45, 51, 45, 53, 48, 48]

/-- The bytes of `S-1-5-21--2-3-4-500`: the first sub-authority carries a
minus sign. -/
def sidSignedSubauthority : List Nat :=
  [83, 45, 49, 45, 53, 45, 50, 49, 45, 45, 50, 45, 51, 45, 52, 45, 53, 48, 48]

/-! ## Host groups (`ipa_hbac_hosts.c`) -/

/-- A component of a parsed DN (`struct ldb_dn_component`): the attribute
name and the bytes of the value (`struct ldb_val`: `length` bytes at `data`,
followed by a NUL). -/
structure ldb_dn_component where
  name : List Nat
  value : List Nat
  deriving Repr, DecidableEq

/-- The library libldb: for the string of a DN, the components that
`ldb_dn_new` and `ldb_dn_validate` find, the RDN first, or `none` where
`ldb_dn_validate` refuses the string. -/
structure LdbEnv where
  ldb_dn_validate : List Nat → Option (List ldb_dn_component)

/-- The test `strncasecmp(a, b, n) == 0` for two C strings. -/
def strncasecmp_eq (a b : List Nat) (n : Nat) : Bool :=
  ((c_string a ++ [0]).take n).map tolower == ((c_string b ++ [0]).take n).map tolower

/-- The bytes of `"cn"`. -/
def str_cn : List Nat := [99, 110]
/-- The bytes of `"hostgroups"`. -/
def str_hostgroups : List Nat := [104, 111, 115, 116, 103, 114, 111, 117, 112, 115]
/-- The bytes of `"accounts"`. -/
def str_accounts : List Nat := [97, 99, 99, 111, 117, 110, 116, 115]

/-- The function `get_ipa_hostgroupname`: the value returned and the string
stored in `*hostgroupname` (`none` is `NULL`).  A validated DN of four or
more components has an RDN, so `ldb_dn_get_rdn_name` is not `NULL` there;
the `EINVAL` of that test stands in the last line. -/
def get_ipa_hostgroupname (env : LdbEnv) (host_dn : List Nat) : Int × Option (List Nat) :=
  match env.ldb_dn_validate host_dn with
  | none => (EINVAL, none)
  | some dn =>
    if dn.length < 4 then (ENOENT, none)
    else
      match dn with
      | rdn :: hostgroup_comp :: account_comp :: _ =>
        if !strcasecmp_eq str_cn rdn.name then (ENOENT, none)
        else if !strcasecmp_eq str_cn hostgroup_comp.name then (ENOENT, none)
        else if !strncasecmp_eq str_hostgroups hostgroup_comp.value
            hostgroup_comp.value.length then (ENOENT, none)
        else if !strcasecmp_eq str_cn account_comp.name then (ENOENT, none)
        else if !strncasecmp_eq str_accounts account_comp.value
            account_comp.value.length then (ENOENT, none)
        else (EOK, some (talloc_strndup rdn.value rdn.value.length))
      | _ => (EINVAL, none)

/-- The pieces of a byte string between the separators `sep`. -/
def split_on (sep : Nat) : List Nat → List (List Nat)
  | [] => [[]]
  | b :: rest =>
    if b = sep then [] :: split_on sep rest
    else
      match split_on sep rest with
      | [] => [[b]]
      | piece :: pieces => (b :: piece) :: pieces

/-- A component `name=value` of a DN without escaped characters. -/
def plain_component (c : List Nat) : Option ldb_dn_component :=
  let name := c.takeWhile (fun b => b != 61)
  match c.drop name.length with
  | _ :: value => if name.isEmpty ∨ value.isEmpty then none else some { name := name, value := value }
  | [] => none

/-- The components of the pieces of a DN, `none` when one is malformed. -/
def plain_components : List (List Nat) → Option (List ldb_dn_component)
  | [] => some []
  | c :: cs =>
    match plain_component c, plain_components cs with
    | some x, some xs => some (x :: xs)
    | _, _ => none

/-- What libldb finds in a DN without escaped characters: the components
between the commas, each an attribute name, `=` and a value. -/
def plainLdbEnv : LdbEnv where
  ldb_dn_validate := fun s => plain_components (split_on 44 s)

/-- The bytes of the DN `cn=g,cn=host,cn=acc,dc=x`. -/
def dnShortValues : List Nat :=
  [99, 110, 61, 103, 44, 99, 110, 61, 104, 111, 115, 116, 44, 99, 110, 61, 97, 99, 99, 44, 100,
    99, 61, 120]

/-- The bytes of the DN `cn=g,cn=hostgroups,cn=accounts,dc=x`. -/
def dnHostgroup : List Nat :=
  [99, 110, 61, 103, 44, 99, 110, 61, 104, 111, 115, 116, 103, 114, 111, 117, 112, 115, 44, 99,
    110, 61, 97, 99, 99, 111, 117, 110, 116, 115, 44, 100, 99, 61, 120]

/-- The bytes of the DN `cn=g,cn=hostgroupsx,cn=accounts,dc=x`. -/
def dnLongValue : List Nat :=
  [99, 110, 61, 103, 44, 99, 110, 61, 104, 111, 115, 116, 103, 114, 111, 117, 112, 115, 120, 44,
    99, 110, 61, 97, 99, 99, 111, 117, 110, 116, 115, 44, 100, 99, 61, 120]

/-! ## Theorems -/


/-- C5: `map_krb5_error` is a total function that maps `0` to ok,
`KRB5_LIBOS_CANTREADPWD` to no-credentials-supplied, `KRB5_KDC_UNREACH` to
network-unreachable, `KRB5KDC_ERR_KEY_EXP` to credentials-expired, the three
integrity and pre-authentication codes to authentication-failed and every
other code to internal; it returns ok exactly for the input `0`. -/
theorem map_krb5_error_table (K : Krb5Codes) (E : SssdErrors)
    (hK : K.LabelsDistinct) (hE : E.OkDistinct) :
    map_krb5_error K E 0 = E.ERR_OK ∧
    map_krb5_error K E K.KRB5_LIBOS_CANTREADPWD = E.ERR_NO_CREDS ∧
    map_krb5_error K E K.KRB5_KDC_UNREACH = E.ERR_NETWORK_IO ∧
    map_krb5_error K E K.KRB5KDC_ERR_KEY_EXP = E.ERR_CREDS_EXPIRED ∧
    map_krb5_error K E K.KRB5KRB_AP_ERR_BAD_INTEGRITY = E.ERR_AUTH_FAILED ∧
    map_krb5_error K E K.KRB5_PREAUTH_FAILED = E.ERR_AUTH_FAILED ∧
    map_krb5_error K E K.KRB5KDC_ERR_PREAUTH_FAILED = E.ERR_AUTH_FAILED ∧
    (∀ kerr : Int, kerr ∉ [0, K.KRB5_LIBOS_CANTREADPWD, K.KRB5_KDC_UNREACH,
        K.KRB5KDC_ERR_KEY_EXP, K.KRB5KRB_AP_ERR_BAD_INTEGRITY, K.KRB5_PREAUTH_FAILED,
        K.KRB5KDC_ERR_PREAUTH_FAILED] → map_krb5_error K E kerr = E.ERR_INTERNAL) ∧
    (∀ kerr : Int, map_krb5_error K E kerr = E.ERR_OK ↔ kerr = 0) := by
  simp only [Krb5Codes.LabelsDistinct, List.nodup_cons, List.mem_cons, List.mem_singleton,
    List.not_mem_nil, not_or, or_false, List.nodup_nil, and_true] at hK
  obtain ⟨⟨h01, h02, h03, h04, h05, h06⟩, ⟨h12, h13, h14, h15, h16⟩, ⟨h23, h24, h25, h26⟩,
    ⟨h34, h35, h36⟩, ⟨h45, h46⟩, h56, -⟩ := hK
  obtain ⟨e1, e2, e3, e4, e5⟩ := hE
  refine ⟨?_, ?_, ?_, ?_, ?_, ?_, ?_, ?_, ?_⟩
  · simp [map_krb5_error]
  · simp [map_krb5_error, Ne.symm h01]
  · simp [map_krb5_error, Ne.symm h02, Ne.symm h12]
  · simp [map_krb5_error, Ne.symm h03, Ne.symm h13, Ne.symm h23]
  · simp [map_krb5_error, Ne.symm h04, Ne.symm h14, Ne.symm h24, Ne.symm h34]
  · simp [map_krb5_error, Ne.symm h05, Ne.symm h15, Ne.symm h25, Ne.symm h35, Ne.symm h45]
  · simp [map_krb5_error, Ne.symm h06, Ne.symm h16, Ne.symm h26, Ne.symm h36, Ne.symm h46,
      Ne.symm h56]
  · intro kerr hk
    simp only [List.mem_cons, List.mem_singleton, List.not_mem_nil, not_or, or_false] at hk
    obtain ⟨k0, k1, k2, k3, k4, k5, k6⟩ := hk
    simp [map_krb5_error, k0, k1, k2, k3, k4, k5, k6]
  · intro kerr
    constructor
    · intro h
      by_contra hne
      unfold map_krb5_error at h
      rw [if_neg hne] at h
      split_ifs at h
      · exact e1 h.symm
      · exact e2 h.symm
      · exact e3 h.symm
      · exact e4 h.symm
      · exact e4 h.symm
      · exact e4 h.symm
      · exact e5 h.symm
    · rintro rfl
      simp [map_krb5_error]

/-- Witness of C5 at the MIT Kerberos codes and the sssd taxonomy: the
hypotheses hold there and the table follows. -/
theorem map_krb5_error_table_witness :
    mitCodes.LabelsDistinct ∧ sssdErrors.OkDistinct ∧
    map_krb5_error mitCodes sssdErrors (-1765328360) = 0x555D0009 ∧
    (∀ kerr : Int, map_krb5_error mitCodes sssdErrors kerr = 0 ↔ kerr = 0) :=
  ⟨by decide, by decide,
    (map_krb5_error_table mitCodes sssdErrors (by decide) (by decide)).2.2.2.2.2.2.1,
    (map_krb5_error_table mitCodes sssdErrors (by decide) (by decide)).2.2.2.2.2.2.2.2⟩

theorem le32_length (v : Nat) : (le32 v).length = 4 := rfl
theorem int32_bytes_length (v : Int) : (int32_bytes v).length = 4 := rfl

theorem safealign_memcpy_append (pre src rest : List Nat) (n : Nat) (hn : src.length = n)
    (hr : n ≤ rest.length) :
    safealign_memcpy (pre ++ rest) src n pre.length = (pre ++ src ++ rest.drop n, pre.length + n) := by
  subst hn
  simp [safealign_memcpy, List.drop_append]


theorem size_loop (l : List response_data) (s : Nat)
    (h : s + msgs_size l < 2 ^ 64) :
    l.foldl (fun size pdr => (size + (2 * 4 + pdr.len)) % 2 ^ 64) s = s + msgs_size l := by
  induction l generalizing s with
  | nil => simp [msgs_size]
  | cons m l ih =>
    simp only [List.foldl_cons, msgs_size] at h ⊢
    rw [Nat.mod_eq_of_lt (by omega), ih _ (by omega)]
    omega

theorem write_loop (l : List response_data) (pre rest : List Nat)
    (hwf : ∀ m ∈ l, m.data.length = m.len)
    (hr : msgs_size l ≤ rest.length) :
    l.foldl (fun bp pdr =>
      let bp := SAFEALIGN_SET_INT32 bp.1 pdr.type bp.2
      let bp := SAFEALIGN_SET_INT32 bp.1 (pdr.len : Int) bp.2
      safealign_memcpy bp.1 pdr.data pdr.len bp.2) (pre ++ rest, pre.length)
    = (pre ++ l.flatMap (fun m => int32_bytes m.type ++ int32_bytes (m.len : Int) ++ m.data)
        ++ rest.drop (msgs_size l),
       pre.length + msgs_size l) := by
  induction l generalizing pre rest with
  | nil => simp [msgs_size]
  | cons m l ih =>
    simp only [List.foldl_cons, msgs_size, List.flatMap_cons] at hr ⊢
    have hm : m.data.length = m.len := hwf m (List.mem_cons_self _ _)
    have h1 : SAFEALIGN_SET_INT32 (pre ++ rest) m.type pre.length
        = (pre ++ int32_bytes m.type ++ rest.drop 4, pre.length + 4) :=
      safealign_memcpy_append pre _ rest 4 rfl (by omega)
    rw [h1]
    have h2 : SAFEALIGN_SET_INT32 (pre ++ int32_bytes m.type ++ rest.drop 4) (m.len : Int)
        (pre.length + 4)
        = (pre ++ int32_bytes m.type ++ int32_bytes (m.len : Int) ++ (rest.drop 4).drop 4,
            (pre ++ int32_bytes m.type).length + 4) := by
      have := safealign_memcpy_append (pre ++ int32_bytes m.type) (int32_bytes (m.len : Int))
        (rest.drop 4) 4 rfl (by simp only [List.length_drop]; omega)
      simpa [SAFEALIGN_SET_INT32, int32_bytes_length] using this
    simp only [h2]
    have h3 := safealign_memcpy_append (pre ++ int32_bytes m.type ++ int32_bytes (m.len : Int))
      m.data ((rest.drop 4).drop 4) m.len hm (by simp only [List.length_drop]; omega)
    simp only [List.length_append, int32_bytes_length] at h3 ⊢
    rw [h3]
    have := ih (pre ++ int32_bytes m.type ++ int32_bytes (m.len : Int) ++ m.data)
      (((rest.drop 4).drop 4).drop m.len) (fun x hx => hwf x (List.mem_cons_of_mem _ hx))
      (by simp only [List.length_drop]; omega)
    simp only [List.length_append, int32_bytes_length, hm] at this
    rw [this]
    refine Prod.ext ?_ (by simp only []; omega)
    simp only [List.drop_drop, List.append_assoc]

theorem msgs_size_eq (l : List response_data) (hwf : ∀ m ∈ l, m.data.length = m.len) :
    msgs_size l = (l.map (fun m => 8 + m.data.length)).sum := by
  induction l with
  | nil => rfl
  | cons m l ih =>
    simp only [msgs_size, List.map_cons, List.sum_cons]
    rw [ih (fun x hx => hwf x (List.mem_cons_of_mem _ hx)), hwf m (List.mem_cons_self _ _)]

theorem talloc_array_length (junk : Nat → Nat) (n : Nat) : (talloc_array junk n).length = n := by
  simp [talloc_array]

theorem response_wire_length (error : Int) (l : List response_data)
    (hwf : ∀ m ∈ l, m.data.length = m.len) :
    (response_wire error l).length = 4 + msgs_size l := by
  unfold response_wire
  rw [List.length_append, int32_bytes_length]
  congr 1
  induction l with
  | nil => rfl
  | cons m l ih =>
    simp only [List.flatMap_cons, List.length_append, int32_bytes_length, msgs_size]
    have h1 := ih (fun x hx => hwf x (List.mem_cons_of_mem _ hx))
    have h2 := hwf m (List.mem_cons_self _ _)
    omega

/-- C4: for every status and every list of well-formed messages (the
`len` field of each is the number of its payload bytes, the total fits
`size_t`), `pack_response_packet` returns `EOK` with the buffer made of the
4-byte status followed, message by message in list order, by the 4-byte type,
the 4-byte length and the payload; the reported length is 4 plus the sum of
8 + payload length, which is also the length of the buffer. -/
theorem pack_response_packet_layout (junk : Nat → Nat) (error : Int)
    (resp_list : List response_data)
    (hwf : ∀ m ∈ resp_list, m.data.length = m.len)
    (hsize : response_size resp_list < 2 ^ 64) :
    pack_response_packet junk error resp_list
      = .ok (response_wire error resp_list, response_size resp_list) ∧
    (response_wire error resp_list).length = response_size resp_list := by
  have hsz : response_size resp_list = 4 + msgs_size resp_list := by
    rw [msgs_size_eq _ hwf]; rfl
  have hlen : (response_wire error resp_list).length = response_size resp_list := by
    rw [response_wire_length _ _ hwf, hsz]
  refine ⟨?_, hlen⟩
  unfold pack_response_packet
  simp only
  rw [size_loop _ _ (by omega)]
  have hb : (talloc_array junk (4 + msgs_size resp_list)).length = 4 + msgs_size resp_list :=
    talloc_array_length _ _
  have h0 := safealign_memcpy_append [] (int32_bytes error)
    (talloc_array junk (4 + msgs_size resp_list)) 4 rfl (by omega)
  simp only [List.nil_append, List.length_nil, Nat.zero_add] at h0
  have h0b : SAFEALIGN_SET_INT32 (talloc_array junk (4 + msgs_size resp_list)) error 0
      = (int32_bytes error ++ (talloc_array junk (4 + msgs_size resp_list)).drop 4,
          (int32_bytes error).length) := h0
  rw [h0b, write_loop _ _ _ hwf (by simp only [List.length_drop]; omega)]
  rw [List.drop_eq_nil_of_le (by simp only [List.length_drop]; omega), List.append_nil,
    int32_bytes_length, hsz, response_wire]

/-- Witness of C4: a status of -1 and two messages, one of them empty. -/
theorem pack_response_packet_layout_witness :
    (∀ m ∈ sampleResponse, m.data.length = m.len) ∧ response_size sampleResponse < 2 ^ 64 ∧
    pack_response_packet (fun _ => 7) (-1) sampleResponse
      = .ok (response_wire (-1) sampleResponse, response_size sampleResponse) ∧
    response_wire (-1) sampleResponse
      = [255, 255, 255, 255, 3, 0, 0, 0, 2, 0, 0, 0, 9, 8, 2, 1, 0, 0, 0, 0, 0, 0] ∧
    response_size sampleResponse = 22 :=
  ⟨by decide, by decide,
    (pack_response_packet_layout (fun _ => 7) (-1) sampleResponse (by decide) (by decide)).1,
    by decide, by decide⟩

/-- C8: `create_ccdir` returns `EOK` exactly when `mkdir(dirname, 0700)`
succeeds, or `mkdir` fails with `EEXIST` and `stat` succeeds reporting the
target uid and gid and a mode that is exactly `0700` once the file-type bits
are removed; when the path exists and `stat` reports another owner, another
group or other permission bits, it returns `EACCES`.  (A failing `mkdir`
leaves a non-zero `errno`.) -/
theorem create_ccdir_eok_iff (env : CcacheEnv) (dirname : List Nat) (uid gid : Nat)
    (herrno : ∀ e, env.mkdir dirname 0o700 = .error e → e ≠ 0) :
    ((create_ccdir env dirname uid gid).1 = EOK ↔
      (env.mkdir dirname 0o700 = .ok () ∨
        (env.mkdir dirname 0o700 = .error EEXIST ∧
          ∃ st, env.stat dirname = .ok st ∧ st.st_uid = uid ∧ st.st_gid = gid ∧
            mode_without_type st.st_mode = 0o700))) ∧
    (∀ st, env.mkdir dirname 0o700 = .error EEXIST → env.stat dirname = .ok st →
      (st.st_uid ≠ uid ∨ st.st_gid ≠ gid ∨ mode_without_type st.st_mode ≠ 0o700) →
      (create_ccdir env dirname uid gid).1 = EACCES) := by
  constructor
  · unfold create_ccdir
    cases hm : env.mkdir dirname 0o700 with
    | ok u => simp
    | error errno =>
      have hne := herrno errno hm
      by_cases he : errno = EEXIST
      · subst he
        cases hs : env.stat dirname with
        | error e2 => simp [ EIO, EOK]
        | ok st =>
          by_cases h1 : st.st_uid ≠ uid ∨ st.st_gid ≠ gid
          · have : ¬ (st.st_uid = uid ∧ st.st_gid = gid ∧ mode_without_type st.st_mode = 0o700) := by
              rintro ⟨a, b, -⟩; rcases h1 with h | h
              · exact h a
              · exact h b
            simp [h1, EACCES, EOK, this]
          · have h1' : st.st_uid = uid ∧ st.st_gid = gid := by
              constructor
              · by_contra h; exact h1 (Or.inl h)
              · by_contra h; exact h1 (Or.inr h)
            by_cases h2 : mode_without_type st.st_mode = 0o700
            · simp [h1, h2, h1'.1, h1'.2]
            · simp [h1, h2, EACCES, EOK]
      · simp [he, EOK, hne]
  · intro st hm hs hbad
    unfold create_ccdir
    simp only [hm, hs, if_true]
    by_cases h1 : st.st_uid ≠ uid ∨ st.st_gid ≠ gid
    · simp [h1]
    · have h2 : mode_without_type st.st_mode ≠ 0o700 := by
        rcases hbad with h | h | h
        · exact absurd (Or.inl h) h1
        · exact absurd (Or.inr h) h1
        · exact h
      simp [h1, h2]

/-- Witness of C8: the directory exists with the target owner and mode
`040700`, so `create_ccdir` returns `EOK`. -/
theorem create_ccdir_eok_iff_witness :
    (∀ e, (existingDirEnv 1000 1000 0o40700 0).mkdir str_run_u 0o700 = .error e → e ≠ 0) ∧
    (create_ccdir (existingDirEnv 1000 1000 0o40700 0) str_run_u 1000 1000).1 = EOK ∧
    (create_ccdir (existingDirEnv 1000 1000 0o40755 0) str_run_u 1000 1000).1 = EACCES :=
  ⟨fun e h => by cases h; decide,
    ((create_ccdir_eok_iff (existingDirEnv 1000 1000 0o40700 0) str_run_u 1000 1000
      (fun e h => by cases h; decide)).1).2 (Or.inr ⟨rfl, _, rfl, rfl, rfl, by decide⟩),
    by decide⟩

/-- C9 (as amended): with an absolute directory residual, when the
directory already exists and `stat` reports an owner uid different from the
target uid, `create_ccache_in_dir` fails with `EACCES` if `become_user`
succeeded and with the error of `become_user` otherwise; in both cases it
makes no call that writes: the calls are `become_user`, then (only after its
success) `umask`, `mkdir`, `umask` and `stat`. -/
theorem create_ccache_in_dir_foreign_owner (env : CcacheEnv) (uid gid : Nat)
    (ccname dirname : List Nat) (creds : Bool) (st : stat_t)
    (hres : env.sss_krb5_residual_check_type ccname = some dirname)
    (habs : dirname.head? = some 47)
    (hexists : env.mkdir dirname 0o700 = .error EEXIST)
    (hstat : env.stat dirname = .ok st)
    (howner : st.st_uid ≠ uid) :
    (env.become_user uid gid = EOK →
      create_ccache_in_dir env uid gid ccname creds
        = (EACCES, [Call.become_user uid gid, Call.umask 0, Call.mkdir dirname 0o700,
            Call.umask_restore, Call.stat dirname])) ∧
    (env.become_user uid gid ≠ EOK →
      create_ccache_in_dir env uid gid ccname creds
        = (env.become_user uid gid, [Call.become_user uid gid])) ∧
    (∀ c ∈ (create_ccache_in_dir env uid gid ccname creds).2, c.isCacheWrite = false) := by
  have hdir : create_ccdir env dirname uid gid
      = (EACCES, [Call.umask 0, Call.mkdir dirname 0o700, Call.umask_restore, Call.stat dirname]) := by
    unfold create_ccdir
    simp [hexists, hstat, howner]
  have hcolon : dirname.head? ≠ some 58 := by rw [habs]; decide
  have h1 : env.become_user uid gid = EOK →
      create_ccache_in_dir env uid gid ccname creds
        = (EACCES, [Call.become_user uid gid, Call.umask 0, Call.mkdir dirname 0o700,
            Call.umask_restore, Call.stat dirname]) := by
    intro hb
    unfold create_ccache_in_dir
    simp [hres, hb, hcolon, habs, hdir, EACCES]
  have h2 : env.become_user uid gid ≠ EOK →
      create_ccache_in_dir env uid gid ccname creds
        = (env.become_user uid gid, [Call.become_user uid gid]) := by
    intro hb
    unfold create_ccache_in_dir
    simp [hres, hb]
  refine ⟨h1, h2, ?_⟩
  intro c hc
  by_cases hb : env.become_user uid gid = EOK
  · rw [h1 hb] at hc
    simp only [List.mem_cons, List.mem_singleton, List.not_mem_nil, or_false] at hc
    rcases hc with rfl | rfl | rfl | rfl | rfl <;> rfl
  · rw [h2 hb] at hc
    simp only [List.mem_singleton] at hc
    subst hc
    rfl

/-- Witness of the amended C9: the directory `/run/u` exists and belongs to
uid 0 while the target is uid 1000. -/
theorem create_ccache_in_dir_foreign_owner_witness :
    create_ccache_in_dir (existingDirEnv 0 0 0o40700 0) 1000 1000 str_DIR_run_u true
      = (EACCES, [Call.become_user 1000 1000, Call.umask 0, Call.mkdir str_run_u 0o700,
          Call.umask_restore, Call.stat str_run_u]) :=
  (create_ccache_in_dir_foreign_owner (existingDirEnv 0 0 0o40700 0) 1000 1000 str_DIR_run_u
    str_run_u true { st_uid := 0, st_gid := 0, st_mode := 0o40700 } rfl rfl rfl rfl
    (by decide)).1 rfl

/-- Counterexample to C9 as stated: the residual is absolute, the directory
exists and belongs to uid 0, the target is uid 1000, and `become_user` fails
with 1 (`EPERM`); the call returns 1, not `EACCES`. -/
theorem create_ccache_in_dir_not_always_eacces :
    (existingDirEnv 0 0 0o40700 1).sss_krb5_residual_check_type str_DIR_run_u = some str_run_u ∧
    str_run_u.head? = some 47 ∧
    (existingDirEnv 0 0 0o40700 1).mkdir str_run_u 0o700 = .error EEXIST ∧
    (existingDirEnv 0 0 0o40700 1).stat str_run_u
      = .ok { st_uid := 0, st_gid := 0, st_mode := 0o40700 } ∧
    (0 : Nat) ≠ 1000 ∧
    create_ccache_in_dir (existingDirEnv 0 0 0o40700 1) 1000 1000 str_DIR_run_u true
      = (1, [Call.become_user 1000 1000]) ∧
    (create_ccache_in_dir (existingDirEnv 0 0 0o40700 1) 1000 1000 str_DIR_run_u true).1
      ≠ EACCES := by
  refine ⟨rfl, rfl, rfl, rfl, by decide, rfl, by decide⟩

/-- C10: for every cache name whose path (the name with an optional leading
`"FILE:"` removed) does not begin with `/`, `create_ccache_file` returns
`EINVAL` and makes no call at all: no temporary file is created and the file
system is not touched. -/
theorem create_ccache_file_relative (env : CcacheEnv) (ccname : List Nat) (creds : Bool)
    (hrel : (cache_path ccname).head? ≠ some 47) :
    create_ccache_file env ccname creds = (EINVAL, []) := by
  have hp : (if ccname.take 5 = str_FILE then ccname.drop 5 else ccname) = cache_path ccname := by
    unfold cache_path
    have : (ccname.take 5 = str_FILE) ↔ str_FILE <+: ccname := by
      rw [List.prefix_iff_eq_take]
      constructor
      · intro h; exact h.symm
      · intro h; exact h.symm
    by_cases h : str_FILE <+: ccname
    · rw [if_pos h, if_pos (this.2 h)]; rfl
    · rw [if_neg h, if_neg (fun h2 => h (this.1 h2))]
  unfold create_ccache_file
  simp only [hp]
  rw [if_pos hrel]

/-- Witness of C10: the cache name `FILE:tmp/cc`. -/
theorem create_ccache_file_relative_witness :
    (cache_path str_FILE_tmp_cc).head? ≠ some 47 ∧
    create_ccache_file (existingDirEnv 0 0 0 0) str_FILE_tmp_cc true = (EINVAL, []) :=
  ⟨by decide, create_ccache_file_relative (existingDirEnv 0 0 0 0) str_FILE_tmp_cc true (by decide)⟩

/-- The loop over the keytab never calls `krb5_verify_init_creds`. -/
theorem validate_tgt_scan_no_verify (env : ValidateEnv) (princ : Principal)
    (entries : List Principal) (vp0 : Option Principal) (vp : Option Principal) (r : Int) :
    Call.krb5_verify_init_creds vp r ∉ (validate_tgt_scan env princ entries vp0).calls := by
  induction entries generalizing vp0 with
  | nil => simp [validate_tgt_scan]
  | cons e es ih =>
    unfold validate_tgt_scan
    split_ifs
    · simp
    · simp
    · simpa using ih (some e)

/-- The cleanup at `done` never calls `krb5_verify_init_creds`. -/
theorem validate_tgt_done_no_verify (b : Bool) (vp : Option Principal) (r : Int) :
    Call.krb5_verify_init_creds vp r ∉ validate_tgt_done b := by
  cases b <;> simp [validate_tgt_done]

/-- Every run of `validate_tgt` that returns 0 either performed the
verify-credentials check with success, or left through the check of `kt_err`
after a failed read of the keytab, where `kerr` still holds the 0 of
`krb5_kt_end_seq_get`. -/
theorem validate_tgt_zero_cases (K : Krb5Codes) (env : ValidateEnv) (pac : PacEnv)
    (princ : Principal) (upn_from_different_realm : Bool)
    (h0 : (validate_tgt K env pac princ upn_from_different_realm).1 = 0) :
    Call.krb5_verify_init_creds
        (validate_tgt_scan env princ env.kt_entries none).validation_princ 0
      ∈ (validate_tgt K env pac princ upn_from_different_realm).2 ∨
    ((validate_tgt_scan env princ env.kt_entries none).kt_err ≠ 0 ∧
      (validate_tgt_scan env princ env.kt_entries none).kt_err ≠ K.KRB5_KT_END ∧
      env.krb5_kt_end_seq_get = 0) := by
  unfold validate_tgt at h0 ⊢
  by_cases h1 : env.krb5_kt_resolve ≠ 0
  · rw [if_pos h1] at h0; exact absurd h0 h1
  by_cases h2 : env.krb5_kt_start_seq_get ≠ 0
  · rw [if_neg h1, if_pos h2] at h0; exact absurd h0 h2
  simp only [h1, h2, if_false] at h0 ⊢
  cases hf : (validate_tgt_scan env princ env.kt_entries none).failed with
  | some kerr =>
    exfalso
    have hk : kerr ≠ 0 := by
      have : ∀ (es : List Principal) (vp : Option Principal),
          (validate_tgt_scan env princ es vp).failed = some kerr → kerr ≠ 0 := by
        intro es
        induction es with
        | nil => intro vp h; simp [validate_tgt_scan] at h
        | cons e es ih =>
          intro vp h
          unfold validate_tgt_scan at h
          by_cases hc : env.krb5_copy_principal e ≠ 0
          · rw [if_pos hc] at h
            have h' : env.krb5_copy_principal e = kerr := by simpa using h
            rw [← h']; exact hc
          · rw [if_neg hc] at h
            by_cases hr : e.realm = princ.realm
            · rw [if_pos hr] at h
              simp at h
            · rw [if_neg hr] at h
              exact ih (some e) h
      exact this _ _ hf
    simp only [hf] at h0
    exact hk h0
  | none =>
    simp only [hf] at h0 ⊢
    by_cases h3 : env.krb5_kt_end_seq_get ≠ 0
    · rw [if_pos h3] at h0; exact absurd h0 h3
    have h3' : env.krb5_kt_end_seq_get = 0 := by
      by_contra h; exact h3 h
    by_cases h4 : (validate_tgt_scan env princ env.kt_entries none).kt_err ≠ 0 ∧
        (validate_tgt_scan env princ env.kt_entries none).kt_err ≠ K.KRB5_KT_END
    · right; exact ⟨h4.1, h4.2, h3'⟩
    left
    by_cases h5 : env.krb5_unparse_name
        (validate_tgt_scan env princ env.kt_entries none).validation_princ ≠ 0
    · rw [if_neg h3, if_neg h4, if_pos h5] at h0; exact absurd h0 h5
    by_cases h6 : env.krb5_verify_init_creds
        (validate_tgt_scan env princ env.kt_entries none).validation_princ ≠ 0
    · rw [if_neg h3, if_neg h4, if_neg h5, if_pos h6] at h0; exact absurd h0 h6
    have h6' : env.krb5_verify_init_creds
        (validate_tgt_scan env princ env.kt_entries none).validation_princ = 0 := by
      by_contra h; exact h6 h
    simp only [h3, h4, h5, h6, if_false]
    cases upn_from_different_realm with
    | false => simp [h6']
    | true =>
      by_cases h7 : pac.sss_extract_pac ≠ 0
      · simp [h7, h6']
      · simp [h7, h6']

/-- C6 (the code at the failing input): the keytab opens, the first
`krb5_kt_next_entry` fails with `EIO` and `krb5_kt_end_seq_get` succeeds;
`validate_tgt` returns 0 although `krb5_verify_init_creds` was never called
(and could not have succeeded in this environment). -/
theorem validate_tgt_unreadable_keytab_accepts :
    validate_tgt mitCodes unreadableKeytabEnv failingPacEnv princ_alice false
      = (0, [Call.krb5_kt_resolve, Call.krb5_kt_start_seq_get, Call.krb5_kt_next_entry,
          Call.krb5_kt_end_seq_get, Call.krb5_kt_close]) ∧
    unreadableKeytabEnv.kt_stop ≠ 0 ∧ unreadableKeytabEnv.kt_stop ≠ mitCodes.KRB5_KT_END ∧
    (∀ vp, unreadableKeytabEnv.krb5_verify_init_creds vp ≠ 0) := by
  refine ⟨by decide, by decide, by decide, fun vp => ?_⟩
  show mitCodes.KRB5KRB_AP_ERR_BAD_INTEGRITY ≠ 0
  decide

/-- C7: when the run of `validate_tgt` performs the verify-credentials check
and the check succeeds, `validate_tgt` returns 0 whatever the outcomes of
`sss_extract_pac` and of `sss_send_pac`. -/
theorem validate_tgt_pac_nonfatal (K : Krb5Codes) (env : ValidateEnv) (pac : PacEnv)
    (princ : Principal) (upn_from_different_realm : Bool) (vp : Option Principal)
    (hver : Call.krb5_verify_init_creds vp 0
      ∈ (validate_tgt K env pac princ upn_from_different_realm).2) :
    ∀ pac2 : PacEnv, (validate_tgt K env pac2 princ upn_from_different_realm).1 = 0 := by
  intro pac2
  have hs := validate_tgt_scan_no_verify env princ env.kt_entries none vp 0
  have hd := fun b => validate_tgt_done_no_verify b vp 0
  unfold validate_tgt at hver ⊢
  by_cases h1 : env.krb5_kt_resolve ≠ 0
  · simp [h1] at hver
  by_cases h2 : env.krb5_kt_start_seq_get ≠ 0
  · simp [h1, h2] at hver
  simp only [h1, h2, if_false] at hver ⊢
  cases hf : (validate_tgt_scan env princ env.kt_entries none).failed with
  | some kerr =>
    simp only [hf] at hver
    simp [hs, hd] at hver
  | none =>
    simp only [hf] at hver ⊢
    by_cases h3 : env.krb5_kt_end_seq_get ≠ 0
    · simp [h3, hs, hd] at hver
    by_cases h4 : (validate_tgt_scan env princ env.kt_entries none).kt_err ≠ 0 ∧
        (validate_tgt_scan env princ env.kt_entries none).kt_err ≠ K.KRB5_KT_END
    · simp [h3, h4, hs, hd] at hver
    by_cases h5 : env.krb5_unparse_name
        (validate_tgt_scan env princ env.kt_entries none).validation_princ ≠ 0
    · simp [h3, h4, h5, hs, hd] at hver
    by_cases h6 : env.krb5_verify_init_creds
        (validate_tgt_scan env princ env.kt_entries none).validation_princ ≠ 0
    · simp [h3, h4, h5, h6, hs, hd] at hver
      exact absurd hver.2.symm h6
    · simp only [h3, h4, h5, h6, if_false]
      have h6' : env.krb5_verify_init_creds
          (validate_tgt_scan env princ env.kt_entries none).validation_princ = 0 := by
        by_contra h; exact h6 h
      cases upn_from_different_realm with
      | false => simp [h6']
      | true =>
        by_cases h7 : pac2.sss_extract_pac ≠ 0
        · simp [h7]
        · by_cases h8 : sss_send_pac pac2 ≠ 0
          · simp [h7, h8]
          · have h8' : sss_send_pac pac2 = 0 := by
              by_contra h; exact h8 h
            simp [h7, h8']

/-- Witness of C7: the check succeeds with the key of `host@EXAMPLE.COM`,
the extraction of the certificate fails, and the result is 0. -/
theorem validate_tgt_pac_nonfatal_witness :
    Call.krb5_verify_init_creds (some princ_host) 0
      ∈ (validate_tgt mitCodes goodKeytabEnv failingPacEnv princ_alice true).2 ∧
    (validate_tgt mitCodes goodKeytabEnv failingPacEnv princ_alice true).1 = 0 :=
  ⟨by decide,
    validate_tgt_pac_nonfatal mitCodes goodKeytabEnv failingPacEnv princ_alice true
      (some princ_host) (by decide) failingPacEnv⟩

theorem getD_append_add (pre l : List Nat) (i d : Nat) :
    (pre ++ l).getD (pre.length + i) d = l.getD i d := by
  simp only [List.getD_eq_getElem?_getD]
  rw [List.getElem?_append_right (by omega), Nat.add_sub_cancel_left]

theorem get32_le32 (pre rest : List Nat) (v : Nat) :
    get32 (pre ++ (le32 v ++ rest)) pre.length = v % 2 ^ 32 := by
  unfold get32
  have h0 := getD_append_add pre (le32 v ++ rest) 0 0
  rw [Nat.add_zero] at h0
  rw [h0, getD_append_add, getD_append_add, getD_append_add]
  simp only [le32, List.cons_append, List.getD_cons_zero, List.getD_cons_succ]
  omega

theorem take_append_mem (pre bytes rest mem : List Nat) (n : Nat)
    (h : pre.length + bytes.length ≤ n) :
    (pre ++ (bytes ++ rest)).take n ++ mem
      = pre ++ (bytes ++ (rest.take (n - (pre.length + bytes.length)) ++ mem)) := by
  rw [← List.append_assoc, List.take_append_eq_append_take,
    List.take_of_length_le (by simp only [List.length_append]; omega)]
  simp only [List.length_append, List.append_assoc]

theorem unpack_bind_def {α β : Type} (m : Unpack α) (k : α → Unpack β) (buf : List Nat)
    (size p : Nat) :
    (m >>= k) buf size p = match m buf size p with
      | .error e => .error e
      | .ok (a, p) => k a buf size p := rfl

theorem unpack_pure_def {α : Type} (a : α) (buf : List Nat) (size p : Nat) :
    (pure a : Unpack α) buf size p = .ok (a, p) := rfl

theorem truncSafe_bind {α β : Type} {m : Unpack α} {k : α → Unpack β} {b1 b2 : List Nat}
    {u : α → Prop} {v : β → Prop}
    (h1 : TruncSafe m b1 u) (h2 : ∀ a, u a → TruncSafe (k a) b2 v) :
    TruncSafe (m >>= k) (b1 ++ b2) v := by
  intro pre rest mem n hpre hn
  rw [unpack_bind_def]
  have e1 : pre ++ ((b1 ++ b2) ++ rest) = pre ++ (b1 ++ (b2 ++ rest)) := by
    simp only [List.append_assoc]
  rcases h1 pre (b2 ++ rest) mem n hpre hn with herr | ⟨hle, a, hva, hok⟩
  · left; rw [e1, herr]
  · rw [e1, hok]
    have e2 : pre ++ (b1 ++ (b2 ++ rest)) = (pre ++ b1) ++ (b2 ++ rest) := by
      simp only [List.append_assoc]
    have hl : (pre ++ b1).length = pre.length + b1.length := List.length_append _ _
    rcases h2 a hva (pre ++ b1) rest mem n (by omega) hn with herr2 | ⟨hle2, c, hvc, hok2⟩
    · left
      simp only
      rw [e2, ← hl, herr2]
    · right
      refine ⟨by simp only [List.length_append] at hle2 ⊢; omega, c, hvc, ?_⟩
      simp only
      rw [e2, ← hl, hok2]
      simp only [List.length_append, Nat.add_assoc]

theorem truncSafe_pure {α : Type} (a : α) (val : α → Prop) (h : val a) :
    TruncSafe (pure a : Unpack α) [] val := by
  intro pre rest mem n hpre hn
  right
  exact ⟨by simpa using hpre, a, h, by simp [unpack_pure_def]⟩

theorem truncSafe_ite {α : Type} (c : Prop) [Decidable c] {d1 d2 : Unpack α} {b1 b2 : List Nat}
    {val : α → Prop} (h1 : c → TruncSafe d1 b1 val) (h2 : ¬c → TruncSafe d2 b2 val) :
    TruncSafe (if c then d1 else d2) (if c then b1 else b2) val := by
  by_cases h : c
  · simp only [if_pos h]; exact h1 h
  · simp only [if_neg h]; exact h2 h

theorem truncSafe_word (v : Nat) (hv : v < 2 ^ 32) :
    TruncSafe SAFEALIGN_COPY_UINT32_CHECK (le32 v) (fun a => a = v) := by
  intro pre rest mem n hpre hn
  unfold SAFEALIGN_COPY_UINT32_CHECK
  by_cases h : pre.length + 4 > n
  · left; simp only [if_pos h]
  · right
    refine ⟨by rw [le32_length]; omega, v, rfl, ?_⟩
    rw [if_neg h, take_append_mem _ _ _ _ _ (by rw [le32_length]; omega), get32_le32,
      Nat.mod_eq_of_lt hv, le32_length]

theorem truncSafe_strndup (s : List Nat) (hs : s.length < 2 ^ 32) :
    TruncSafe (unpack_strndup s.length) s (fun _ => True) := by
  intro pre rest mem n hpre hn
  unfold unpack_strndup
  have hmod : (pre.length + s.length) % 2 ^ 64 = pre.length + s.length :=
    Nat.mod_eq_of_lt (by omega)
  rw [hmod]
  by_cases h : pre.length + s.length > n
  · left; simp only [if_pos h]
  · right
    exact ⟨by omega, _, trivial, by rw [if_neg h]⟩

theorem truncSafe_authtok (A : AuthtokTypes) (type : Nat) (payload : List Nat)
    (ht : type < 2 ^ 32) (hp : payload.length < 2 ^ 32) :
    TruncSafe (unpack_authtok A) (le32 type ++ (le32 payload.length ++ payload))
      (fun _ => True) := by
  unfold unpack_authtok
  refine truncSafe_bind (truncSafe_word type ht) (fun a ha => ?_)
  subst ha
  refine truncSafe_bind (truncSafe_word payload.length hp) (fun b hb => ?_)
  subst hb
  intro pre rest mem n hpre hn
  have hmod : (pre.length + payload.length) % 2 ^ 64 = pre.length + payload.length :=
    Nat.mod_eq_of_lt (by omega)
  simp only [hmod]
  by_cases h : pre.length + payload.length > n
  · left; simp only [if_pos h]
  · simp only [if_neg h]
    generalize ((pre ++ (payload ++ rest)).take n ++ mem).drop pre.length = tail
    by_cases h0 : a = A.SSS_AUTHTOK_TYPE_EMPTY
    · right
      refine ⟨by omega, sss_authtok_set_empty A, trivial, ?_⟩
      simp [h0]
    · by_cases h1 : a = A.SSS_AUTHTOK_TYPE_PASSWORD
      · subst h1
        simp only [h0, if_true, if_false, sss_authtok_set_password, sss_authtok_set_string]
        by_cases hl : (c_string tail).length = 0
        · left; simp [hl]
        · right
          refine ⟨by omega, { type := A.SSS_AUTHTOK_TYPE_PASSWORD, data := c_string tail },
            trivial, ?_⟩
          simp [hl]
      · by_cases h2 : a = A.SSS_AUTHTOK_TYPE_CCFILE
        · subst h2
          simp only [h0, h1, if_true, if_false, sss_authtok_set_ccfile,
            sss_authtok_set_string]
          by_cases hl : (c_string tail).length = 0
          · left; simp [hl]
          · right
            refine ⟨by omega, { type := A.SSS_AUTHTOK_TYPE_CCFILE, data := c_string tail },
              trivial, ?_⟩
            simp [hl]
        · left; simp [h0, h1, h2]
theorem truncSafe_bind_last {α β : Type} {m : Unpack α} {k : α → Unpack β} {b : List Nat}
    {u : α → Prop} {v : β → Prop}
    (h1 : TruncSafe m b u) (h2 : ∀ a, u a → TruncSafe (k a) [] v) :
    TruncSafe (m >>= k) b v := by
  have := truncSafe_bind h1 h2
  rwa [List.append_nil] at this

theorem unpack_buffer_body_truncSafe (C : SssCli) (A : AuthtokTypes) (w : Wire)
    (hw : w.WellFormed) :
    TruncSafe (unpack_buffer_body C A) (wire_layout C w) (fun _ => True) := by
  unfold unpack_buffer_body wire_layout
  simp only [List.append_assoc, wire_field, wire_tok]
  refine truncSafe_bind (truncSafe_word _ hw.cmd) (fun a ha => ?_); subst ha
  refine truncSafe_bind (truncSafe_word _ hw.uid) (fun a ha => ?_); subst ha
  refine truncSafe_bind (truncSafe_word _ hw.gid) (fun a ha => ?_); subst ha
  refine truncSafe_bind (truncSafe_word _ hw.validate) (fun a ha => ?_); subst ha
  refine truncSafe_bind (truncSafe_word _ hw.offline) (fun a ha => ?_); subst ha
  refine truncSafe_bind (truncSafe_word _ hw.different_realm) (fun a ha => ?_); subst ha
  refine truncSafe_bind (truncSafe_word _ hw.use_enterprise_princ) (fun a ha => ?_); subst ha
  refine truncSafe_bind (truncSafe_word _ hw.upn) (fun a ha => ?_); subst ha
  refine truncSafe_bind (truncSafe_strndup _ hw.upn) (fun upn _ => ?_)
  refine truncSafe_bind (u := fun _ => True)
    (truncSafe_ite (cmd_has_ccname C (int32_of_uint32 w.cmd)) (fun _ => ?_)
      (fun _ => truncSafe_pure _ _ trivial)) (fun cc _ => ?_)
  · refine truncSafe_bind (truncSafe_word _ hw.ccname) (fun a ha => ?_); subst ha
    refine truncSafe_bind (truncSafe_strndup _ hw.ccname) (fun ccname _ => ?_)
    refine truncSafe_bind (truncSafe_word _ hw.keytab) (fun a ha => ?_); subst ha
    refine truncSafe_bind (truncSafe_strndup _ hw.keytab) (fun keytab _ => ?_)
    exact truncSafe_bind_last (truncSafe_authtok A _ _ hw.authtok_type hw.authtok)
      (fun tok _ => truncSafe_pure _ _ trivial)
  refine truncSafe_bind (u := fun _ => True)
    (truncSafe_ite (int32_of_uint32 w.cmd = C.SSS_PAM_CHAUTHTOK)
      (fun _ => truncSafe_authtok A _ _ hw.newauthtok_type hw.newauthtok)
      (fun _ => truncSafe_pure _ _ trivial)) (fun newauthtok _ => ?_)
  refine truncSafe_bind_last (u := fun _ => True)
    (truncSafe_ite (int32_of_uint32 w.cmd = C.SSS_PAM_ACCT_MGMT) (fun _ => ?_)
      (fun _ => truncSafe_pure _ _ trivial)) (fun user _ => ?_)
  · refine truncSafe_bind (truncSafe_word _ hw.user) (fun a ha => ?_); subst ha
    exact truncSafe_bind_last (truncSafe_strndup _ hw.user)
      (fun user _ => truncSafe_pure _ _ trivial)
  exact truncSafe_pure _ _ trivial
theorem reads_bind {α β : Type} {m : Unpack α} {k : α → Unpack β} {b1 b2 : List Nat}
    {a : α} {c : β} (h1 : Reads m b1 a) (h2 : Reads (k a) b2 c) :
    Reads (m >>= k) (b1 ++ b2) c := by
  intro pre rest n hlen hn
  rw [unpack_bind_def]
  have e1 : pre ++ ((b1 ++ b2) ++ rest) = pre ++ (b1 ++ (b2 ++ rest)) := by
    simp only [List.append_assoc]
  have e2 : pre ++ (b1 ++ (b2 ++ rest)) = (pre ++ b1) ++ (b2 ++ rest) := by
    simp only [List.append_assoc]
  have hl : (pre ++ b1).length = pre.length + b1.length := List.length_append _ _
  simp only [List.length_append] at hlen
  rw [e1, h1 pre (b2 ++ rest) n (by omega) hn]
  simp only
  rw [e2, ← hl, h2 (pre ++ b1) rest n (by omega) hn]
  simp only [List.length_append, Nat.add_assoc]

theorem reads_bind_last {α β : Type} {m : Unpack α} {k : α → Unpack β} {b : List Nat}
    {a : α} {c : β} (h1 : Reads m b a) (h2 : Reads (k a) [] c) :
    Reads (m >>= k) b c := by
  have := reads_bind h1 h2
  rwa [List.append_nil] at this

theorem reads_pure {α : Type} (a b : α) (h : a = b) : Reads (pure a : Unpack α) [] b := by
  intro pre rest n _ _
  subst h
  simp [unpack_pure_def]

theorem reads_ite {α : Type} (c : Prop) [Decidable c] {d1 d2 : Unpack α} {b1 b2 : List Nat}
    {a e : α} (h1 : c → Reads d1 b1 a) (h2 : ¬c → Reads d2 b2 e) :
    Reads (if c then d1 else d2) (if c then b1 else b2) (if c then a else e) := by
  by_cases h : c
  · simp only [if_pos h]; exact h1 h
  · simp only [if_neg h]; exact h2 h

theorem reads_word (v : Nat) (hv : v < 2 ^ 32) :
    Reads SAFEALIGN_COPY_UINT32_CHECK (le32 v) v := by
  intro pre rest n hlen hn
  unfold SAFEALIGN_COPY_UINT32_CHECK
  rw [le32_length] at hlen
  rw [if_neg (by omega), get32_le32, Nat.mod_eq_of_lt hv, le32_length]

theorem reads_strndup (s : List Nat) :
    Reads (unpack_strndup s.length) s (c_string s) := by
  intro pre rest n hlen hn
  unfold unpack_strndup
  have hmod : (pre.length + s.length) % 2 ^ 64 = pre.length + s.length :=
    Nat.mod_eq_of_lt (by omega)
  rw [hmod, if_neg (by omega)]
  simp [talloc_strndup]

theorem c_string_append_of_nul (s rest : List Nat) (h : (c_string s).length < s.length) :
    c_string (s ++ rest) = c_string s := by
  unfold c_string at h ⊢
  rw [List.takeWhile_append]
  rw [if_neg (by omega)]

theorem reads_authtok (A : AuthtokTypes) (t : WireTok) (tok : sss_auth_token)
    (ht : t.type < 2 ^ 32) (hp : t.payload.length < 2 ^ 32) (hv : t.value A = some tok) :
    Reads (unpack_authtok A) (le32 t.type ++ (le32 t.payload.length ++ t.payload)) tok := by
  unfold unpack_authtok
  refine reads_bind (reads_word _ ht) (reads_bind (reads_word _ hp) ?_)
  intro pre rest n hlen hn
  have hmod : (pre.length + t.payload.length) % 2 ^ 64 = pre.length + t.payload.length :=
    Nat.mod_eq_of_lt (by omega)
  simp only [hmod]
  rw [if_neg (by omega)]
  have hdrop : (pre ++ (t.payload ++ rest)).drop pre.length = t.payload ++ rest := by
    simp
  rw [hdrop]
  unfold WireTok.value at hv
  by_cases h0 : t.type = A.SSS_AUTHTOK_TYPE_EMPTY
  · rw [if_pos h0] at hv
    rw [if_pos h0]
    cases hv
    rfl
  · rw [if_neg h0] at hv
    rw [if_neg h0]
    by_cases h12 : t.type = A.SSS_AUTHTOK_TYPE_PASSWORD ∨ t.type = A.SSS_AUTHTOK_TYPE_CCFILE
    · rw [if_pos h12] at hv
      by_cases hc : (c_string t.payload).length < t.payload.length ∧
          (c_string t.payload).length ≠ 0
      · rw [if_pos hc] at hv
        cases hv
        rw [c_string_append_of_nul _ _ hc.1]
        by_cases h1 : t.type = A.SSS_AUTHTOK_TYPE_PASSWORD
        · simp [h1, sss_authtok_set_password, sss_authtok_set_string, hc.2]
        · have h2 : t.type = A.SSS_AUTHTOK_TYPE_CCFILE := by
            rcases h12 with h | h
            · exact absurd h h1
            · exact h
          rw [if_neg h1, if_pos h2]
          simp [h2, sss_authtok_set_ccfile, sss_authtok_set_string, hc.2]
      · rw [if_neg hc] at hv
        cases hv
    · rw [if_neg h12] at hv
      cases hv
theorem unpack_buffer_body_reads (C : SssCli) (A : AuthtokTypes) (w : Wire)
    (hw : w.WellFormed) (hd : w.Decodable C A) :
    Reads (unpack_buffer_body C A) (wire_layout C w) (w.request C A, w.offline) := by
  unfold unpack_buffer_body wire_layout
  simp only [List.append_assoc, wire_field, wire_tok]
  refine reads_bind (reads_word _ hw.cmd) ?_
  refine reads_bind (reads_word _ hw.uid) ?_
  refine reads_bind (reads_word _ hw.gid) ?_
  refine reads_bind (reads_word _ hw.validate) ?_
  refine reads_bind (reads_word _ hw.offline) ?_
  refine reads_bind (reads_word _ hw.different_realm) ?_
  refine reads_bind (reads_word _ hw.use_enterprise_princ) ?_
  refine reads_bind (reads_word _ hw.upn) ?_
  refine reads_bind (reads_strndup _) ?_
  refine reads_bind
    (reads_ite (cmd_has_ccname C (int32_of_uint32 w.cmd))
      (a := (some (c_string w.ccname), some (c_string w.keytab),
        (w.authtok.value A).getD (sss_authtok_set_empty A)))
      (fun hc => ?_) (fun _ => reads_pure _ _ rfl)) ?_
  · refine reads_bind (reads_word _ hw.ccname) ?_
    refine reads_bind (reads_strndup _) ?_
    refine reads_bind (reads_word _ hw.keytab) ?_
    refine reads_bind (reads_strndup _) ?_
    obtain ⟨tok, htok⟩ := Option.isSome_iff_exists.1 (hd.authtok hc)
    refine reads_bind_last (reads_authtok A _ tok hw.authtok_type hw.authtok htok)
      (reads_pure _ _ ?_)
    rw [htok]; rfl
  refine reads_bind
    (reads_ite (int32_of_uint32 w.cmd = C.SSS_PAM_CHAUTHTOK)
      (a := (w.newauthtok.value A).getD (sss_authtok_set_empty A))
      (fun hc => ?_) (fun _ => reads_pure _ _ rfl)) ?_
  · obtain ⟨tok, htok⟩ := Option.isSome_iff_exists.1 (hd.newauthtok hc)
    rw [htok]
    exact reads_authtok A _ tok hw.newauthtok_type hw.newauthtok htok
  refine reads_bind_last
    (reads_ite (int32_of_uint32 w.cmd = C.SSS_PAM_ACCT_MGMT)
      (a := some (c_string w.user)) (fun _ => ?_) (fun _ => reads_pure _ _ rfl)) ?_
  · refine reads_bind (reads_word _ hw.user) ?_
    exact reads_bind_last (reads_strndup _) (reads_pure _ _ rfl)
  refine reads_pure _ _ ?_
  unfold Wire.request
  split_ifs <;> rfl

theorem wire_layout_length_lt (C : SssCli) (w : Wire) (hw : w.WellFormed) :
    (wire_layout C w).length < 2 ^ 36 := by
  have h1 := hw.upn
  have h2 := hw.ccname
  have h3 := hw.keytab
  have h4 := hw.authtok
  have h5 := hw.newauthtok
  have h6 := hw.user
  unfold wire_layout
  simp only [List.length_append, le32_length, wire_field, wire_tok]
  split_ifs <;> simp only [List.length_append, le32_length, List.length_nil] <;> omega

/-- The decoder on a complete buffer: when the buffer starts with the layout
of a well-formed content `w` whose tokens the decoder accepts, and at least
that many bytes were received, `unpack_buffer` returns `EOK` with the request
that `w` stands for, whatever follows the layout. -/
theorem unpack_buffer_wire (C : SssCli) (A : AuthtokTypes) (w : Wire)
    (hw : w.WellFormed) (hd : w.Decodable C A) (rest : List Nat) (n : Nat)
    (hlen : (wire_layout C w).length ≤ n) (hn : n < 2 ^ 63) :
    unpack_buffer C A (wire_layout C w ++ rest) n = .ok (w.request C A, w.offline) := by
  have h := unpack_buffer_body_reads C A w hw hd [] rest n (by simpa using hlen) hn
  simp only [List.nil_append, List.length_nil] at h
  unfold unpack_buffer
  rw [h]

theorem int32_of_uint32_toNat (c : Int) (h : -2147483648 ≤ c ∧ c < 2147483648) :
    int32_of_uint32 (c % 4294967296).toNat = c := by
  unfold int32_of_uint32
  have h1 : (0 : Int) ≤ c % 4294967296 := Int.emod_nonneg _ (by decide)
  have h2 : ((c % 4294967296).toNat : Int) = c % 4294967296 := Int.toNat_of_nonneg h1
  split_ifs with hlt
  · rw [h2]; omega
  · rw [h2]; omega

theorem c_string_of_IsCString (s : List Nat) (h : ∀ b ∈ s, b % 256 ≠ 0) : c_string s = s := by
  unfold c_string
  rw [List.takeWhile_eq_self_iff]
  intro b hb
  simpa using h b hb

theorem c_string_append_nul (s : List Nat) (h : ∀ b ∈ s, b % 256 ≠ 0) :
    c_string (s ++ [0]) = s := by
  unfold c_string
  rw [List.takeWhile_append_of_pos (by intro b hb; simpa using h b hb)]
  simp

theorem sss_auth_token.value_toWire (A : AuthtokTypes) (hA : A.Distinct) (t : sss_auth_token)
    (ht : t.Valid A) : (t.toWire A).value A = some t := by
  obtain ⟨d1, d2, d3, -, -, -⟩ := hA
  unfold WireTok.value sss_auth_token.toWire
  rcases ht with ⟨h0, hd⟩ | ⟨h12, hne, hnul, -⟩
  · simp only [h0, if_true]
    cases t
    simp_all [sss_authtok_set_empty]
  · have h0 : t.type ≠ A.SSS_AUTHTOK_TYPE_EMPTY := by
      rcases h12 with h | h
      · rw [h]; exact Ne.symm d1
      · rw [h]; exact Ne.symm d2
    simp only [h0, if_false, h12, if_true, c_string_append_nul _ hnul, List.length_append,
      List.length_singleton]
    have hl : t.data.length ≠ 0 := by
      intro h; exact hne (List.length_eq_zero.1 h)
    rw [if_pos ⟨by omega, hl⟩]

theorem sss_auth_token.toWire_bounds (A : AuthtokTypes) (hA : A.Distinct) (t : sss_auth_token)
    (ht : t.Valid A) :
    (t.toWire A).type < 2 ^ 32 ∧ (t.toWire A).payload.length < 2 ^ 32 := by
  obtain ⟨-, -, -, b0, b1, b2⟩ := hA
  unfold sss_auth_token.toWire
  rcases ht with ⟨h0, hd⟩ | ⟨h12, hne, hnul, hlen⟩
  · simp only [h0, if_true, List.length_nil]
    exact ⟨b0, by decide⟩
  · constructor
    · rcases h12 with h | h
      · simp only [h]; exact b1
      · simp only [h]; exact b2
    · simp only
      split_ifs
      · simp
      · simpa using hlen

theorem sss_authtok_set_empty_valid (A : AuthtokTypes) : (sss_authtok_set_empty A).Valid A :=
  Or.inl ⟨rfl, rfl⟩
theorem krb5_req.Valid.authtok_valid {C : SssCli} {A : AuthtokTypes} {r : krb5_req}
    (hr : r.Valid C A) : r.authtok.Valid A := by
  have h := hr.authtok
  split_ifs at h
  · exact h
  · rw [h]; exact sss_authtok_set_empty_valid A

theorem krb5_req.Valid.newauthtok_valid {C : SssCli} {A : AuthtokTypes} {r : krb5_req}
    (hr : r.Valid C A) : r.newauthtok.Valid A := by
  have h := hr.newauthtok
  split_ifs at h
  · exact h
  · rw [h]; exact sss_authtok_set_empty_valid A

theorem option_cstring_length {c : Prop} [Decidable c] {o : Option (List Nat)}
    (h : if c then ∃ s, o = some s ∧ IsCString s else o = none) :
    (o.getD []).length < 2 ^ 32 := by
  split_ifs at h
  · obtain ⟨s, hs, hc⟩ := h
    rw [hs]; exact hc.2
  · rw [h]; decide

theorem option_cstring_value {c : Prop} [Decidable c] {o : Option (List Nat)}
    (h : if c then ∃ s, o = some s ∧ IsCString s else o = none) :
    (if c then some (c_string (o.getD [])) else none) = o := by
  split_ifs at h ⊢
  · obtain ⟨s, hs, hc⟩ := h
    rw [hs, Option.getD_some, c_string_of_IsCString _ hc.1]
  · exact h.symm

theorem flag_word_lt (b : Bool) : (if b then 1 else 0 : Nat) < 2 ^ 32 := by
  cases b <;> decide

theorem flag_word_bne (b : Bool) : ((if b then 1 else 0 : Nat) != 0) = b := by
  cases b <;> rfl

theorem krb5_req.toWire_wf (C : SssCli) (A : AuthtokTypes) (hA : A.Distinct) (r : krb5_req)
    (offline : Bool) (hr : r.Valid C A) : (r.toWire A offline).WellFormed where
  cmd := by
    have h1 : (0 : Int) ≤ r.cmd % 4294967296 := Int.emod_nonneg _ (by decide)
    have h2 : r.cmd % 4294967296 < 4294967296 := Int.emod_lt_of_pos _ (by decide)
    show (r.cmd % 4294967296).toNat < 2 ^ 32
    omega
  uid := hr.uid
  gid := hr.gid
  validate := flag_word_lt _
  offline := flag_word_lt _
  different_realm := flag_word_lt _
  use_enterprise_princ := flag_word_lt _
  upn := hr.upn.2
  ccname := option_cstring_length hr.ccname
  keytab := option_cstring_length hr.keytab
  authtok_type := (sss_auth_token.toWire_bounds A hA _ hr.authtok_valid).1
  authtok := (sss_auth_token.toWire_bounds A hA _ hr.authtok_valid).2
  newauthtok_type := (sss_auth_token.toWire_bounds A hA _ hr.newauthtok_valid).1
  newauthtok := (sss_auth_token.toWire_bounds A hA _ hr.newauthtok_valid).2
  user := option_cstring_length hr.user

theorem krb5_req.toWire_decodable (C : SssCli) (A : AuthtokTypes) (hA : A.Distinct)
    (r : krb5_req) (offline : Bool) (hr : r.Valid C A) : (r.toWire A offline).Decodable C A where
  authtok := fun _ => by
    show ((r.authtok.toWire A).value A).isSome
    rw [sss_auth_token.value_toWire A hA _ hr.authtok_valid]; rfl
  newauthtok := fun _ => by
    show ((r.newauthtok.toWire A).value A).isSome
    rw [sss_auth_token.value_toWire A hA _ hr.newauthtok_valid]; rfl

theorem krb5_req.toWire_request (C : SssCli) (A : AuthtokTypes) (hA : A.Distinct)
    (r : krb5_req) (offline : Bool) (hr : r.Valid C A) :
    (r.toWire A offline).request C A = r := by
  have hcmd : int32_of_uint32 (r.toWire A offline).cmd = r.cmd :=
    int32_of_uint32_toNat _ hr.cmd
  have ha : (r.toWire A offline).authtok.value A = some r.authtok :=
    sss_auth_token.value_toWire A hA _ hr.authtok_valid
  have hn : (r.toWire A offline).newauthtok.value A = some r.newauthtok :=
    sss_auth_token.value_toWire A hA _ hr.newauthtok_valid
  have h1 : (if cmd_has_ccname C r.cmd then r.authtok else sss_authtok_set_empty A)
      = r.authtok := by
    have h := hr.authtok
    split_ifs at h ⊢
    · rfl
    · exact h.symm
  have h2 : (if r.cmd = C.SSS_PAM_CHAUTHTOK then r.newauthtok else sss_authtok_set_empty A)
      = r.newauthtok := by
    have h := hr.newauthtok
    split_ifs at h ⊢
    · rfl
    · exact h.symm
  unfold Wire.request
  rw [hcmd, ha, hn]
  simp only [Option.getD_some, h1, h2]
  have e1 := option_cstring_value hr.ccname
  have e2 := option_cstring_value hr.keytab
  have e3 := option_cstring_value hr.user
  have e0 := c_string_of_IsCString _ hr.upn.1
  show ({ cmd := r.cmd, uid := r.uid, gid := r.gid,
          validate := (if r.validate then 1 else 0 : Nat) != 0,
          upn_from_different_realm := (if r.upn_from_different_realm then 1 else 0 : Nat) != 0,
          use_enterprise_princ := (if r.use_enterprise_princ then 1 else 0 : Nat) != 0,
          upn := c_string r.upn,
          ccname := if cmd_has_ccname C r.cmd then some (c_string (r.ccname.getD [])) else none,
          keytab := if cmd_has_ccname C r.cmd then some (c_string (r.keytab.getD [])) else none,
          authtok := r.authtok, newauthtok := r.newauthtok,
          user := if r.cmd = C.SSS_PAM_ACCT_MGMT then some (c_string (r.user.getD [])) else none
          } : krb5_req) = r
  rw [e0, e1, e2, e3, flag_word_bne, flag_word_bne, flag_word_bne]

/-- C2: round trip.  For every valid request `r` and offline flag, and
whatever lies in memory behind the received bytes, `unpack_buffer` applied to
the wire encoding of `r` returns `EOK` and yields `r` itself, every field
unchanged (the type and the value of both credential tokens included),
together with the offline flag. -/
theorem unpack_buffer_roundtrip (C : SssCli) (A : AuthtokTypes) (hA : A.Distinct)
    (r : krb5_req) (offline : Bool) (hr : r.Valid C A) (mem : List Nat) :
    unpack_buffer C A (encode_request C A r offline ++ mem) (encode_request C A r offline).length
      = .ok (r, if offline then 1 else 0) := by
  have hw := krb5_req.toWire_wf C A hA r offline hr
  have h := unpack_buffer_wire C A (r.toWire A offline) hw
    (krb5_req.toWire_decodable C A hA r offline hr) mem
    (wire_layout C (r.toWire A offline)).length (Nat.le_refl _)
    (by have := wire_layout_length_lt C _ hw; omega)
  rw [krb5_req.toWire_request C A hA r offline hr] at h
  exact h
theorem sampleWire_wf : sampleWire.WellFormed :=
  ⟨by decide, by decide, by decide, by decide, by decide, by decide, by decide, by decide,
    by decide, by decide, by decide, by decide, by decide, by decide, by decide⟩

theorem unknownCommandWire_wf : unknownCommandWire.WellFormed :=
  ⟨by decide, by decide, by decide, by decide, by decide, by decide, by decide, by decide,
    by decide, by decide, by decide, by decide, by decide, by decide, by decide⟩

theorem sampleRequest_valid : sampleRequest.Valid sssCli authtokTypes where
  cmd := by decide
  uid := by decide
  gid := by decide
  upn := by decide
  ccname := by rw [if_pos (by decide)]; exact ⟨_, rfl, by decide⟩
  keytab := by rw [if_pos (by decide)]; exact ⟨_, rfl, by decide⟩
  authtok := by rw [if_pos (by decide)]; exact Or.inr ⟨by decide, by decide, by decide, by decide⟩
  newauthtok := by rw [if_neg (by decide)]; rfl
  user := by rw [if_neg (by decide)]; rfl

/-- C1: for every request buffer that ends inside one of the seven fixed
4-byte words, or before the length word or before the declared number of
payload bytes of a field that its command requires (that is, for every proper
initial part of the layout of a well-formed content, with anything at all in
memory behind it), `unpack_buffer` returns the error `EINVAL`, never `EOK`. -/
theorem unpack_buffer_truncated (C : SssCli) (A : AuthtokTypes) (w : Wire)
    (hw : w.WellFormed) (n : Nat) (hn : n < (wire_layout C w).length) (mem : List Nat) :
    unpack_buffer C A ((wire_layout C w).take n ++ mem) n = .error EINVAL := by
  have hb := wire_layout_length_lt C w hw
  have h := unpack_buffer_body_truncSafe C A w hw [] [] mem n (Nat.zero_le _) (by omega)
  simp only [List.nil_append, List.append_nil, List.length_nil, Nat.zero_add] at h
  unfold unpack_buffer
  rcases h with herr | ⟨hle, _⟩
  · rw [herr]
  · omega

/-- Witness of C1: the authenticate request of `sampleBuffer` with the
terminating NUL of the password cut off. -/
theorem unpack_buffer_truncated_witness :
    wire_layout sssCli sampleWire = sampleBuffer ∧
    61 < (wire_layout sssCli sampleWire).length ∧
    unpack_buffer sssCli authtokTypes ((wire_layout sssCli sampleWire).take 61 ++ [0, 7]) 61
      = .error EINVAL :=
  ⟨by decide, by decide,
    unpack_buffer_truncated sssCli authtokTypes sampleWire sampleWire_wf 61 (by decide) [0, 7]⟩

/-- Witness of C2: the authenticate request `sampleRequest` is valid, its
encoding is `sampleBuffer`, and decoding returns it. -/
theorem unpack_buffer_roundtrip_witness :
    authtokTypes.Distinct ∧ sampleRequest.Valid sssCli authtokTypes ∧
    encode_request sssCli authtokTypes sampleRequest false = sampleBuffer ∧
    unpack_buffer sssCli authtokTypes
        (encode_request sssCli authtokTypes sampleRequest false ++ [65, 66])
        (encode_request sssCli authtokTypes sampleRequest false).length
      = .ok (sampleRequest, if false then 1 else 0) :=
  ⟨by decide, sampleRequest_valid, by decide,
    unpack_buffer_roundtrip sssCli authtokTypes (by decide) sampleRequest false
      sampleRequest_valid [65, 66]⟩

/-- Counterexample to C3 as stated: the command tag 0 names no operation,
and `unpack_buffer` returns `EOK` with a decoded request for it. -/
theorem unpack_buffer_accepts_unknown_command :
    unknown_command sssCli 0 ∧
    unpack_buffer sssCli authtokTypes unknownCommandBuffer unknownCommandBuffer.length
      = .ok ({ cmd := 0, uid := 1000, gid := 1000, validate := true,
               upn_from_different_realm := false, use_enterprise_princ := false,
               upn := [97, 64, 66, 46, 67], ccname := none, keytab := none,
               authtok := { type := 0, data := [] }, newauthtok := { type := 0, data := [] },
               user := none }, 0) :=
  ⟨by decide, rfl⟩

/-- C3 (as amended): a command tag that names none of the five operations
does not make `unpack_buffer` fail.  When the seven words and the principal
name are complete, `unpack_buffer` returns `EOK` with a request whose cache
name, keytab path and user name are `NULL` and whose tokens are empty,
whatever follows in the buffer; the command is refused afterwards by the
`switch` of `main`, which sets `EINVAL` and jumps to `done` without running
an operation and without sending a response. -/
theorem unpack_buffer_unknown_command (C : SssCli) (A : AuthtokTypes) (K : Krb5Codes)
    (ops : OpsEnv) (w : Wire) (hw : w.WellFormed)
    (hcmd : unknown_command C (int32_of_uint32 w.cmd)) (rest : List Nat) (n : Nat)
    (hlen : 32 + w.upn.length ≤ n) (hn : n < 2 ^ 63) :
    wire_layout C w = le32 w.cmd ++ le32 w.uid ++ le32 w.gid ++ le32 w.validate ++
      le32 w.offline ++ le32 w.different_realm ++ le32 w.use_enterprise_princ ++
      wire_field w.upn ∧
    unpack_buffer C A (wire_layout C w ++ rest) n = .ok (w.request C A, w.offline) ∧
    (w.request C A).cmd = int32_of_uint32 w.cmd ∧
    (w.request C A).ccname = none ∧ (w.request C A).keytab = none ∧
    (w.request C A).user = none ∧
    (w.request C A).authtok = sss_authtok_set_empty A ∧
    (w.request C A).newauthtok = sss_authtok_set_empty A ∧
    main_switch C K ops (w.request C A).cmd w.offline
      = { ret := EINVAL, ran := none, send := false } := by
  unfold unknown_command at hcmd
  simp only [List.mem_cons, List.mem_singleton, List.not_mem_nil, not_or, or_false] at hcmd
  obtain ⟨c1, c2, c3, c4, c5⟩ := hcmd
  have hcc : ¬ cmd_has_ccname C (int32_of_uint32 w.cmd) := by
    unfold cmd_has_ccname
    rintro (h | h | h | h)
    · exact c1 h
    · exact c5 h
    · exact c4 h
    · exact c3 h
  have hlay : wire_layout C w = le32 w.cmd ++ le32 w.uid ++ le32 w.gid ++ le32 w.validate ++
      le32 w.offline ++ le32 w.different_realm ++ le32 w.use_enterprise_princ ++
      wire_field w.upn := by
    unfold wire_layout
    rw [if_neg hcc, if_neg c3, if_neg c2]
    simp only [List.append_nil]
  have hl : (wire_layout C w).length = 32 + w.upn.length := by
    rw [hlay]
    simp only [List.length_append, le32_length, wire_field]
    omega
  have hdec : w.Decodable C A :=
    ⟨fun h => absurd h hcc, fun h => absurd h c3⟩
  refine ⟨hlay, unpack_buffer_wire C A w hw hdec rest n (by omega) hn, rfl, ?_, ?_, ?_, ?_, ?_,
    ?_⟩
  · show (if cmd_has_ccname C (int32_of_uint32 w.cmd) then _ else none) = none
    rw [if_neg hcc]
  · show (if cmd_has_ccname C (int32_of_uint32 w.cmd) then _ else none) = none
    rw [if_neg hcc]
  · show (if int32_of_uint32 w.cmd = C.SSS_PAM_ACCT_MGMT then _ else none) = none
    rw [if_neg c2]
  · show (if cmd_has_ccname C (int32_of_uint32 w.cmd) then _ else _) = _
    rw [if_neg hcc]
  · show (if int32_of_uint32 w.cmd = C.SSS_PAM_CHAUTHTOK then _ else _) = _
    rw [if_neg c3]
  · show main_switch C K ops (int32_of_uint32 w.cmd) w.offline = _
    unfold main_switch
    rw [if_neg c1, if_neg c3, if_neg c4, if_neg c2, if_neg c5]

/-- Witness of the amended C3: the buffer with the command tag 0. -/
theorem unpack_buffer_unknown_command_witness :
    unknown_command sssCli (int32_of_uint32 unknownCommandWire.cmd) ∧
    wire_layout sssCli unknownCommandWire = unknownCommandBuffer ∧
    unpack_buffer sssCli authtokTypes (wire_layout sssCli unknownCommandWire ++ [9, 9]) 39
      = .ok (unknownCommandWire.request sssCli authtokTypes, unknownCommandWire.offline) ∧
    main_switch sssCli mitCodes okOps (unknownCommandWire.request sssCli authtokTypes).cmd
        unknownCommandWire.offline
      = { ret := EINVAL, ran := none, send := false } :=
  ⟨by decide, by decide,
    (unpack_buffer_unknown_command sssCli authtokTypes mitCodes okOps unknownCommandWire
      unknownCommandWire_wf (by decide) [9, 9] 39 (by decide) (by decide)).2.1,
    (unpack_buffer_unknown_command sssCli authtokTypes mitCodes okOps unknownCommandWire
      unknownCommandWire_wf (by decide) [9, 9] 39 (by decide) (by decide)).2.2.2.2.2.2.2.2⟩
theorem c_string_eq_nil_iff (b : List Nat) : c_string b = [] ↔ b.head?.getD 0 % 256 = 0 := by
  cases b with
  | nil => simp [c_string]
  | cons x xs =>
    by_cases h : x % 256 = 0
    · simp [c_string, List.takeWhile_cons, h]
    · simp [c_string, List.takeWhile_cons, h]

theorem take_append_nul (l : List Nat) : (l ++ [0]).take (l.length + 1) = l ++ [0] :=
  List.take_of_length_le (by simp)

/-- C18: `sss_krb5_prompter` returns the error `KRB5_LIBOS_CANTREADPWD` and
leaves the response as it is whenever the number of prompts is not zero.
With zero prompts it returns `EOK`; it then appends exactly one
`SSS_PAM_TEXT_MSG` message, whose payload is the banner with its terminating
NUL, when the banner is not empty, and appends nothing when the banner is
`NULL` or empty. -/
theorem sss_krb5_prompter_banner_only (K : Krb5Codes) (R : ResponseTypes)
    (resp_list : List response_data) (banner : Option (List Nat)) (num_prompts : Int)
    (hK : K.KRB5_LIBOS_CANTREADPWD ≠ EOK) :
    (num_prompts ≠ 0 →
      sss_krb5_prompter K R resp_list banner num_prompts
          = (K.KRB5_LIBOS_CANTREADPWD, resp_list) ∧
        (sss_krb5_prompter K R resp_list banner num_prompts).1 ≠ EOK) ∧
    (num_prompts = 0 →
      (sss_krb5_prompter K R resp_list banner num_prompts).1 = EOK ∧
      (∀ b, banner = some b → c_string b ≠ [] →
        (sss_krb5_prompter K R resp_list banner num_prompts).2
          = resp_list ++ [{ type := R.SSS_PAM_TEXT_MSG, len := (c_string b).length + 1,
                            data := c_string b ++ [0] }]) ∧
      ((banner = none ∨ ∃ b, banner = some b ∧ c_string b = []) →
        (sss_krb5_prompter K R resp_list banner num_prompts).2 = resp_list)) := by
  refine ⟨fun hn => ?_, fun hn => ?_⟩
  · have h : sss_krb5_prompter K R resp_list banner num_prompts
        = (K.KRB5_LIBOS_CANTREADPWD, resp_list) := by
      unfold sss_krb5_prompter; rw [if_pos hn]
    exact ⟨h, by rw [h]; exact hK⟩
  · subst hn
    refine ⟨?_, ?_, ?_⟩
    · unfold sss_krb5_prompter
      cases banner with
      | none => simp
      | some b => by_cases h : b.head?.getD 0 % 256 = 0 <;> simp [h]
    · intro b hb hne
      subst hb
      have h : ¬ (b.head?.getD 0 % 256 = 0) := fun h => hne ((c_string_eq_nil_iff b).2 h)
      unfold sss_krb5_prompter pam_add_response
      simp only [ne_eq, not_true_eq_false, if_false, h, take_append_nul]
    · rintro (hb | ⟨b, hb, hnil⟩)
      · subst hb; simp [sss_krb5_prompter]
      · subst hb
        have h : b.head?.getD 0 % 256 = 0 := (c_string_eq_nil_iff b).1 hnil
        unfold sss_krb5_prompter
        simp only [ne_eq, not_true_eq_false, if_false, h, if_true]

/-- Witness of C18 at the MIT Kerberos codes: with no prompt and the banner
`hi` on an empty response, one text message `hi\0` of length 3 is there. -/
theorem sss_krb5_prompter_banner_only_witness :
    mitCodes.KRB5_LIBOS_CANTREADPWD ≠ EOK ∧
    c_string str_hi ≠ [] ∧
    (sss_krb5_prompter mitCodes responseTypes [] (some str_hi) 0).2
      = [{ type := 7, len := 3, data := [104, 105, 0] }] :=
  ⟨by decide, by decide,
    (sss_krb5_prompter_banner_only mitCodes responseTypes [] (some str_hi) 0 (by decide)).2 rfl
      |>.2.1 str_hi rfl (by decide)⟩

/-- C17: `kuserok_child` returns `EOK` exactly when `krb5_kuserok` allows
the principal to log in as the given user, and `ERR_AUTH_DENIED` otherwise,
whatever `unsetenv("_SSS_LOOPS")` and `krb5_set_default_realm` return; the
worker context is left as it was.  Hence two invocations with the same
principal and user, in environments whose mapping check gives the same
answer, return the same status. -/
theorem kuserok_child_allow_deny (E : SssdErrors) (env : OpEnv) (st : KrState)
    (hE : E.ERR_AUTH_DENIED ≠ EOK) :
    ((kuserok_child E env st).ret = EOK ↔
      env.krb5_kuserok (env.unsetenv == 0) (env.krb5_set_default_realm == 0)
        st.princ st.req.user = true) ∧
    ((kuserok_child E env st).ret = E.ERR_AUTH_DENIED ↔
      env.krb5_kuserok (env.unsetenv == 0) (env.krb5_set_default_realm == 0)
        st.princ st.req.user = false) ∧
    (kuserok_child E env st).st = st ∧
    (∀ (env2 : OpEnv) (st2 : KrState),
      env2.krb5_kuserok (env2.unsetenv == 0) (env2.krb5_set_default_realm == 0)
          st2.princ st2.req.user
        = env.krb5_kuserok (env.unsetenv == 0) (env.krb5_set_default_realm == 0)
          st.princ st.req.user →
      (kuserok_child E env2 st2).ret = (kuserok_child E env st).ret) := by
  have key : ∀ (e : OpEnv) (s : KrState), (kuserok_child E e s).ret =
      if e.krb5_kuserok (e.unsetenv == 0) (e.krb5_set_default_realm == 0) s.princ s.req.user
      then EOK else E.ERR_AUTH_DENIED := by
    intro e s
    unfold kuserok_child
    by_cases h : e.krb5_kuserok (e.unsetenv == 0) (e.krb5_set_default_realm == 0)
      s.princ s.req.user = true <;> simp [h]
  refine ⟨?_, ?_, ?_, ?_⟩
  · rw [key]
    by_cases h : env.krb5_kuserok (env.unsetenv == 0) (env.krb5_set_default_realm == 0)
      st.princ st.req.user = true
    · simp [h]
    · simp [h, hE]
  · rw [key]
    by_cases h : env.krb5_kuserok (env.unsetenv == 0) (env.krb5_set_default_realm == 0)
      st.princ st.req.user = true
    · simp [h]; exact fun h2 => hE h2.symm
    · simp [h]
  · unfold kuserok_child
    by_cases h : env.krb5_kuserok (env.unsetenv == 0) (env.krb5_set_default_realm == 0)
      st.princ st.req.user = true <;> simp [h]
  · intro env2 st2 h
    rw [key, key, h]

/-- Witness of C17 at the sssd taxonomy: an allowing mapping check gives
`EOK`, a refusing one gives `ERR_AUTH_DENIED`. -/
theorem kuserok_child_allow_deny_witness :
    sssdErrors.ERR_AUTH_DENIED ≠ EOK ∧
    (kuserok_child sssdErrors (opEnv (fun _ _ => 0) changeAccepted true) sampleState).ret = EOK ∧
    (kuserok_child sssdErrors (opEnv (fun _ _ => 0) changeAccepted false) sampleState).ret
      = 0x555D0008 :=
  ⟨by decide,
    (kuserok_child_allow_deny sssdErrors (opEnv (fun _ _ => 0) changeAccepted true) sampleState
      (by decide)).1.2 rfl,
    (kuserok_child_allow_deny sssdErrors (opEnv (fun _ _ => 0) changeAccepted false) sampleState
      (by decide)).2.1.2 rfl⟩

theorem store_creds_in_ccache_count (env : CcacheEnv) (creds : Bool) :
    (store_creds_in_ccache env creds).2.count Call.krb5_get_init_creds_keytab = 0 := by
  unfold store_creds_in_ccache create_empty_cred
  cases creds <;> simp only [] <;> split_ifs <;> simp [List.count_cons]

theorem create_ccache_file_count (env : CcacheEnv) (ccname : List Nat) (creds : Bool) :
    (create_ccache_file env ccname creds).2.count Call.krb5_get_init_creds_keytab = 0 := by
  have hs := store_creds_in_ccache_count env creds
  unfold create_ccache_file
  simp only []
  repeat' split
  all_goals simp [List.count_append, List.count_cons, hs]
theorem get_tgt_times_count (env : FastEnv) (ccname : List Nat) (tgtt : sss_krb5_ticket_times) :
    (get_tgt_times env ccname tgtt).2.2.count Call.krb5_get_init_creds_keytab = 0 := by
  unfold get_tgt_times
  simp only []
  split_ifs <;> simp [List.count_cons]

theorem get_and_save_tgt_with_keytab_count (env : FastEnv) (ccname : List Nat) :
    (get_and_save_tgt_with_keytab env ccname).2.count Call.krb5_get_init_creds_keytab = 1 := by
  have hc := create_ccache_file_count env.cc ccname true
  unfold get_and_save_tgt_with_keytab
  simp only []
  split_ifs <;> simp [List.count_cons, hc]

theorem get_tgt_times_valid (env : FastEnv) (ccname : List Nat) :
    ((get_tgt_times env ccname zero_times).1 = 0 ∧
      (get_tgt_times env ccname zero_times).2.1.endtime > (env.time : Int)) ↔
    env.holds_valid_ticket ccname := by
  unfold get_tgt_times FastEnv.holds_valid_ticket
  simp only []
  by_cases h1 : env.cc.krb5_cc_resolve ccname = 0
  · by_cases h2 : env.krb5_cc_retrieve_cred.1 = 0
    · simp [h1, h2]
    · have h3 : ¬ ((0 : Int) > (env.time : Int)) := by omega
      simp [h1, h2, zero_times]
  · simp [h1]

/-- C11 (as amended): in `check_fast_ccache`, once the keytab is open, the
armoring principal is found in it and the name `krbtgt/<realm>@<realm>` of
the ticket-granting service is parsed: if the armor cache holds a ticket of
that service for the principal whose end-time is strictly greater than the
current time, `krb5_get_init_creds_keytab` is not called (so
`get_and_save_tgt_with_keytab` is not invoked) and the cache name is
returned with the status 0; otherwise (the cache does not open, no such
ticket is found, or its end-time is not greater than the current time) the
acquisition is invoked exactly once. -/
theorem check_fast_ccache_reuse_or_acquire (env : FastEnv)
    (primary realm keytab_name : Option (List Nat))
    (hkt : (if keytab_name.isSome then env.krb5_kt_resolve else env.krb5_kt_default) = 0)
    (hfind : env.find_principal_in_keytab primary realm = 0)
    (hparse : env.krb5_parse_name (krbtgt_name realm) = 0) :
    (env.holds_valid_ticket (fast_ccache_name env realm) →
      (check_fast_ccache env primary realm keytab_name).1 = 0 ∧
      (check_fast_ccache env primary realm keytab_name).2.1 = some (fast_ccache_name env realm) ∧
      (check_fast_ccache env primary realm keytab_name).2.2.count
        Call.krb5_get_init_creds_keytab = 0) ∧
    (¬ env.holds_valid_ticket (fast_ccache_name env realm) →
      (check_fast_ccache env primary realm keytab_name).2.2.count
        Call.krb5_get_init_creds_keytab = 1) := by
  have hv := get_tgt_times_valid env (fast_ccache_name env realm)
  have ht := get_tgt_times_count env (fast_ccache_name env realm) zero_times
  have hk := get_and_save_tgt_with_keytab_count env (fast_ccache_name env realm)
  have hhead : List.count Call.krb5_get_init_creds_keytab
      [if keytab_name.isSome then Call.krb5_kt_resolve else Call.krb5_kt_default] = 0 := by
    cases keytab_name <;> simp [List.count_cons]
  have hne : ¬ ((if keytab_name.isSome then Call.krb5_kt_resolve else Call.krb5_kt_default)
      = Call.krb5_get_init_creds_keytab) := by
    cases keytab_name <;> simp
  constructor
  · intro hvalid
    have hcond := hv.2 hvalid
    unfold check_fast_ccache
    simp only [hkt, hfind, hparse, ne_eq, not_true_eq_false, if_false]
    rw [if_pos hcond]
    refine ⟨rfl, rfl, ?_⟩
    simp [List.count_append, List.count_cons, ht, hhead, hne]
  · intro hinvalid
    have hcond : ¬ ((get_tgt_times env (fast_ccache_name env realm) zero_times).1 = 0 ∧
      (get_tgt_times env (fast_ccache_name env realm) zero_times).2.1.endtime
        > (env.time : Int)) := fun h => hinvalid (hv.1 h)
    unfold check_fast_ccache
    simp only [hkt, hfind, hparse, ne_eq, not_true_eq_false, if_false]
    rw [if_neg hcond]
    split_ifs <;> simp [List.count_append, List.count_cons, ht, hhead, hk, hne]

/-- Witness of the amended C11: with a ticket that ends at 2000 and the clock
at 1000 the cache `FILE:/var/lib/sss/db/fast_ccache_EXAMPLE.COM` is reused
without an acquisition; with the clock at 3000 there is one acquisition. -/
theorem check_fast_ccache_reuse_or_acquire_witness :
    ((check_fast_ccache (fastEnv 0 0 (0, times_until 2000) 1000 0) none (some realm_EXAMPLE_COM)
        (some [47, 107, 116])).1 = 0 ∧
      (check_fast_ccache (fastEnv 0 0 (0, times_until 2000) 1000 0) none (some realm_EXAMPLE_COM)
        (some [47, 107, 116])).2.1
        = some (fast_ccache_name (fastEnv 0 0 (0, times_until 2000) 1000 0)
            (some realm_EXAMPLE_COM)) ∧
      (check_fast_ccache (fastEnv 0 0 (0, times_until 2000) 1000 0) none (some realm_EXAMPLE_COM)
        (some [47, 107, 116])).2.2.count Call.krb5_get_init_creds_keytab = 0) ∧
    (check_fast_ccache (fastEnv 0 0 (0, times_until 2000) 3000 0) none (some realm_EXAMPLE_COM)
        (some [47, 107, 116])).2.2.count Call.krb5_get_init_creds_keytab = 1 :=
  ⟨(check_fast_ccache_reuse_or_acquire (fastEnv 0 0 (0, times_until 2000) 1000 0) none
      (some realm_EXAMPLE_COM) (some [47, 107, 116]) rfl rfl rfl).1 (by decide),
    (check_fast_ccache_reuse_or_acquire (fastEnv 0 0 (0, times_until 2000) 3000 0) none
      (some realm_EXAMPLE_COM) (some [47, 107, 116]) rfl rfl rfl).2 (by decide)⟩

/-- Counterexample to C11 as stated: the keytab `/kt` opens and the armoring
principal is found in it, the cache holds no ticket, but
`krb5_parse_name` refuses the name of the ticket-granting service with
`KRB5_PARSE_MALFORMED`; `check_fast_ccache` returns that error and the
acquisition is not invoked at all. -/
theorem check_fast_ccache_parse_failure_no_acquisition :
    (fastEnv 0 KRB5_PARSE_MALFORMED (1, zero_times) 1000 0).krb5_kt_resolve = 0 ∧
    (fastEnv 0 KRB5_PARSE_MALFORMED (1, zero_times) 1000 0).find_principal_in_keytab none
      (some realm_EXAMPLE_COM) = 0 ∧
    ¬ (fastEnv 0 KRB5_PARSE_MALFORMED (1, zero_times) 1000 0).holds_valid_ticket
      (fast_ccache_name (fastEnv 0 KRB5_PARSE_MALFORMED (1, zero_times) 1000 0)
        (some realm_EXAMPLE_COM)) ∧
    check_fast_ccache (fastEnv 0 KRB5_PARSE_MALFORMED (1, zero_times) 1000 0) none
        (some realm_EXAMPLE_COM) (some [47, 107, 116])
      = (KRB5_PARSE_MALFORMED, none,
          [Call.krb5_kt_resolve, Call.find_principal_in_keytab none (some realm_EXAMPLE_COM),
            Call.krb5_parse_name (krbtgt_name (some realm_EXAMPLE_COM)), Call.krb5_kt_close]) ∧
    (check_fast_ccache (fastEnv 0 KRB5_PARSE_MALFORMED (1, zero_times) 1000 0) none
        (some realm_EXAMPLE_COM) (some [47, 107, 116])).2.2.count
      Call.krb5_get_init_creds_keytab ≠ 1 := by
  refine ⟨rfl, rfl, by decide, rfl, by decide⟩
theorem strcasecmp_try_not_never (s : List Nat) (h : strcasecmp_eq s str_try = true) :
    strcasecmp_eq s str_never = false := by
  unfold strcasecmp_eq at *
  have h1 : s.map tolower = str_try.map tolower := by simpa using h
  rw [h1]; decide

theorem strcasecmp_demand_not_never (s : List Nat) (h : strcasecmp_eq s str_demand = true) :
    strcasecmp_eq s str_never = false := by
  unfold strcasecmp_eq at *
  have h1 : s.map tolower = str_demand.map tolower := by simpa using h
  rw [h1]; decide

theorem strcasecmp_demand_not_try (s : List Nat) (h : strcasecmp_eq s str_demand = true) :
    strcasecmp_eq s str_try = false := by
  unfold strcasecmp_eq at *
  have h1 : s.map tolower = str_demand.map tolower := by simpa using h
  rw [h1]; decide

/-- When the armoring principal is determined and `check_fast_ccache` fails,
`k5c_setup_fast` returns the error of `check_fast_ccache`, whatever the flag
`demand`. -/
theorem k5c_setup_fast_check_failure (env : FastEnv) (realm keytab : Option (List Nat))
    (demand : Bool) (p r : Option (List Nat)) (calls : List Call)
    (hprinc : k5c_setup_fast_principal env realm = (.ok (p, r), calls))
    (hfail : (check_fast_ccache env p r keytab).1 ≠ 0) :
    (k5c_setup_fast env realm keytab demand).1 = (check_fast_ccache env p r keytab).1 := by
  unfold k5c_setup_fast
  rw [hprinc]
  simp only []
  rw [if_pos hfail]

/-- The value that `k5c_setup` returns is not 0 unless every step of it
succeeded; with the policy `try` or `demand`, online, it is the value of
`k5c_setup_fast` or the error of an earlier step. -/
theorem k5c_setup_use_fast_policy (env : SetupEnv) (st : KrState) (kerr : Int) (s : List Nat)
    (hs : env.getenv_SSSD_KRB5_USE_FAST = some s)
    (hpol : strcasecmp_eq s str_try = true ∨ strcasecmp_eq s str_demand = true) :
    (k5c_setup_use_fast env st kerr).1
      = (k5c_setup_fast env.fast st.realm st.req.keytab (strcasecmp_eq s str_demand)).1 := by
  unfold k5c_setup_use_fast
  rw [hs]
  simp only []
  rcases hpol with h | h
  · have hn := strcasecmp_try_not_never s h
    have hd : strcasecmp_eq s str_demand = false := by
      by_contra hd
      have hd' : strcasecmp_eq s str_demand = true := by simpa using hd
      have := strcasecmp_demand_not_try s hd'
      rw [h] at this; exact absurd this (by decide)
    simp [hn, h, hd]
  · have hn := strcasecmp_demand_not_never s h
    have ht := strcasecmp_demand_not_try s h
    simp [hn, h, ht]

theorem main_exit_ne (ret : Int) (h : ret ≠ EOK) : main_exit ret = -1 := by
  unfold main_exit; rw [if_neg h]

/-- C12 (as amended): when the FAST policy is `try` or `demand`, the worker
is online, and preparing the armor cache fails (`check_fast_ccache` returns
an error for the armoring principal), `k5c_setup` fails: it returns a
non-zero value under either policy, and there is no fall-back to an
unarmored acquisition.  The failure is fatal to the operation: `main` then
runs no operation, writes no response and exits with -1. -/
theorem k5c_setup_armor_failure_fatal (env : SetupEnv) (req : krb5_req) (s : List Nat)
    (p r : Option (List Nat)) (calls : List Call)
    (hs : env.getenv_SSSD_KRB5_USE_FAST = some s)
    (hpol : strcasecmp_eq s str_try = true ∨ strcasecmp_eq s str_demand = true)
    (hprinc : k5c_setup_fast_principal env.fast env.getenv_SSSD_KRB5_REALM = (.ok (p, r), calls))
    (hfail : (check_fast_ccache env.fast p r req.keytab).1 ≠ 0) :
    (k5c_setup env req 0).1 ≠ EOK ∧
    (∀ (C : SssCli) (K : Krb5Codes) (E : SssdErrors) (R : ResponseTypes) (A : AuthtokTypes)
        (menv : MainEnv) (buf : List Nat),
      menv.setup = env → menv.sss_atomic_read_s = .ok buf →
      unpack_buffer C A (buf ++ menv.stack) buf.length = .ok (req, 0) →
      main C K E R A menv
        = some { exit_code := -1, ran := none, calls := (k5c_setup env req 0).2.2,
                 writes := [] }) := by
  have hfast : ∀ (st : KrState) (kerr : Int), st.realm = env.getenv_SSSD_KRB5_REALM →
      st.req = req → (k5c_setup_use_fast env st kerr).1 ≠ EOK := by
    intro st kerr hr hq
    rw [k5c_setup_use_fast_policy env st kerr s hs hpol, hr, hq,
      k5c_setup_fast_check_failure env.fast _ _ _ p r calls hprinc hfail]
    exact hfail
  have hsetup : (k5c_setup env req 0).1 ≠ EOK := by
    unfold k5c_setup
    simp only []
    split_ifs
    all_goals first
      | assumption
      | exact hfast _ _ rfl rfl
      | (show ( EIO : Int) ≠ EOK; decide)
  refine ⟨hsetup, ?_⟩
  intro C K E R A menv buf hm hread hdec
  subst hm
  unfold main k5c_recv_data
  rw [hread]
  simp only [hdec]
  rw [if_pos hsetup, main_exit_ne _ hsetup]

/-- Witness of the amended C12: the armoring principal is not in the keytab
(`KRB5_KT_NOTFOUND`); `k5c_setup` fails under the policy `try` and under the
policy `demand`. -/
theorem k5c_setup_armor_failure_fatal_witness :
    (check_fast_ccache (fastEnv KRB5_KT_NOTFOUND 0 (1, zero_times) 1000 0) none
      (some realm_EXAMPLE_COM) sampleRequest.keytab).1 ≠ 0 ∧
    (k5c_setup (setupEnv (some str_try) (fastEnv KRB5_KT_NOTFOUND 0 (1, zero_times) 1000 0))
      sampleRequest 0).1 ≠ EOK ∧
    (k5c_setup (setupEnv (some str_demand) (fastEnv KRB5_KT_NOTFOUND 0 (1, zero_times) 1000 0))
      sampleRequest 0).1 ≠ EOK :=
  ⟨by decide,
    (k5c_setup_armor_failure_fatal
      (setupEnv (some str_try) (fastEnv KRB5_KT_NOTFOUND 0 (1, zero_times) 1000 0))
      sampleRequest str_try none (some realm_EXAMPLE_COM) [] rfl (Or.inl rfl) rfl
      (by decide)).1,
    (k5c_setup_armor_failure_fatal
      (setupEnv (some str_demand) (fastEnv KRB5_KT_NOTFOUND 0 (1, zero_times) 1000 0))
      sampleRequest str_demand none (some realm_EXAMPLE_COM) [] rfl (Or.inr rfl) rfl
      (by decide)).1⟩

/-- Counterexample to C12 as stated: the policy is `try`, the worker is
online, and the armoring principal is not in the keytab
(`find_principal_in_keytab` returns `KRB5_KT_NOTFOUND`).  `k5c_setup` does
not succeed, it returns that error; `main`, given the authenticate request
`sampleBuffer`, runs no operation, writes no response and exits with -1. -/
theorem k5c_setup_try_armor_failure_fails :
    strcasecmp_eq str_try str_try = true ∧
    (k5c_setup (setupEnv (some str_try) (fastEnv KRB5_KT_NOTFOUND 0 (1, zero_times) 1000 0))
      sampleRequest 0).1 = KRB5_KT_NOTFOUND ∧
    (k5c_setup (setupEnv (some str_try) (fastEnv KRB5_KT_NOTFOUND 0 (1, zero_times) 1000 0))
      sampleRequest 0).1 ≠ EOK ∧
    main sssCli mitCodes sssdErrors responseTypes authtokTypes
        (mainEnv sampleBuffer
          (setupEnv (some str_try) (fastEnv KRB5_KT_NOTFOUND 0 (1, zero_times) 1000 0))
          (opEnv (fun _ _ => 0) changeAccepted true) (fun buf => .ok buf.length))
      = some { exit_code := -1, ran := none,
               calls := [Call.krb5_kt_resolve,
                 Call.find_principal_in_keytab none (some realm_EXAMPLE_COM),
                 Call.krb5_kt_close],
               writes := [] } := by
  refine ⟨rfl, rfl, by decide, rfl⟩
theorem map_krb5_error_mem_mapped (K : Krb5Codes) (E : SssdErrors) (kerr : Int) :
    map_krb5_error K E kerr ∈ E.mapped := by
  unfold map_krb5_error SssdErrors.mapped
  split_ifs <;> simp

theorem map_krb5_error_preauth (K : Krb5Codes) (E : SssdErrors) (hK : K.LabelsDistinct)
    (kerr : Int) (h : kerr = K.KRB5_PREAUTH_FAILED ∨ kerr = K.KRB5KDC_ERR_PREAUTH_FAILED) :
    map_krb5_error K E kerr = E.ERR_AUTH_FAILED := by
  simp only [Krb5Codes.LabelsDistinct, List.nodup_cons, List.mem_cons, List.mem_singleton,
    List.not_mem_nil, not_or, or_false, List.nodup_nil, and_true] at hK
  obtain ⟨⟨h01, h02, h03, h04, h05, h06⟩, ⟨h12, h13, h14, h15, h16⟩, ⟨h23, h24, h25, h26⟩,
    ⟨h34, h35, h36⟩, ⟨h45, h46⟩, h56, -⟩ := hK
  rcases h with h | h
  · subst h
    simp [map_krb5_error, Ne.symm h05, Ne.symm h15, Ne.symm h25, Ne.symm h35, Ne.symm h45]
  · subst h
    simp [map_krb5_error, Ne.symm h06, Ne.symm h16, Ne.symm h26, Ne.symm h36, Ne.symm h46,
      Ne.symm h56]

theorem get_changepw_options_eq : get_changepw_options = 0 := rfl

/-- C13: in `tgt_req_child`, when `get_and_save_tgt` returns
`KRB5KDC_ERR_KEY_EXP`, one more call of `krb5_get_init_creds_password` is
made, with the same password and the service `kadmin/changepw`, and nothing
else; the operation returns `ERR_CREDS_EXPIRED` when that call succeeds and
otherwise what `map_krb5_error` gives for its error
(`ERR_AUTH_FAILED` for the two pre-authentication failures).  When
`get_and_save_tgt` returns any other code, no call follows it: the calls are
those of `get_and_save_tgt`, and the status is what `map_krb5_error` gives
for that code, or for the result of `k5c_attach_ccname_msg` after a
success. -/
theorem tgt_req_child_key_expired (K : Krb5Codes) (E : SssdErrors) (R : ResponseTypes)
    (A : AuthtokTypes) (env : OpEnv) (st : KrState) (password : Option (List Nat))
    (g : OpResult) (second : Int × List response_data)
    (hpw : password = (env.sss_authtok_get_password st.req.authtok).2)
    (hg : g = get_and_save_tgt K R env st password)
    (hsecond : second
      = env.krb5_get_init_creds_password password (some SSSD_KRB5_CHANGEPW_PRINCIPAL)) :
    (g.ret = K.KRB5KDC_ERR_KEY_EXP →
      (tgt_req_child K E R A env st).calls = g.calls ++
        [Call.krb5_get_init_creds_password password (some SSSD_KRB5_CHANGEPW_PRINCIPAL)] ∧
      (second.1 = 0 → (tgt_req_child K E R A env st).ret = E.ERR_CREDS_EXPIRED) ∧
      (second.1 ≠ 0 → (tgt_req_child K E R A env st).ret = map_krb5_error K E second.1) ∧
      (K.LabelsDistinct →
        second.1 = K.KRB5_PREAUTH_FAILED ∨ second.1 = K.KRB5KDC_ERR_PREAUTH_FAILED →
        (tgt_req_child K E R A env st).ret = E.ERR_AUTH_FAILED)) ∧
    (g.ret ≠ K.KRB5KDC_ERR_KEY_EXP →
      (tgt_req_child K E R A env st).calls = g.calls ∧
      (tgt_req_child K E R A env st).ret
        = map_krb5_error K E (if g.ret = 0 then (k5c_attach_ccname_msg E R g.st).1 else g.ret)) := by
  subst hpw hg hsecond
  constructor
  · intro hexp
    have hret : (tgt_req_child K E R A env st).ret =
        if (env.krb5_get_init_creds_password (env.sss_authtok_get_password st.req.authtok).2
          (some SSSD_KRB5_CHANGEPW_PRINCIPAL)).1 = 0 then E.ERR_CREDS_EXPIRED
        else map_krb5_error K E (env.krb5_get_init_creds_password
          (env.sss_authtok_get_password st.req.authtok).2 (some SSSD_KRB5_CHANGEPW_PRINCIPAL)).1 := by
      unfold tgt_req_child
      simp only [hexp, ne_eq, not_true_eq_false, if_false, get_changepw_options_eq]
    refine ⟨?_, ?_, ?_, ?_⟩
    · unfold tgt_req_child
      simp only [hexp, ne_eq, not_true_eq_false, if_false, get_changepw_options_eq]
    · intro h0; rw [hret, if_pos h0]
    · intro h0; rw [hret, if_neg h0]
    · intro hK hpre
      have hne : (env.krb5_get_init_creds_password (env.sss_authtok_get_password st.req.authtok).2
          (some SSSD_KRB5_CHANGEPW_PRINCIPAL)).1 ≠ 0 := by
        simp only [Krb5Codes.LabelsDistinct, List.nodup_cons, List.mem_cons, List.mem_singleton,
          List.not_mem_nil, not_or, or_false, List.nodup_nil, and_true] at hK
        obtain ⟨⟨h01, h02, h03, h04, h05, h06⟩, -⟩ := hK
        rcases hpre with h | h
        · rw [h]; exact Ne.symm h05
        · rw [h]; exact Ne.symm h06
      rw [hret, if_neg hne]
      exact map_krb5_error_preauth K E hK _ hpre
  · intro hne
    constructor
    · unfold tgt_req_child
      simp only [ne_eq, hne, not_false_eq_true, if_true]
    · unfold tgt_req_child
      simp only [ne_eq, hne, not_false_eq_true, if_true]
      by_cases h0 : (get_and_save_tgt K R env st
          (env.sss_authtok_get_password st.req.authtok).2).ret = 0
      · simp only [h0, if_true]
      · simp only [h0, if_false]
/-- Witness of C13 at the MIT Kerberos codes: the password `pw` of
`sampleState` is expired.  When the acquisition for `kadmin/changepw`
succeeds the status is `ERR_CREDS_EXPIRED`; when it fails with
`KRB5KDC_ERR_PREAUTH_FAILED` the status is `ERR_AUTH_FAILED`. -/
theorem tgt_req_child_key_expired_witness :
    (get_and_save_tgt mitCodes responseTypes (opEnv (expiredPassword 0) changeAccepted true)
      sampleState (some [112, 119])).ret = mitCodes.KRB5KDC_ERR_KEY_EXP ∧
    (tgt_req_child mitCodes sssdErrors responseTypes authtokTypes
      (opEnv (expiredPassword 0) changeAccepted true) sampleState).ret = 0x555D0005 ∧
    (tgt_req_child mitCodes sssdErrors responseTypes authtokTypes
      (opEnv (expiredPassword (-1765328360)) changeAccepted true) sampleState).ret
      = 0x555D0009 :=
  ⟨rfl,
    ((tgt_req_child_key_expired mitCodes sssdErrors responseTypes authtokTypes
      (opEnv (expiredPassword 0) changeAccepted true) sampleState _ _ _ rfl rfl rfl).1 rfl).2.1
      rfl,
    ((tgt_req_child_key_expired mitCodes sssdErrors responseTypes authtokTypes
      (opEnv (expiredPassword (-1765328360)) changeAccepted true) sampleState _ _ _
      rfl rfl rfl).1 rfl).2.2.2 (by decide) (Or.inr rfl)⟩

theorem user_error_message_cases (r : ChangePasswordResult) :
    (r.result_string ≠ [] →
      user_error_message r = some (talloc_strndup r.result_string r.result_string.length)) ∧
    (r.result_string = [] → r.result_code_string ≠ [] →
      user_error_message r
        = some (talloc_strndup r.result_code_string r.result_code_string.length)) ∧
    (r.result_string = [] → r.result_code_string = [] → user_error_message r = none) := by
  unfold user_error_message
  refine ⟨fun h => ?_, fun h1 h2 => ?_, fun h1 h2 => ?_⟩
  · have : r.result_string.length > 0 := List.length_pos.2 h
    simp [this]
  · have : r.result_code_string.length > 0 := List.length_pos.2 h2
    simp [h1, this]
  · simp [h1, h2]

theorem pam_add_response_full (resp_list : List response_data) (type : Int) (data : List Nat) :
    pam_add_response resp_list type data.length data
      = resp_list ++ [{ type := type, len := data.length, data := data }] := by
  unfold pam_add_response
  rw [List.take_length]

/-- The run of `changepw_child` (not preliminary) from the call of
`krb5_change_password` on, once both passwords are fetched and the initial
authentication succeeded. -/
theorem changepw_child_after_init (K : Krb5Codes) (E : SssdErrors) (R : ResponseTypes)
    (A : AuthtokTypes) (env : OpEnv) (st : KrState) (pw npw : Option (List Nat))
    (hpw : env.sss_authtok_get_password st.req.authtok = (EOK, pw))
    (hinit : (env.krb5_get_init_creds_password pw (some SSSD_KRB5_CHANGEPW_PRINCIPAL)).1 = 0)
    (hnpw : env.sss_authtok_get_password st.req.newauthtok = (EOK, npw)) :
    changepw_child K E R A env st false =
      (let st1 := KrState.clear_authtok A { st with resp_list := st.resp_list ++
          (env.krb5_get_init_creds_password pw (some SSSD_KRB5_CHANGEPW_PRINCIPAL)).2 }
       let r := env.krb5_change_password npw
       let calls := [Call.krb5_get_init_creds_password pw (some SSSD_KRB5_CHANGEPW_PRINCIPAL),
          Call.krb5_change_password npw]
       if r.kerr = K.KRB5_KDC_UNREACH then { ret := E.ERR_NETWORK_IO, st := st1, calls := calls }
       else if r.kerr ≠ 0 ∨ r.result_code ≠ 0 then
         match user_error_message r with
         | some msg =>
           let user_resp := env.pack_user_info_chpass_error msg
           { ret := E.ERR_CHPASS_FAILED,
             st := { st1 with resp_list :=
               pam_add_response st1.resp_list R.SSS_PAM_USER_INFO user_resp.length user_resp },
             calls := calls }
         | none => { ret := E.ERR_CHPASS_FAILED, st := st1, calls := calls }
       else
         let g := get_and_save_tgt K R env st1 npw
         let a : Int × KrState :=
           if g.ret = 0 then k5c_attach_ccname_msg E R (g.st.clear_newauthtok A)
           else (g.ret, g.st.clear_newauthtok A)
         { ret := map_krb5_error K E a.1, st := a.2, calls := calls ++ g.calls }) := by
  have hnpw' : env.sss_authtok_get_password
      (KrState.clear_authtok A { st with resp_list := st.resp_list ++
        (env.krb5_get_init_creds_password pw (some SSSD_KRB5_CHANGEPW_PRINCIPAL)).2 }).req.newauthtok
      = (EOK, npw) := by
    rw [← hnpw]; rfl
  unfold changepw_child
  simp only [hpw, ne_eq, not_true_eq_false, if_false, get_changepw_options_eq, hinit, hnpw',
    Bool.false_eq_true, List.singleton_append, List.cons_append, List.nil_append]

/-- C15 (as amended): in `changepw_child` (not preliminary), once the initial
authentication against `kadmin/changepw` has succeeded and the new password
is fetched, every outcome of `krb5_change_password` with a non-zero error
code other than `KRB5_KDC_UNREACH`, or with a non-zero result code, makes
the operation return `ERR_CHPASS_FAILED`; then exactly one
`SSS_PAM_USER_INFO` message is appended to the response when the server
supplied a non-empty result string or result-code string (it carries the
result string if there is one, else the result-code string), and nothing is
appended otherwise.  The error code `KRB5_KDC_UNREACH` makes the operation
return `ERR_NETWORK_IO` and appends nothing. -/
theorem changepw_child_change_failed (K : Krb5Codes) (E : SssdErrors) (R : ResponseTypes)
    (A : AuthtokTypes) (env : OpEnv) (st st1 : KrState) (pw npw : Option (List Nat))
    (r : ChangePasswordResult)
    (hpw : env.sss_authtok_get_password st.req.authtok = (EOK, pw))
    (hinit : (env.krb5_get_init_creds_password pw (some SSSD_KRB5_CHANGEPW_PRINCIPAL)).1 = 0)
    (hst1 : st1 = KrState.clear_authtok A { st with resp_list := st.resp_list ++
        (env.krb5_get_init_creds_password pw (some SSSD_KRB5_CHANGEPW_PRINCIPAL)).2 })
    (hnpw : env.sss_authtok_get_password st.req.newauthtok = (EOK, npw))
    (hr : r = env.krb5_change_password npw)
    (hfail : r.kerr ≠ 0 ∨ r.result_code ≠ 0) :
    (r.kerr ≠ K.KRB5_KDC_UNREACH →
      (changepw_child K E R A env st false).ret = E.ERR_CHPASS_FAILED ∧
      (r.result_string ≠ [] →
        (changepw_child K E R A env st false).st.resp_list = st1.resp_list ++
          [{ type := R.SSS_PAM_USER_INFO,
             len := (env.pack_user_info_chpass_error
               (talloc_strndup r.result_string r.result_string.length)).length,
             data := env.pack_user_info_chpass_error
               (talloc_strndup r.result_string r.result_string.length) }]) ∧
      (r.result_string = [] → r.result_code_string ≠ [] →
        (changepw_child K E R A env st false).st.resp_list = st1.resp_list ++
          [{ type := R.SSS_PAM_USER_INFO,
             len := (env.pack_user_info_chpass_error
               (talloc_strndup r.result_code_string r.result_code_string.length)).length,
             data := env.pack_user_info_chpass_error
               (talloc_strndup r.result_code_string r.result_code_string.length) }]) ∧
      (r.result_string = [] → r.result_code_string = [] →
        (changepw_child K E R A env st false).st.resp_list = st1.resp_list)) ∧
    (r.kerr = K.KRB5_KDC_UNREACH →
      (changepw_child K E R A env st false).ret = E.ERR_NETWORK_IO ∧
      (changepw_child K E R A env st false).st.resp_list = st1.resp_list) := by
  subst hst1 hr
  rw [changepw_child_after_init K E R A env st pw npw hpw hinit hnpw]
  obtain ⟨m1, m2, m3⟩ := user_error_message_cases (env.krb5_change_password npw)
  constructor
  · intro hreach
    simp only [hreach, if_false, hfail, if_true]
    refine ⟨?_, ?_, ?_, ?_⟩
    · cases user_error_message (env.krb5_change_password npw) <;> rfl
    · intro h; rw [m1 h]; simp only [pam_add_response_full]
    · intro h1 h2; rw [m2 h1 h2]; simp only [pam_add_response_full]
    · intro h1 h2; rw [m3 h1 h2]
  · intro hreach
    simp only [hreach, if_true, and_self]

/-- Witness of the amended C15: the password change of `chpassState` is
refused with the result code 4 and the result string `hi`; the status is
`ERR_CHPASS_FAILED` and the response holds the one message with the payload
built for `hi`. -/
theorem changepw_child_change_failed_witness :
    (changepw_child mitCodes sssdErrors responseTypes authtokTypes
      (opEnv (fun _ _ => 0) changeRefused true) chpassState false).ret = 0x555D000A ∧
    (changepw_child mitCodes sssdErrors responseTypes authtokTypes
      (opEnv (fun _ _ => 0) changeRefused true) chpassState false).st.resp_list
      = [{ type := 6, len := 10, data := [4, 0, 0, 0, 2, 0, 0, 0, 104, 105] }] :=
  ⟨((changepw_child_change_failed mitCodes sssdErrors responseTypes authtokTypes
      (opEnv (fun _ _ => 0) changeRefused true) chpassState _ (some [112, 119])
      (some [110, 119]) changeRefused rfl rfl rfl rfl rfl (Or.inr (by decide))).1
      (by decide)).1,
    ((changepw_child_change_failed mitCodes sssdErrors responseTypes authtokTypes
      (opEnv (fun _ _ => 0) changeRefused true) chpassState _ (some [112, 119])
      (some [110, 119]) changeRefused rfl rfl rfl rfl rfl (Or.inr (by decide))).1
      (by decide)).2.1 (by decide)⟩

/-- Counterexample to C15 as stated: the initial authentication of
`chpassState` succeeds and `krb5_change_password` returns the non-zero error
code `KRB5_KDC_UNREACH`; the operation returns `ERR_NETWORK_IO`, not
`ERR_CHPASS_FAILED`. -/
theorem changepw_child_unreachable_not_change_failed :
    (opEnv (fun _ _ => 0) changeUnreachable true).sss_authtok_get_password
      chpassState.req.authtok = (EOK, some [112, 119]) ∧
    ((opEnv (fun _ _ => 0) changeUnreachable true).krb5_get_init_creds_password
      (some [112, 119]) (some SSSD_KRB5_CHANGEPW_PRINCIPAL)).1 = 0 ∧
    ((opEnv (fun _ _ => 0) changeUnreachable true).krb5_change_password (some [110, 119])).kerr
      ≠ 0 ∧
    (changepw_child mitCodes sssdErrors responseTypes authtokTypes
      (opEnv (fun _ _ => 0) changeUnreachable true) chpassState false).ret = 0x555D000B ∧
    (changepw_child mitCodes sssdErrors responseTypes authtokTypes
      (opEnv (fun _ _ => 0) changeUnreachable true) chpassState false).ret
      ≠ sssdErrors.ERR_CHPASS_FAILED := by
  refine ⟨rfl, rfl, by decide, rfl, by decide⟩
/-- C16: in `changepw_child`, when the password change is accepted (no
error code and result code 0), the status returned is what `map_krb5_error`
gives for the fresh authentication with the new password: for the error of
`get_and_save_tgt`, or after its success for the result of
`k5c_attach_ccname_msg`.  Whatever that authentication yields, the status is
not `ERR_CHPASS_FAILED`. -/
theorem changepw_child_accepted (K : Krb5Codes) (E : SssdErrors) (R : ResponseTypes)
    (A : AuthtokTypes) (env : OpEnv) (st st1 : KrState) (pw npw : Option (List Nat))
    (g : OpResult)
    (hK : K.KRB5_KDC_UNREACH ≠ 0) (hE : E.ERR_CHPASS_FAILED ∉ E.mapped)
    (hpw : env.sss_authtok_get_password st.req.authtok = (EOK, pw))
    (hinit : (env.krb5_get_init_creds_password pw (some SSSD_KRB5_CHANGEPW_PRINCIPAL)).1 = 0)
    (hst1 : st1 = KrState.clear_authtok A { st with resp_list := st.resp_list ++
        (env.krb5_get_init_creds_password pw (some SSSD_KRB5_CHANGEPW_PRINCIPAL)).2 })
    (hnpw : env.sss_authtok_get_password st.req.newauthtok = (EOK, npw))
    (hok : (env.krb5_change_password npw).kerr = 0 ∧
      (env.krb5_change_password npw).result_code = 0)
    (hg : g = get_and_save_tgt K R env st1 npw) :
    (changepw_child K E R A env st false).ret
      = map_krb5_error K E
          (if g.ret = 0 then (k5c_attach_ccname_msg E R (g.st.clear_newauthtok A)).1
           else g.ret) ∧
    (changepw_child K E R A env st false).ret ≠ E.ERR_CHPASS_FAILED := by
  subst hst1 hg
  have hreach : ¬ ((env.krb5_change_password npw).kerr = K.KRB5_KDC_UNREACH) := by
    rw [hok.1]; exact fun h => hK h.symm
  have hnofail : ¬ ((env.krb5_change_password npw).kerr ≠ 0 ∨
      (env.krb5_change_password npw).result_code ≠ 0) := by
    rw [hok.1, hok.2]; simp
  have hret : (changepw_child K E R A env st false).ret
      = map_krb5_error K E
          (if (get_and_save_tgt K R env (KrState.clear_authtok A { st with resp_list :=
              st.resp_list ++ (env.krb5_get_init_creds_password pw
                (some SSSD_KRB5_CHANGEPW_PRINCIPAL)).2 }) npw).ret = 0
           then (k5c_attach_ccname_msg E R ((get_and_save_tgt K R env
              (KrState.clear_authtok A { st with resp_list := st.resp_list ++
                (env.krb5_get_init_creds_password pw (some SSSD_KRB5_CHANGEPW_PRINCIPAL)).2 })
              npw).st.clear_newauthtok A)).1
           else (get_and_save_tgt K R env (KrState.clear_authtok A { st with resp_list :=
              st.resp_list ++ (env.krb5_get_init_creds_password pw
                (some SSSD_KRB5_CHANGEPW_PRINCIPAL)).2 }) npw).ret) := by
    rw [changepw_child_after_init K E R A env st pw npw hpw hinit hnpw]
    simp only [hreach, if_false, hnofail]
    split_ifs <;> rfl
  refine ⟨hret, ?_⟩
  rw [hret]
  intro h
  exact hE (h ▸ map_krb5_error_mem_mapped K E _)

/-- Witness of C16: the change of `chpassState` is accepted.  When the fresh
authentication succeeds the status is `ERR_OK`; when it fails with
`KRB5KDC_ERR_PREAUTH_FAILED` the status is `ERR_AUTH_FAILED`. -/
theorem changepw_child_accepted_witness :
    (changepw_child mitCodes sssdErrors responseTypes authtokTypes
      (opEnv (fun _ _ => 0) changeAccepted true) chpassState false).ret = 0 ∧
    (changepw_child mitCodes sssdErrors responseTypes authtokTypes
      (opEnv (fun _ svc => if svc.isSome then 0 else -1765328360) changeAccepted true)
      chpassState false).ret = 0x555D0009 ∧
    (changepw_child mitCodes sssdErrors responseTypes authtokTypes
      (opEnv (fun _ svc => if svc.isSome then 0 else -1765328360) changeAccepted true)
      chpassState false).ret ≠ sssdErrors.ERR_CHPASS_FAILED :=
  ⟨rfl, rfl,
    (changepw_child_accepted mitCodes sssdErrors responseTypes authtokTypes
      (opEnv (fun _ svc => if svc.isSome then 0 else -1765328360) changeAccepted true)
      chpassState _ (some [112, 119]) (some [110, 119]) _ (by decide) (by decide) rfl rfl rfl
      rfl ⟨rfl, rfl⟩ rfl).2⟩

theorem mapped_subset_taxonomy (E : SssdErrors) (x : Int) (h : x ∈ E.mapped) :
    x ∈ E.taxonomy := by
  unfold SssdErrors.mapped at h
  unfold SssdErrors.taxonomy
  simp only [List.mem_cons, List.mem_singleton, List.not_mem_nil, or_false] at h ⊢
  rcases h with h | h | h | h | h | h <;> simp [h]

/-- The statuses of the operations: each one is a taxonomy code, except that
`changepw_child` returns the error code of libkrb5 unchanged when its
initial authentication against `kadmin/changepw` fails. -/
theorem run_operation_status (K : Krb5Codes) (E : SssdErrors) (R : ResponseTypes)
    (A : AuthtokTypes) (env : OpEnv) (st : KrState) (op : Operation) (hE : E.ERR_OK = EOK) :
    (run_operation K E R A env st op).ret ∈ E.taxonomy ∨
    (∃ prelim pw, op = .changepw_child prelim ∧
      env.sss_authtok_get_password st.req.authtok = (EOK, pw) ∧
      (env.krb5_get_init_creds_password pw (some SSSD_KRB5_CHANGEPW_PRINCIPAL)).1 ≠ 0 ∧
      (run_operation K E R A env st op).ret
        = (env.krb5_get_init_creds_password pw (some SSSD_KRB5_CHANGEPW_PRINCIPAL)).1) := by
  have hm : ∀ k, map_krb5_error K E k ∈ E.taxonomy := fun k =>
    mapped_subset_taxonomy E _ (map_krb5_error_mem_mapped K E k)
  have hok : EOK ∈ E.taxonomy := by rw [← hE]; simp [SssdErrors.taxonomy]
  cases op with
  | create_empty_ccache =>
    left
    show (create_empty_ccache K E R env st).ret ∈ E.taxonomy
    unfold create_empty_ccache
    simp only []
    split_ifs <;> exact hm _
  | tgt_req_child =>
    left
    show (tgt_req_child K E R A env st).ret ∈ E.taxonomy
    unfold tgt_req_child
    simp only [get_changepw_options_eq, ne_eq, not_true_eq_false, if_false]
    split_ifs <;> first | exact hm _ | simp [SssdErrors.taxonomy]
  | kuserok_child =>
    left
    show (kuserok_child E env st).ret ∈ E.taxonomy
    unfold kuserok_child
    simp only []
    split_ifs <;> first | exact hok | simp [SssdErrors.taxonomy]
  | renew_tgt_child =>
    left
    show (renew_tgt_child K E R env st).ret ∈ E.taxonomy
    unfold renew_tgt_child
    simp only []
    split_ifs <;> first | exact hm _ | simp [SssdErrors.taxonomy]
  | changepw_child prelim =>
    show (changepw_child K E R A env st prelim).ret ∈ E.taxonomy ∨ _
    by_cases hpw : (env.sss_authtok_get_password st.req.authtok).1 = EOK
    · by_cases hinit : (env.krb5_get_init_creds_password
          (env.sss_authtok_get_password st.req.authtok).2
          (some SSSD_KRB5_CHANGEPW_PRINCIPAL)).1 = 0
      · left
        unfold changepw_child
        simp only [hpw, ne_eq, not_true_eq_false, if_false, get_changepw_options_eq, hinit]
        split_ifs <;>
          first
          | exact hok
          | exact hm _
          | (split <;> simp [SssdErrors.taxonomy])
          | simp [SssdErrors.taxonomy]
      · right
        refine ⟨prelim, (env.sss_authtok_get_password st.req.authtok).2, rfl, ?_, hinit, ?_⟩
        · rw [← hpw]
        · show (changepw_child K E R A env st prelim).ret = _
          unfold changepw_child
          simp only [hpw, ne_eq, not_true_eq_false, if_false, get_changepw_options_eq, hinit,
            not_false_eq_true, if_true]
    · left
      unfold changepw_child
      simp only [ne_eq, hpw, not_false_eq_true, if_true]
      simp [SssdErrors.taxonomy]

/-- C20 (the code at the failing input): the current password of the change request
`chpassBuffer` is wrong, and the initial authentication against
`kadmin/changepw` fails with `KRB5KDC_ERR_PREAUTH_FAILED`.
`changepw_child` returns that code of libkrb5 as it is; it is none of the
taxonomy codes, and `main` writes it as the status of the response (the
four bytes of -1765328360) and exits with 0. -/
theorem changepw_child_returns_raw_krb5_code :
    (changepw_child mitCodes sssdErrors responseTypes authtokTypes
      (opEnv (fun _ _ => -1765328360) changeAccepted true) chpassState false).ret
      = mitCodes.KRB5KDC_ERR_PREAUTH_FAILED ∧
    mitCodes.KRB5KDC_ERR_PREAUTH_FAILED ∉ sssdErrors.taxonomy ∧
    map_krb5_error mitCodes sssdErrors mitCodes.KRB5KDC_ERR_PREAUTH_FAILED
      = sssdErrors.ERR_AUTH_FAILED ∧
    main sssCli mitCodes sssdErrors responseTypes authtokTypes
        (mainEnv chpassBuffer (setupEnv none (fastEnv 0 0 (1, zero_times) 1000 0))
          (opEnv (fun _ _ => -1765328360) changeAccepted true) (fun buf => .ok buf.length))
      = some { exit_code := 0, ran := some (.changepw_child false),
               calls := [Call.krb5_get_init_creds_password (some [112, 119])
                 (some SSSD_KRB5_CHANGEPW_PRINCIPAL)],
               writes := [int32_bytes (-1765328360)] } := by
  refine ⟨rfl, by decide, rfl, rfl⟩
theorem k5c_setup_offline_calls (env : SetupEnv) (req : krb5_req) (offline : Nat)
    (hoff : offline ≠ 0) : (k5c_setup env req offline).2.2 = [] := by
  unfold k5c_setup
  simp only [hoff, if_false]
  split_ifs <;> rfl

/-- C14 (as amended): a renew request received while the offline word is set
fails without a response.  `main` runs no operation, so no renewal is
attempted and no call is made; the `switch` leaves the code
`KRB5_KDC_UNREACH` of libkrb5 in `ret` and jumps to `done` past
`k5c_send_data`, so nothing is written, no status is reported, and the
process exits with -1. -/
theorem main_renew_offline (C : SssCli) (K : Krb5Codes) (E : SssdErrors) (R : ResponseTypes)
    (A : AuthtokTypes) (env : MainEnv) (buf : List Nat) (req : krb5_req) (offline : Nat)
    (hread : env.sss_atomic_read_s = .ok buf)
    (hdec : unpack_buffer C A (buf ++ env.stack) buf.length = .ok (req, offline))
    (hcmd : req.cmd = C.SSS_CMD_RENEW)
    (hC : C.SSS_CMD_RENEW ∉ [C.SSS_PAM_AUTHENTICATE, C.SSS_PAM_CHAUTHTOK,
      C.SSS_PAM_CHAUTHTOK_PRELIM, C.SSS_PAM_ACCT_MGMT])
    (hoff : offline ≠ 0) (hK : K.KRB5_KDC_UNREACH ≠ EOK) :
    main C K E R A env = some { exit_code := -1, ran := none, calls := [], writes := [] } ∧
    (∀ ops : OpsEnv, main_switch C K ops req.cmd offline
      = { ret := K.KRB5_KDC_UNREACH, ran := none, send := false }) := by
  simp only [List.mem_cons, List.mem_singleton, List.not_mem_nil, not_or, or_false] at hC
  obtain ⟨c1, c2, c3, c4⟩ := hC
  have hsw : ∀ ops : OpsEnv, main_switch C K ops req.cmd offline
      = { ret := K.KRB5_KDC_UNREACH, ran := none, send := false } := by
    intro ops
    unfold main_switch
    rw [hcmd, if_neg c1, if_neg c2, if_neg c3, if_neg c4, if_pos rfl, if_pos hoff]
  refine ⟨?_, hsw⟩
  have hcalls := k5c_setup_offline_calls env.setup req offline hoff
  unfold main k5c_recv_data
  rw [hread]
  simp only [hdec]
  by_cases hs : (k5c_setup env.setup req offline).1 = EOK
  · rw [if_neg (by simpa using hs)]
    simp only [hsw, Option.map_none', Option.getD_none, List.append_nil, hcalls,
      Bool.false_eq_true, if_false, main_exit_ne _ hK]
  · rw [if_pos hs, main_exit_ne _ hs, hcalls]

/-- Witness of the amended C14: the request `renewOfflineBuffer`, with a setup
in which every call succeeds. -/
theorem main_renew_offline_witness :
    main sssCli mitCodes sssdErrors responseTypes authtokTypes
        (mainEnv renewOfflineBuffer (setupEnv none (fastEnv 0 0 (1, zero_times) 1000 0))
          (opEnv (fun _ _ => 0) changeAccepted true) (fun buf => .ok buf.length))
      = some { exit_code := -1, ran := none, calls := [], writes := [] } :=
  (main_renew_offline sssCli mitCodes sssdErrors responseTypes authtokTypes
    (mainEnv renewOfflineBuffer (setupEnv none (fastEnv 0 0 (1, zero_times) 1000 0))
      (opEnv (fun _ _ => 0) changeAccepted true) (fun buf => .ok buf.length))
    renewOfflineBuffer renewRequest 1 rfl rfl rfl (by decide) (by decide) (by decide)).1

/-- Counterexample to C14 as stated: the renew request `renewOfflineBuffer`
arrives with the offline word set and setup succeeds.  The value left in
`ret` is the code `KRB5_KDC_UNREACH` of libkrb5, which is not the taxonomy
code `ERR_NETWORK_IO`, and it is not reported: `main` writes no response at
all and exits with -1. -/
theorem main_renew_offline_reports_nothing :
    unpack_buffer sssCli authtokTypes renewOfflineBuffer renewOfflineBuffer.length
      = .ok (renewRequest, 1) ∧
    (k5c_setup (setupEnv none (fastEnv 0 0 (1, zero_times) 1000 0)) renewRequest 1).1 = EOK ∧
    (main_switch sssCli mitCodes okOps 0xF8 1).ret = mitCodes.KRB5_KDC_UNREACH ∧
    (main_switch sssCli mitCodes okOps 0xF8 1).send = false ∧
    mitCodes.KRB5_KDC_UNREACH ≠ sssdErrors.ERR_NETWORK_IO ∧
    main sssCli mitCodes sssdErrors responseTypes authtokTypes
        (mainEnv renewOfflineBuffer (setupEnv none (fastEnv 0 0 (1, zero_times) 1000 0))
          (opEnv (fun _ _ => 0) changeAccepted true) (fun buf => .ok buf.length))
      = some { exit_code := -1, ran := none, calls := [], writes := [] } := by
  refine ⟨rfl, rfl, rfl, rfl, by decide, rfl⟩

theorem main_switch_cases (C : SssCli) (K : Krb5Codes) (ops : OpsEnv) (cmd : Int)
    (offline : Nat) :
    ((main_switch C K ops cmd offline).send = true ∧
      (main_switch C K ops cmd offline).ran.isSome = true) ∨
    ((main_switch C K ops cmd offline).send = false ∧
      (main_switch C K ops cmd offline).ran = none ∧
      ((main_switch C K ops cmd offline).ret = K.KRB5_KDC_UNREACH ∨
        (main_switch C K ops cmd offline).ret = EINVAL)) := by
  unfold main_switch
  split_ifs <;> simp

theorem k5c_send_data_eok (env : MainEnv) (resp_list : List response_data) (error : Int)
    (h : (k5c_send_data env resp_list error).1 = EOK) :
    ∃ packet, (k5c_send_data env resp_list error).2 = [packet] ∧
      ∀ errno, env.sss_atomic_write_s packet = .error errno → errno = EOK := by
  obtain ⟨bp, hbp⟩ : ∃ bp, pack_response_packet env.junk error resp_list = .ok bp := ⟨_, rfl⟩
  unfold k5c_send_data at h ⊢
  rw [hbp] at h ⊢
  simp only [] at h ⊢
  cases hw : env.sss_atomic_write_s (List.take bp.2 bp.1) with
  | error errno =>
    rw [hw] at h
    refine ⟨_, rfl, ?_⟩
    intro e he
    rw [hw] at he
    cases he
    exact h
  | ok written =>
    refine ⟨List.take bp.2 bp.1, ?_, ?_⟩
    · simp only []
      split_ifs <;> rfl
    · intro e he
      rw [hw] at he
      cases he

/-- What an exit with 0 tells: the request was read and decoded, setup
succeeded, an operation ran, and one buffer was handed to
`sss_atomic_write_s`, which did not fail with an error number.  It does not
tell that the whole buffer was written. -/
theorem main_exit_zero_cases (C : SssCli) (K : Krb5Codes) (E : SssdErrors) (R : ResponseTypes)
    (A : AuthtokTypes) (env : MainEnv) (run : MainRun) (hK : K.KRB5_KDC_UNREACH ≠ EOK)
    (h : main C K E R A env = some run) (h0 : run.exit_code = 0) :
    ∃ buf req offline packet,
      env.sss_atomic_read_s = .ok buf ∧
      unpack_buffer C A (buf ++ env.stack) buf.length = .ok (req, offline) ∧
      (k5c_setup env.setup req offline).1 = EOK ∧
      run.ran.isSome = true ∧
      run.writes = [packet] ∧
      ∀ errno, env.sss_atomic_write_s packet = .error errno → errno = EOK := by
  have hexit : ∀ ret : Int, main_exit ret = 0 → ret = EOK := by
    intro ret hr
    unfold main_exit at hr
    by_contra hne
    rw [if_neg hne] at hr
    exact absurd hr (by decide)
  unfold main k5c_recv_data at h
  cases hread : env.sss_atomic_read_s with
  | error errno =>
    rw [hread] at h
    simp only [] at h
    split_ifs at h with he
    cases h
    exact absurd (hexit _ h0) he
  | ok buf =>
    rw [hread] at h
    simp only [] at h
    cases hdec : unpack_buffer C A (buf ++ env.stack) buf.length with
    | error ret =>
      rw [hdec] at h
      simp only [] at h
      split_ifs at h with he
      cases h
      exact absurd (hexit _ h0) he
    | ok v =>
      obtain ⟨req, offline⟩ := v
      rw [hdec] at h
      simp only [] at h
      split_ifs at h with hs hsend
      · cases h
        exact absurd (hexit _ h0) hs
      · cases h
        have hs' : (k5c_setup env.setup req offline).1 = EOK := by simpa using hs
        obtain ⟨packet, hp1, hp2⟩ := k5c_send_data_eok env _ _ (hexit _ h0)
        rcases main_switch_cases C K (operation_statuses K E R A env.op
            (k5c_setup env.setup req offline).2.1) req.cmd offline with ⟨_, hran⟩ | ⟨hns, _⟩
        · exact ⟨buf, req, offline, packet, rfl, hdec, hs', hran, hp1, hp2⟩
        · rw [hsend] at hns; exact absurd hns (by decide)
      · cases h
        have hret := hexit _ h0
        rcases main_switch_cases C K (operation_statuses K E R A env.op
            (k5c_setup env.setup req offline).2.1) req.cmd offline with ⟨hsd, _⟩ | ⟨_, _, hr | hr⟩
        · exact absurd hsd hsend
        · rw [hr] at hret; exact absurd hret hK
        · rw [hr] at hret; exact absurd hret (by decide)

/-- C19 (the code at the failing input): the account-check request `acctBuffer` is read
and decoded, setup succeeds, `kuserok_child` runs and returns `EOK`, and
`sss_atomic_write_s` writes only 2 of the 4 bytes of the response.
`k5c_send_data` returns `EOK` all the same, and `main` exits with 0 although
the complete response was not written. -/
theorem main_exits_zero_on_short_write :
    (k5c_send_data (mainEnv acctBuffer (setupEnv none (fastEnv 0 0 (1, zero_times) 1000 0))
        (opEnv (fun _ _ => 0) changeAccepted true) (fun _ => .ok 2)) [] 0)
      = (EOK, [[0, 0, 0, 0]]) ∧
    (2 : Nat) < [0, 0, 0, 0].length ∧
    main sssCli mitCodes sssdErrors responseTypes authtokTypes
        (mainEnv acctBuffer (setupEnv none (fastEnv 0 0 (1, zero_times) 1000 0))
          (opEnv (fun _ _ => 0) changeAccepted true) (fun _ => .ok 2))
      = some { exit_code := 0, ran := some .kuserok_child,
               calls := [Call.unsetenv str_SSS_LOOPS,
                 Call.krb5_set_default_realm (some realm_EXAMPLE_COM),
                 Call.krb5_kuserok princ_alice (some [97, 108])],
               writes := [[0, 0, 0, 0]] } := by
  refine ⟨rfl, by decide, rfl⟩
theorem validate_tgt_scan_choice (env : ValidateEnv) (princ : Principal)
    (entries : List Principal) (vp0 : Option Principal)
    (h : (validate_tgt_scan env princ entries vp0).failed = none) :
    (validate_tgt_scan env princ entries vp0).validation_princ
      = (match keytab_choice princ entries with
         | some e => some e
         | none => vp0) := by
  induction entries generalizing vp0 with
  | nil => simp [validate_tgt_scan, keytab_choice]
  | cons e es ih =>
    unfold validate_tgt_scan at h ⊢
    by_cases hc : env.krb5_copy_principal e ≠ 0
    · rw [if_pos hc] at h; simp at h
    · rw [if_neg hc] at h ⊢
      by_cases hr : e.realm = princ.realm
      · rw [if_pos hr]
        simp [keytab_choice, List.find?, hr]
      · rw [if_neg hr] at h ⊢
        have ih' := ih (some e) h
        simp only [] at ih' ⊢
        rw [ih']
        unfold keytab_choice
        simp only [List.find?, hr, decide_False]
        cases hf : List.find? (fun e => decide (e.realm = princ.realm)) es with
        | some x => simp
        | none =>
          cases es with
          | nil => simp
          | cons y ys =>
            simp only [List.getLast?_cons_cons]
            cases hl : (y :: ys).getLast? with
            | none => simp at hl
            | some z => rfl

theorem validate_tgt_scan_all_copied (env : ValidateEnv) (princ : Principal)
    (entries : List Principal) (vp0 : Option Principal)
    (h : ∀ e ∈ entries, env.krb5_copy_principal e = 0) :
    (validate_tgt_scan env princ entries vp0).failed = none ∧
    ((validate_tgt_scan env princ entries vp0).kt_err = 0 ∨
      (validate_tgt_scan env princ entries vp0).kt_err = env.kt_stop) := by
  induction entries generalizing vp0 with
  | nil => simp [validate_tgt_scan]
  | cons e es ih =>
    have he : env.krb5_copy_principal e = 0 := h e (List.mem_cons_self _ _)
    have hes : ∀ x ∈ es, env.krb5_copy_principal x = 0 :=
      fun x hx => h x (List.mem_cons_of_mem _ hx)
    unfold validate_tgt_scan
    rw [if_neg (by simpa using he)]
    by_cases hr : e.realm = princ.realm
    · rw [if_pos hr]; simp
    · rw [if_neg hr]
      exact ih (some e) hes
theorem keytab_choice_first_match (princ : Principal) (pre post : List Principal)
    (e : Principal) (he : e.realm = princ.realm) (hpre : ∀ x ∈ pre, x.realm ≠ princ.realm) :
    keytab_choice princ (pre ++ e :: post) = some e := by
  unfold keytab_choice
  have : List.find? (fun e => decide (e.realm = princ.realm)) (pre ++ e :: post) = some e := by
    induction pre with
    | nil => simp [List.find?, he]
    | cons x xs ih =>
      have hx : x.realm ≠ princ.realm := hpre x (List.mem_cons_self _ _)
      have hxs : ∀ y ∈ xs, y.realm ≠ princ.realm := fun y hy => hpre y (List.mem_cons_of_mem _ hy)
      simp only [List.cons_append, List.find?, hx, decide_False]
      exact ih hxs
  rw [this]

theorem keytab_choice_no_match (princ : Principal) (entries : List Principal)
    (hne : entries ≠ []) (hno : ∀ x ∈ entries, x.realm ≠ princ.realm) :
    keytab_choice princ entries = some (entries.getLast hne) := by
  unfold keytab_choice
  have : List.find? (fun e => decide (e.realm = princ.realm)) entries = none := by
    rw [List.find?_eq_none]
    intro x hx
    simpa using hno x hx
  rw [this]
  simp only []
  exact List.getLast?_eq_getLast _ hne

theorem option_match_self (o : Option Principal) :
    (match o with
     | some e => some e
     | none => none) = o := by
  cases o <;> rfl

/-- C22: for every non-empty keytab, if `validate_tgt` performs the
verification it performs it with the principal of the first entry whose
realm equals the realm of the authenticated principal, and with the
principal of the last entry of the keytab when no entry's realm matches; and
when the entries are read without error (the keytab opens, every entry is
copied, the scan ends at the end of the keytab and is closed, and the name
of the chosen principal is unparsed), the verification is performed. -/
theorem validate_tgt_entry_choice (K : Krb5Codes) (env : ValidateEnv) (pac : PacEnv)
    (princ : Principal) (upn_from_different_realm : Bool) (hne : env.kt_entries ≠ []) :
    (∀ (pre post : List Principal) (e : Principal), env.kt_entries = pre ++ e :: post →
      e.realm = princ.realm → (∀ x ∈ pre, x.realm ≠ princ.realm) →
      keytab_choice princ env.kt_entries = some e) ∧
    ((∀ x ∈ env.kt_entries, x.realm ≠ princ.realm) →
      keytab_choice princ env.kt_entries = some (env.kt_entries.getLast hne)) ∧
    (∀ (vp : Option Principal) (r : Int),
      Call.krb5_verify_init_creds vp r
        ∈ (validate_tgt K env pac princ upn_from_different_realm).2 →
      vp = keytab_choice princ env.kt_entries) ∧
    (env.krb5_kt_resolve = 0 → env.krb5_kt_start_seq_get = 0 →
      (∀ e ∈ env.kt_entries, env.krb5_copy_principal e = 0) →
      env.kt_stop = K.KRB5_KT_END → env.krb5_kt_end_seq_get = 0 →
      env.krb5_unparse_name (keytab_choice princ env.kt_entries) = 0 →
      Call.krb5_verify_init_creds (keytab_choice princ env.kt_entries)
          (env.krb5_verify_init_creds (keytab_choice princ env.kt_entries))
        ∈ (validate_tgt K env pac princ upn_from_different_realm).2) := by
  have hscan := validate_tgt_scan_choice env princ env.kt_entries none
  rw [option_match_self] at hscan
  refine ⟨?_, ?_, ?_, ?_⟩
  · intro pre post e hsplit he hpre
    rw [hsplit]
    exact keytab_choice_first_match princ pre post e he hpre
  · intro hno
    exact keytab_choice_no_match princ env.kt_entries hne hno
  · intro vp r hmem
    have hns := validate_tgt_scan_no_verify env princ env.kt_entries none vp r
    have hnd := fun b => validate_tgt_done_no_verify b vp r
    unfold validate_tgt at hmem
    by_cases h1 : env.krb5_kt_resolve ≠ 0
    · rw [if_pos h1] at hmem; simp at hmem
    by_cases h2 : env.krb5_kt_start_seq_get ≠ 0
    · rw [if_neg h1, if_pos h2] at hmem; simp at hmem
    rw [if_neg h1, if_neg h2] at hmem
    simp only [] at hmem
    cases hf : (validate_tgt_scan env princ env.kt_entries none).failed with
    | some kerr =>
      rw [hf] at hmem
      simp only [List.mem_append, List.mem_cons, List.mem_singleton, List.not_mem_nil,
        hns, hnd, or_false, false_or, reduceCtorEq] at hmem
    | none =>
      rw [hf] at hmem
      simp only [] at hmem
      rw [← hscan hf]
      by_cases h3 : env.krb5_kt_end_seq_get ≠ 0
      · rw [if_pos h3] at hmem
        simp only [List.mem_append, List.mem_cons, List.mem_singleton, List.not_mem_nil,
          hns, hnd, or_false, false_or, reduceCtorEq] at hmem
      rw [if_neg h3] at hmem
      by_cases h4 : (validate_tgt_scan env princ env.kt_entries none).kt_err ≠ 0 ∧
          (validate_tgt_scan env princ env.kt_entries none).kt_err ≠ K.KRB5_KT_END
      · rw [if_pos h4] at hmem
        simp only [List.mem_append, List.mem_cons, List.mem_singleton, List.not_mem_nil,
          hns, hnd, or_false, false_or, reduceCtorEq] at hmem
      rw [if_neg h4] at hmem
      by_cases h5 : env.krb5_unparse_name
          (validate_tgt_scan env princ env.kt_entries none).validation_princ ≠ 0
      · rw [if_pos h5] at hmem
        simp only [List.mem_append, List.mem_cons, List.mem_singleton, List.not_mem_nil,
          hns, hnd, or_false, false_or, reduceCtorEq] at hmem
      rw [if_neg h5] at hmem
      have hfin : ∀ (tail : List Call),
          Call.krb5_verify_init_creds vp r ∉ tail →
          Call.krb5_verify_init_creds vp r ∈
            [Call.krb5_kt_resolve, Call.krb5_kt_start_seq_get] ++
              (validate_tgt_scan env princ env.kt_entries none).calls ++
              [Call.krb5_kt_end_seq_get] ++ [Call.krb5_unparse_name] ++
              [Call.krb5_verify_init_creds
                (validate_tgt_scan env princ env.kt_entries none).validation_princ
                (env.krb5_verify_init_creds
                  (validate_tgt_scan env princ env.kt_entries none).validation_princ)] ++ tail →
          vp = (validate_tgt_scan env princ env.kt_entries none).validation_princ := by
        intro tail ht hm
        simp only [List.mem_append, List.mem_cons, List.mem_singleton, List.not_mem_nil,
          hns, ht, or_false, false_or, reduceCtorEq, Call.krb5_verify_init_creds.injEq] at hm
        exact hm.1
      by_cases h6 : env.krb5_verify_init_creds
          (validate_tgt_scan env princ env.kt_entries none).validation_princ ≠ 0
      · rw [if_pos h6] at hmem
        exact hfin _ (hnd _) hmem
      rw [if_neg h6] at hmem
      cases upn_from_different_realm with
      | false =>
        simp only [Bool.false_eq_true, if_false] at hmem
        exact hfin _ (hnd _) hmem
      | true =>
        simp only [if_true] at hmem
        by_cases h7 : pac.sss_extract_pac ≠ 0
        · rw [if_pos h7] at hmem
          refine hfin ([Call.sss_extract_pac] ++ validate_tgt_done env.validation_ccache) ?_ ?_
          · simp only [List.mem_append, List.mem_singleton, hnd, or_false, reduceCtorEq,
              not_false_eq_true]
          · simpa only [List.append_assoc] using hmem
        · rw [if_neg h7] at hmem
          refine hfin ([Call.sss_extract_pac] ++ [Call.sss_pac_make_request] ++
            validate_tgt_done env.validation_ccache) ?_ ?_
          · simp only [List.mem_append, List.mem_singleton, hnd, or_false, reduceCtorEq,
              not_false_eq_true]
          · simpa only [List.append_assoc] using hmem
  · intro h1 h2 hcopy hstop hend hunparse
    obtain ⟨hf, hkt⟩ := validate_tgt_scan_all_copied env princ env.kt_entries none hcopy
    have hvp := hscan hf
    have hkt' : ¬ ((validate_tgt_scan env princ env.kt_entries none).kt_err ≠ 0 ∧
        (validate_tgt_scan env princ env.kt_entries none).kt_err ≠ K.KRB5_KT_END) := by
      rcases hkt with h | h
      · simp [h]
      · simp [h, hstop]
    have hun : ¬ (env.krb5_unparse_name
        (validate_tgt_scan env princ env.kt_entries none).validation_princ ≠ 0) := by
      rw [hvp]; simpa using hunparse
    unfold validate_tgt
    rw [if_neg (by simpa using h1), if_neg (by simpa using h2)]
    simp only [hf]
    rw [if_neg (by simpa using hend), if_neg hkt', if_neg hun, ← hvp]
    by_cases h6 : env.krb5_verify_init_creds
        (validate_tgt_scan env princ env.kt_entries none).validation_princ ≠ 0
    · rw [if_pos h6]
      simp only [List.mem_append, List.mem_singleton, true_or, or_true]
    rw [if_neg h6]
    cases upn_from_different_realm with
    | false =>
      simp only [Bool.false_eq_true, if_false, List.mem_append, List.mem_singleton, true_or,
        or_true]
    | true =>
      simp only [if_true]
      by_cases h7 : pac.sss_extract_pac ≠ 0
      · rw [if_pos h7]
        simp only [List.mem_append, List.mem_singleton, true_or, or_true]
      · rw [if_neg h7]
        simp only [List.mem_append, List.mem_singleton, true_or, or_true]
/-- Witness of C22: with the entries `host@OTHER.ORG`, `nfs@OTHER.ORG` and
the principal `alice@EXAMPLE.COM` the verification uses the last entry; with
the entries `host@OTHER.ORG`, `host@EXAMPLE.COM`, `alice@EXAMPLE.COM` it
uses `host@EXAMPLE.COM`, the first of the realm. -/
theorem validate_tgt_entry_choice_witness :
    foreignKeytabEnv.kt_entries ≠ [] ∧
    Call.krb5_verify_init_creds (some princ_nfs_other) 0
      ∈ (validate_tgt mitCodes foreignKeytabEnv failingPacEnv princ_alice false).2 ∧
    Call.krb5_verify_init_creds (some princ_host) 0
      ∈ (validate_tgt mitCodes mixedKeytabEnv failingPacEnv princ_alice false).2 :=
  ⟨by decide,
    (validate_tgt_entry_choice mitCodes foreignKeytabEnv failingPacEnv princ_alice false
      (by decide)).2.2.2 rfl rfl (by decide) rfl rfl rfl,
    (validate_tgt_entry_choice mitCodes mixedKeytabEnv failingPacEnv princ_alice false
      (by decide)).2.2.2 rfl rfl (by decide) rfl rfl rfl⟩

theorem create_ccache_in_dir_store_head (env : CcacheEnv) (creds : Bool) (c : Call)
    (rest : List Call) :
    (create_ccache_in_dir_store env creds (c :: rest)).2.head? = some c := by
  unfold create_ccache_in_dir_store
  simp only []
  split_ifs <;> simp

/-- C24: in `create_ccache_in_dir`, whatever is done to the directory and
to the cache (`create_ccdir`, `krb5_cc_resolve`, `krb5_cc_new_unique`,
`store_creds_in_ccache`) is done after `become_user(uid, gid)` and only when
that call returned `EOK`: the first call the function makes is
`become_user`, and any call follows it only after its success.  When
`become_user` fails the function returns its error and has made no other
call. -/
theorem create_ccache_in_dir_after_become_user (env : CcacheEnv) (uid gid : Nat)
    (ccname : List Nat) (creds : Bool) :
    (env.sss_krb5_residual_check_type ccname ≠ none → env.become_user uid gid ≠ EOK →
      create_ccache_in_dir env uid gid ccname creds
        = (env.become_user uid gid, [Call.become_user uid gid])) ∧
    ((create_ccache_in_dir env uid gid ccname creds).2 = [] ∨
      ∃ rest, (create_ccache_in_dir env uid gid ccname creds).2
          = Call.become_user uid gid :: rest ∧
        (rest ≠ [] → env.become_user uid gid = EOK)) := by
  constructor
  · intro hres hbecome
    unfold create_ccache_in_dir
    cases hr : env.sss_krb5_residual_check_type ccname with
    | none => exact absurd hr hres
    | some dirname =>
      simp only []
      rw [if_pos hbecome]
  · unfold create_ccache_in_dir
    cases hr : env.sss_krb5_residual_check_type ccname with
    | none => left; rfl
    | some dirname =>
      right
      simp only []
      by_cases hbecome : env.become_user uid gid ≠ EOK
      · rw [if_pos hbecome]
        exact ⟨[], rfl, fun h => absurd rfl h⟩
      · have hb : env.become_user uid gid = EOK := by
          by_contra h; exact hbecome h
        rw [if_neg hbecome]
        have key : ∀ t : Int × List Call, t.2.head? = some (Call.become_user uid gid) →
            ∃ rest, t.2 = Call.become_user uid gid :: rest ∧
              (rest ≠ [] → env.become_user uid gid = EOK) := by
          rintro ⟨a, l⟩ h
          cases l with
          | nil => simp at h
          | cons x xs =>
            have hx : x = Call.become_user uid gid := by simpa using h
            subst hx
            exact ⟨xs, rfl, fun _ => hb⟩
        apply key
        split_ifs
        all_goals first
          | exact create_ccache_in_dir_store_head env creds _ _
          | simp

/-- Witness of C24: the directory exists and `become_user` fails with 1;
the function returns 1 and `become_user` is the only call. -/
theorem create_ccache_in_dir_after_become_user_witness :
    (existingDirEnv 0 0 0o40700 1).sss_krb5_residual_check_type str_DIR_run_u ≠ none ∧
    (existingDirEnv 0 0 0o40700 1).become_user 1000 1000 ≠ EOK ∧
    create_ccache_in_dir (existingDirEnv 0 0 0o40700 1) 1000 1000 str_DIR_run_u true
      = (1, [Call.become_user 1000 1000]) :=
  ⟨by decide, by decide,
    (create_ccache_in_dir_after_become_user (existingDirEnv 0 0 0o40700 1) 1000 1000
      str_DIR_run_u true).1 (by decide) (by decide)⟩
/-! ### One-time-password responder -/

theorem size_t_of_int32_nat (n : Nat) (hn : n < 2 ^ 31) : size_t_of_int32 (n : Int) = n := by
  unfold size_t_of_int32
  have h : ((n : Int) % 2 ^ 64) = (n : Int) := by
    apply Int.emod_eq_of_lt
    · exact Int.natCast_nonneg n
    · have : (n : Int) < 2 ^ 31 := by exact_mod_cast hn
      omega
  rw [h]
  simp

/-- The values with which the loop of `tokeninfo_matches` is entered when
the server asks for a separate PIN and declares the length `n` of the token
value. -/
theorem tokeninfo_collect_separate_pin (O : OtpConsts) (ti : krb5_responder_otp_tokeninfo)
    (pwd : List Nat) (n : Nat)
    (hnext : has_flag ti.flags O.KRB5_RESPONDER_OTP_FLAGS_NEXTOTP = false)
    (hch : ti.challenge = none)
    (hT : has_flag ti.flags O.KRB5_RESPONDER_OTP_FLAGS_COLLECT_TOKEN = true)
    (hP : has_flag ti.flags O.KRB5_RESPONDER_OTP_FLAGS_COLLECT_PIN = true)
    (hS : has_flag ti.flags O.KRB5_RESPONDER_OTP_FLAGS_SEPARATE_PIN = true)
    (hlen : ti.length = (n : Int)) (h1 : 1 ≤ n) (hn : n < 2 ^ 31)
    (hpwd : ∀ b ∈ pwd, b % 256 ≠ 0) :
    tokeninfo_collect O ti pwd pwd.length =
      if n ≥ pwd.length then .error EMSGSIZE
      else .ok (some (pwd.drop (pwd.length - n)), some (pwd.take (pwd.length - n)),
        pick_checker O ti.format) := by
  have hz : ¬ ((n : Int) = 0) := by omega
  have hlt : ¬ ((n : Int) < 1) := by omega
  have htake : ∀ k, ∀ b ∈ pwd.take k, b % 256 ≠ 0 := fun k b hb => hpwd b (List.mem_of_mem_take hb)
  have hdrop : ∀ k, ∀ b ∈ pwd.drop k, b % 256 ≠ 0 := fun k b hb => hpwd b (List.mem_of_mem_drop hb)
  unfold tokeninfo_collect
  simp only [hnext, hch, hT, hP, hS, hlen, hz, hlt, Bool.false_eq_true, if_false, if_true,
    Option.isSome_none, size_t_of_int32_nat n hn]
  by_cases hge : n ≥ pwd.length
  · rw [if_pos hge, if_pos hge]
  · rw [if_neg hge, if_neg hge]
    have hle : pwd.length - n ≤ pwd.length := Nat.sub_le _ _
    have e1 : talloc_strndup pwd (pwd.length - n) = pwd.take (pwd.length - n) := by
      unfold talloc_strndup
      exact c_string_of_IsCString _ (htake _)
    have e2 : talloc_strndup pwd pwd.length = pwd := by
      unfold talloc_strndup
      rw [List.take_length]
      exact c_string_of_IsCString _ hpwd
    have e3 : c_string ((pwd ++ [0]).drop (pwd.length - n)) = pwd.drop (pwd.length - n) := by
      rw [List.drop_append_of_le_length hle]
      exact c_string_append_nul _ (hdrop _)
    rw [e1, e2, e3]

/-- C28: in `tokeninfo_matches`, for a tokeninfo without `NEXTOTP` and
without a challenge that has `COLLECT_TOKEN`, `COLLECT_PIN` and
`SEPARATE_PIN` set and declares the length `n ≥ 1`, and a password of the
length `len`: when `n < len` the call either succeeds or fails the character
check with `EBADMSG`, and a successful match returns as PIN the first
`len - n` characters of the password and as token value its last `n`
characters, so that PIN followed by token is the password; when `n ≥ len`
the tokeninfo is rejected with `EMSGSIZE`. -/
theorem tokeninfo_matches_separate_pin (O : OtpConsts) (ti : krb5_responder_otp_tokeninfo)
    (pwd : List Nat) (n : Nat)
    (hnext : has_flag ti.flags O.KRB5_RESPONDER_OTP_FLAGS_NEXTOTP = false)
    (hch : ti.challenge = none)
    (hT : has_flag ti.flags O.KRB5_RESPONDER_OTP_FLAGS_COLLECT_TOKEN = true)
    (hP : has_flag ti.flags O.KRB5_RESPONDER_OTP_FLAGS_COLLECT_PIN = true)
    (hS : has_flag ti.flags O.KRB5_RESPONDER_OTP_FLAGS_SEPARATE_PIN = true)
    (hlen : ti.length = (n : Int)) (h1 : 1 ≤ n) (hn : n < 2 ^ 31)
    (hpwd : ∀ b ∈ pwd, b % 256 ≠ 0) :
    (n < pwd.length →
      ((tokeninfo_matches O ti pwd pwd.length).ret = 0 ∨
        (tokeninfo_matches O ti pwd pwd.length).ret = EBADMSG) ∧
      ((tokeninfo_matches O ti pwd pwd.length).ret = 0 →
        (tokeninfo_matches O ti pwd pwd.length).pin = some (pwd.take (pwd.length - n)) ∧
        (tokeninfo_matches O ti pwd pwd.length).token = some (pwd.drop (pwd.length - n)) ∧
        (pwd.drop (pwd.length - n)).length = n ∧
        pwd.take (pwd.length - n) ++ pwd.drop (pwd.length - n) = pwd)) ∧
    (n ≥ pwd.length →
      tokeninfo_matches O ti pwd pwd.length = { ret := EMSGSIZE, token := none, pin := none }) := by
  have hc := tokeninfo_collect_separate_pin O ti pwd n hnext hch hT hP hS hlen h1 hn hpwd
  constructor
  · intro hlt
    have hge : ¬ (n ≥ pwd.length) := by omega
    rw [if_neg hge] at hc
    unfold tokeninfo_matches
    rw [hc]
    dsimp only
    have hdl : (pwd.drop (pwd.length - n)).length = n := by
      rw [List.length_drop]; omega
    cases hpc : pick_checker O ti.format with
    | none =>
      dsimp only
      exact ⟨Or.inl rfl, fun _ => ⟨rfl, rfl, hdl, List.take_append_drop _ _⟩⟩
    | some chk =>
      dsimp only
      by_cases hall : ((some (pwd.drop (pwd.length - n))).getD []).all chk = true
      · rw [if_pos hall]
        exact ⟨Or.inl rfl, fun _ => ⟨rfl, rfl, hdl, List.take_append_drop _ _⟩⟩
      · rw [if_neg hall]
        refine ⟨Or.inr rfl, fun h => ?_⟩
        exact absurd h (by decide)
  · intro hge
    rw [if_pos hge] at hc
    unfold tokeninfo_matches
    rw [hc]

/-- Witness of C28: the password `ab1234` with a declared token length of 4
and the decimal format gives the PIN `ab` and the token value `1234`; with a
declared length of 6 the tokeninfo is rejected with `EMSGSIZE`. -/
theorem tokeninfo_matches_separate_pin_witness :
    tokeninfo_matches mitOtp { flags := 11, format := 0, length := 4, challenge := none }
        [97, 98, 49, 50, 51, 52] 6
      = { ret := 0, token := some [49, 50, 51, 52], pin := some [97, 98] } ∧
    tokeninfo_matches mitOtp { flags := 11, format := 0, length := 6, challenge := none }
        [97, 98, 49, 50, 51, 52] 6
      = { ret := EMSGSIZE, token := none, pin := none } :=
  ⟨rfl,
    (tokeninfo_matches_separate_pin mitOtp
      { flags := 11, format := 0, length := 6, challenge := none } [97, 98, 49, 50, 51, 52] 6
      rfl rfl rfl rfl rfl rfl (by decide) (by decide) (by decide)).2 (by decide)⟩

/-- The loop of `answer_otp`: tokeninfos rejected with one of the four codes
are passed over, and the loop ends at the first tokeninfo that matches or is
refused with another code. -/
theorem answer_otp_loop_skip (m : krb5_responder_otp_tokeninfo → otp_match)
    (pre rest : List krb5_responder_otp_tokeninfo) (i : Nat) (ret : Int)
    (hpre : ∀ x ∈ pre, otp_rejected (m x).ret) :
    answer_otp_loop m (pre ++ rest) i ret
      = answer_otp_loop m rest (i + pre.length)
          (match pre.getLast? with
           | some x => (m x).ret
           | none => ret) := by
  induction pre generalizing i ret with
  | nil => simp
  | cons x xs ih =>
    have hx : otp_rejected (m x).ret := hpre x (List.mem_cons_self _ _)
    have hxs : ∀ y ∈ xs, otp_rejected (m y).ret := fun y hy => hpre y (List.mem_cons_of_mem _ hy)
    obtain ⟨hx0, hx4⟩ := hx
    rw [List.cons_append, answer_otp_loop, if_neg hx0, if_pos hx4, ih (i + 1) (m x).ret hxs]
    have hi : i + 1 + xs.length = i + (x :: xs).length := by simp; omega
    rw [hi]
    congr 1
    cases xs with
    | nil => rfl
    | cons y ys =>
      rw [List.getLast?_cons_cons]
      cases hl : (y :: ys).getLast? with
      | none => simp at hl
      | some z => rfl

/-- The run of `answer_otp` when the challenge is there, the password is
fetched, and the first tokeninfo that is not rejected with one of the four
codes matches. -/
theorem answer_otp_with_found (O : OtpConsts) (R : ResponseTypes) (env : OtpEnv)
    (m : List Nat → Nat → krb5_responder_otp_tokeninfo → otp_match)
    (authtok : sss_auth_token) (resp_list : List response_data)
    (pre post : List krb5_responder_otp_tokeninfo) (ti : krb5_responder_otp_tokeninfo)
    (pwd : List Nat) (len : Nat)
    (hchl : env.krb5_responder_otp_get_challenge = (EOK, some (some (pre ++ ti :: post))))
    (hpw : env.sss_authtok_get_password authtok = (EOK, pwd, len))
    (hpre : ∀ x ∈ pre, otp_rejected (m pwd len x).ret)
    (hti : (m pwd len ti).ret = EOK) :
    answer_otp_with O R env m authtok resp_list =
      if has_flag ti.flags O.KRB5_RESPONDER_OTP_FLAGS_COLLECT_TOKEN then
        { ret := env.krb5_responder_otp_set_answer pre.length (m pwd len ti).token
            (m pwd len ti).pin,
          resp_list := resp_list ++ [{ type := R.SSS_OTP, len := 0, data := [] }],
          calls := [Call.krb5_responder_otp_get_challenge, Call.sss_authtok_get_password,
            Call.pam_add_response R.SSS_OTP,
            Call.krb5_responder_otp_set_answer pre.length (m pwd len ti).token
              (m pwd len ti).pin,
            Call.krb5_responder_otp_challenge_free] }
      else
        { ret := env.krb5_responder_otp_set_answer pre.length (m pwd len ti).token
            (m pwd len ti).pin,
          resp_list := resp_list,
          calls := [Call.krb5_responder_otp_get_challenge, Call.sss_authtok_get_password,
            Call.krb5_responder_otp_set_answer pre.length (m pwd len ti).token
              (m pwd len ti).pin,
            Call.krb5_responder_otp_challenge_free] } := by
  have hne : ¬ ((pre ++ ti :: post) = []) := by simp
  unfold answer_otp_with
  rw [hchl]
  simp only [ne_eq, not_true_eq_false, if_false, Option.getD_some, hne, hpw]
  rw [answer_otp_loop_skip (m pwd len) pre (ti :: post) 0 _ hpre, answer_otp_loop, if_pos hti]
  simp only [Bool.false_eq_true, if_false, Nat.zero_add, pam_add_response, List.take_nil,
    List.singleton_append, List.cons_append, List.nil_append]

/-- The run of `answer_otp` when the loop is left without a match: at a
tokeninfo refused with a code other than the four, or at the end of the
array. -/
theorem answer_otp_with_not_found (O : OtpConsts) (R : ResponseTypes) (env : OtpEnv)
    (m : List Nat → Nat → krb5_responder_otp_tokeninfo → otp_match)
    (authtok : sss_auth_token) (resp_list : List response_data)
    (pre post : List krb5_responder_otp_tokeninfo) (pwd : List Nat) (len : Nat)
    (hne : pre ++ post ≠ [])
    (hchl : env.krb5_responder_otp_get_challenge = (EOK, some (some (pre ++ post))))
    (hpw : env.sss_authtok_get_password authtok = (EOK, pwd, len))
    (hpre : ∀ x ∈ pre, otp_rejected (m pwd len x).ret) :
    (post = [] →
      answer_otp_with O R env m authtok resp_list =
        { ret := EOK, resp_list := resp_list,
          calls := [Call.krb5_responder_otp_get_challenge, Call.sss_authtok_get_password,
            Call.krb5_responder_otp_challenge_free] }) ∧
    (∀ ti rest, post = ti :: rest → (m pwd len ti).ret ≠ EOK →
      ¬ otp_rejected (m pwd len ti).ret →
      answer_otp_with O R env m authtok resp_list =
        { ret := (m pwd len ti).ret, resp_list := resp_list,
          calls := [Call.krb5_responder_otp_get_challenge, Call.sss_authtok_get_password,
            Call.krb5_responder_otp_challenge_free] }) := by
  constructor
  · intro hpost
    subst hpost
    unfold answer_otp_with
    rw [hchl]
    simp only [ne_eq, not_true_eq_false, if_false, Option.getD_some, hne, hpw]
    rw [answer_otp_loop_skip (m pwd len) pre [] 0 _ hpre, answer_otp_loop]
    simp only [Bool.false_eq_true, if_false, List.singleton_append, List.cons_append,
      List.nil_append]
  · intro ti rest hpost h0 hrej
    subst hpost
    have h4 : ¬ ((m pwd len ti).ret = EBADMSG ∨ (m pwd len ti).ret = EMSGSIZE ∨
        (m pwd len ti).ret = ENOTSUP ∨ (m pwd len ti).ret = EPROTO) :=
      fun h => hrej ⟨h0, h⟩
    unfold answer_otp_with
    rw [hchl]
    simp only [ne_eq, not_true_eq_false, if_false, Option.getD_some, hne, hpw]
    rw [answer_otp_loop_skip (m pwd len) pre (ti :: rest) 0 _ hpre, answer_otp_loop,
      if_neg h0, if_neg h4]
    simp only [if_true, List.singleton_append, List.cons_append, List.nil_append]

theorem tokeninfo_collect_error_cases (O : OtpConsts) (ti : krb5_responder_otp_tokeninfo)
    (pwd : List Nat) (len : Nat) (e : Int) (h : tokeninfo_collect O ti pwd len = .error e) :
    e = ENOTSUP ∨ e = EPROTO ∨ e = EMSGSIZE := by
  unfold tokeninfo_collect at h
  simp only [] at h
  split_ifs at h
  all_goals (cases h; simp)

/-- Every return value of `tokeninfo_matches` is 0 or one of the four codes
that the loop of `answer_otp` passes over. -/
theorem tokeninfo_matches_ret_cases (O : OtpConsts) (ti : krb5_responder_otp_tokeninfo)
    (pwd : List Nat) (len : Nat) :
    (tokeninfo_matches O ti pwd len).ret = EOK ∨
      otp_rejected (tokeninfo_matches O ti pwd len).ret := by
  unfold tokeninfo_matches
  cases hc : tokeninfo_collect O ti pwd len with
  | error e =>
    right
    dsimp only
    rcases tokeninfo_collect_error_cases O ti pwd len e hc with h | h | h <;>
      (subst h; unfold otp_rejected; decide)
  | ok v =>
    obtain ⟨token, pin, check⟩ := v
    dsimp only
    cases check with
    | none => left; rfl
    | some chk =>
      dsimp only
      split_ifs
      · left; rfl
      · right; unfold otp_rejected; decide

/-- C26: when the challenge is there and the password is fetched,
`answer_otp` answers with the index of the first tokeninfo, in the order of
the challenge, for which `tokeninfo_matches` succeeds, and gives no other
answer; every tokeninfo before it was rejected with `EBADMSG`, `EMSGSIZE`,
`ENOTSUP` or `EPROTO`.  When no tokeninfo matches it gives no answer and
returns `EOK`.  A rejection with any other code (whatever the matcher in the
place of `tokeninfo_matches`) ends the loop: no answer is given and that code
is returned. -/
theorem answer_otp_first_match (O : OtpConsts) (R : ResponseTypes) (env : OtpEnv)
    (authtok : sss_auth_token) (resp_list : List response_data)
    (pre post : List krb5_responder_otp_tokeninfo) (pwd : List Nat) (len : Nat)
    (hne : pre ++ post ≠ [])
    (hchl : env.krb5_responder_otp_get_challenge = (EOK, some (some (pre ++ post))))
    (hpw : env.sss_authtok_get_password authtok = (EOK, pwd, len))
    (hpre : ∀ x ∈ pre, (tokeninfo_matches O x pwd len).ret ≠ EOK) :
    (∀ x ∈ pre, otp_rejected (tokeninfo_matches O x pwd len).ret) ∧
    (∀ ti rest, post = ti :: rest → (tokeninfo_matches O ti pwd len).ret = EOK →
      (answer_otp O R env authtok resp_list).ret
        = env.krb5_responder_otp_set_answer pre.length (tokeninfo_matches O ti pwd len).token
            (tokeninfo_matches O ti pwd len).pin ∧
      Call.krb5_responder_otp_set_answer pre.length (tokeninfo_matches O ti pwd len).token
          (tokeninfo_matches O ti pwd len).pin
        ∈ (answer_otp O R env authtok resp_list).calls ∧
      (∀ i t p, Call.krb5_responder_otp_set_answer i t p
          ∈ (answer_otp O R env authtok resp_list).calls →
        i = pre.length ∧ t = (tokeninfo_matches O ti pwd len).token ∧
          p = (tokeninfo_matches O ti pwd len).pin)) ∧
    (post = [] →
      (answer_otp O R env authtok resp_list).ret = EOK ∧
      (answer_otp O R env authtok resp_list).resp_list = resp_list ∧
      ∀ i t p, Call.krb5_responder_otp_set_answer i t p
        ∉ (answer_otp O R env authtok resp_list).calls) ∧
    (∀ (m : List Nat → Nat → krb5_responder_otp_tokeninfo → otp_match),
      (∀ x ∈ pre, otp_rejected (m pwd len x).ret) →
      ∀ ti rest, post = ti :: rest → (m pwd len ti).ret ≠ EOK →
      ¬ otp_rejected (m pwd len ti).ret →
      (answer_otp_with O R env m authtok resp_list).ret = (m pwd len ti).ret ∧
      ∀ i t p, Call.krb5_responder_otp_set_answer i t p
        ∉ (answer_otp_with O R env m authtok resp_list).calls) := by
  have hrej : ∀ x ∈ pre, otp_rejected (tokeninfo_matches O x pwd len).ret := by
    intro x hx
    rcases tokeninfo_matches_ret_cases O x pwd len with h | h
    · exact absurd h (hpre x hx)
    · exact h
  refine ⟨hrej, ?_, ?_, ?_⟩
  · intro ti rest hpost hti
    subst hpost
    have hrun := answer_otp_with_found O R env (fun pwd len ti => tokeninfo_matches O ti pwd len)
      authtok resp_list pre rest ti pwd len hchl hpw hrej hti
    unfold answer_otp
    rw [hrun]
    by_cases hf : has_flag ti.flags O.KRB5_RESPONDER_OTP_FLAGS_COLLECT_TOKEN = true
    · rw [if_pos hf]
      refine ⟨rfl, by simp, ?_⟩
      intro i t p hmem
      simpa using hmem
    · rw [if_neg hf]
      refine ⟨rfl, by simp, ?_⟩
      intro i t p hmem
      simpa using hmem
  · intro hpost
    have hrun := (answer_otp_with_not_found O R env
      (fun pwd len ti => tokeninfo_matches O ti pwd len) authtok resp_list pre post pwd len hne
      hchl hpw hrej).1 hpost
    unfold answer_otp
    rw [hrun]
    refine ⟨rfl, rfl, ?_⟩
    intro i t p hmem
    simp at hmem
  · intro m hm ti rest hpost h0 hnr
    have hrun := (answer_otp_with_not_found O R env m authtok resp_list pre post pwd len hne
      hchl hpw hm).2 ti rest hpost h0 hnr
    rw [hrun]
    refine ⟨rfl, ?_⟩
    intro i t p hmem
    simp at hmem

/-- Witness of C26: the challenge holds a tokeninfo with `NEXTOTP` and one
for a decimal token value of 6 digits; with the password `123456` the answer
is given for the index 1, with the token value `123456` and no PIN. -/
theorem answer_otp_first_match_witness :
    (tokeninfo_matches mitOtp nextOtpTokeninfo [49, 50, 51, 52, 53, 54] 6).ret = ENOTSUP ∧
    answer_otp mitOtp responseTypes (otpEnv [nextOtpTokeninfo, sixDigitTokeninfo])
        { type := 1, data := [49, 50, 51, 52, 53, 54] } []
      = { ret := 0, resp_list := [{ type := 8, len := 0, data := [] }],
          calls := [Call.krb5_responder_otp_get_challenge, Call.sss_authtok_get_password,
            Call.pam_add_response 8,
            Call.krb5_responder_otp_set_answer 1 (some [49, 50, 51, 52, 53, 54]) none,
            Call.krb5_responder_otp_challenge_free] } ∧
    Call.krb5_responder_otp_set_answer 1 (some [49, 50, 51, 52, 53, 54]) none
      ∈ (answer_otp mitOtp responseTypes (otpEnv [nextOtpTokeninfo, sixDigitTokeninfo])
          { type := 1, data := [49, 50, 51, 52, 53, 54] } []).calls :=
  ⟨rfl, rfl,
    ((answer_otp_first_match mitOtp responseTypes (otpEnv [nextOtpTokeninfo, sixDigitTokeninfo])
      { type := 1, data := [49, 50, 51, 52, 53, 54] } [] [nextOtpTokeninfo] [sixDigitTokeninfo]
      [49, 50, 51, 52, 53, 54] 6 (by decide) rfl rfl (by decide)).2.1 sixDigitTokeninfo [] rfl
      rfl).2.1⟩

/-- C25 (as amended): whenever `answer_otp` selects a matching tokeninfo
that collects a token value (`COLLECT_TOKEN`) and answers the challenge, it
first appends the marker message of the type `SSS_OTP` with an empty payload
to the response, and only then gives the answer; for a matching tokeninfo
without `COLLECT_TOKEN` it gives the answer and appends nothing. -/
theorem answer_otp_marker (O : OtpConsts) (R : ResponseTypes) (env : OtpEnv)
    (authtok : sss_auth_token) (resp_list : List response_data)
    (pre post : List krb5_responder_otp_tokeninfo) (ti : krb5_responder_otp_tokeninfo)
    (pwd : List Nat) (len : Nat)
    (hchl : env.krb5_responder_otp_get_challenge = (EOK, some (some (pre ++ ti :: post))))
    (hpw : env.sss_authtok_get_password authtok = (EOK, pwd, len))
    (hpre : ∀ x ∈ pre, (tokeninfo_matches O x pwd len).ret ≠ EOK)
    (hti : (tokeninfo_matches O ti pwd len).ret = EOK) :
    (has_flag ti.flags O.KRB5_RESPONDER_OTP_FLAGS_COLLECT_TOKEN = true →
      (answer_otp O R env authtok resp_list).resp_list
        = resp_list ++ [{ type := R.SSS_OTP, len := 0, data := [] }] ∧
      (answer_otp O R env authtok resp_list).calls
        = [Call.krb5_responder_otp_get_challenge, Call.sss_authtok_get_password,
            Call.pam_add_response R.SSS_OTP,
            Call.krb5_responder_otp_set_answer pre.length
              (tokeninfo_matches O ti pwd len).token (tokeninfo_matches O ti pwd len).pin,
            Call.krb5_responder_otp_challenge_free]) ∧
    (has_flag ti.flags O.KRB5_RESPONDER_OTP_FLAGS_COLLECT_TOKEN = false →
      (answer_otp O R env authtok resp_list).resp_list = resp_list ∧
      (answer_otp O R env authtok resp_list).calls
        = [Call.krb5_responder_otp_get_challenge, Call.sss_authtok_get_password,
            Call.krb5_responder_otp_set_answer pre.length
              (tokeninfo_matches O ti pwd len).token (tokeninfo_matches O ti pwd len).pin,
            Call.krb5_responder_otp_challenge_free]) := by
  have hrej : ∀ x ∈ pre, otp_rejected (tokeninfo_matches O x pwd len).ret := by
    intro x hx
    rcases tokeninfo_matches_ret_cases O x pwd len with h | h
    · exact absurd h (hpre x hx)
    · exact h
  have hrun := answer_otp_with_found O R env (fun pwd len ti => tokeninfo_matches O ti pwd len)
    authtok resp_list pre post ti pwd len hchl hpw hrej hti
  unfold answer_otp
  rw [hrun]
  constructor
  · intro hf
    rw [if_pos hf]
    exact ⟨rfl, rfl⟩
  · intro hf
    rw [if_neg (by simp [hf])]
    exact ⟨rfl, rfl⟩

/-- Witness of the amended C25: the tokeninfo for a decimal token value of 6
digits matches the password `123456`; the marker is appended before the
answer is given. -/
theorem answer_otp_marker_witness :
    (answer_otp mitOtp responseTypes (otpEnv [sixDigitTokeninfo])
        { type := 1, data := [49, 50, 51, 52, 53, 54] } []).resp_list
      = [{ type := 8, len := 0, data := [] }] ∧
    (answer_otp mitOtp responseTypes (otpEnv [sixDigitTokeninfo])
        { type := 1, data := [49, 50, 51, 52, 53, 54] } []).calls
      = [Call.krb5_responder_otp_get_challenge, Call.sss_authtok_get_password,
          Call.pam_add_response 8,
          Call.krb5_responder_otp_set_answer 0 (some [49, 50, 51, 52, 53, 54]) none,
          Call.krb5_responder_otp_challenge_free] :=
  (answer_otp_marker mitOtp responseTypes (otpEnv [sixDigitTokeninfo])
    { type := 1, data := [49, 50, 51, 52, 53, 54] } [] [] [] sixDigitTokeninfo
    [49, 50, 51, 52, 53, 54] 6 rfl rfl (by decide) rfl).1 rfl

/-- Counterexample to C25 as stated: the challenge holds one tokeninfo that
asks for a PIN only (no `COLLECT_TOKEN`), and the credential token holds
`1234`.  `answer_otp` selects the tokeninfo and answers the challenge with
the index 0 and the PIN `1234`, and no marker message is appended: the
response stays empty. -/
theorem answer_otp_pin_only_no_marker :
    (tokeninfo_matches mitOtp pinOnlyTokeninfo [49, 50, 51, 52] 4).ret = EOK ∧
    answer_otp mitOtp responseTypes (otpEnv [pinOnlyTokeninfo])
        { type := 1, data := [49, 50, 51, 52] } []
      = { ret := 0, resp_list := [],
          calls := [Call.krb5_responder_otp_get_challenge, Call.sss_authtok_get_password,
            Call.krb5_responder_otp_set_answer 0 none (some [49, 50, 51, 52]),
            Call.krb5_responder_otp_challenge_free] } ∧
    Call.pam_add_response responseTypes.SSS_OTP
      ∉ (answer_otp mitOtp responseTypes (otpEnv [pinOnlyTokeninfo])
          { type := 1, data := [49, 50, 51, 52] } []).calls := by
  refine ⟨rfl, rfl, by decide⟩

theorem tokeninfo_matches_error (O : OtpConsts) (ti : krb5_responder_otp_tokeninfo)
    (pwd : List Nat) (len : Nat) (e : Int) (h : tokeninfo_collect O ti pwd len = .error e) :
    tokeninfo_matches O ti pwd len = { ret := e, token := none, pin := none } := by
  unfold tokeninfo_matches
  rw [h]

theorem tokeninfo_matches_checked (O : OtpConsts) (ti : krb5_responder_otp_tokeninfo)
    (pwd : List Nat) (len : Nat) (t : List Nat) (pin : Option (List Nat)) (chk : Nat → Bool)
    (h : tokeninfo_collect O ti pwd len = .ok (some t, pin, some chk)) :
    tokeninfo_matches O ti pwd len
      = if t.all chk = true then { ret := 0, token := some t, pin := pin }
        else { ret := EBADMSG, token := none, pin := none } := by
  unfold tokeninfo_matches
  rw [h]
  rfl

theorem pick_checker_of_format (O : OtpConsts) (hO : O.FormatsDistinct) (format : Int)
    (cls : Nat → Bool)
    (hfmt : (format = O.KRB5_RESPONDER_OTP_FORMAT_DECIMAL ∧ cls = isdigit) ∨
      (format = O.KRB5_RESPONDER_OTP_FORMAT_HEXADECIMAL ∧ cls = isxdigit) ∨
      (format = O.KRB5_RESPONDER_OTP_FORMAT_ALPHANUMERIC ∧ cls = isalnum)) :
    pick_checker O format = some cls := by
  unfold OtpConsts.FormatsDistinct at hO
  simp only [List.nodup_cons, List.mem_cons, List.mem_singleton, not_or, List.not_mem_nil,
    not_false_eq_true, List.nodup_nil, and_true] at hO
  obtain ⟨⟨hdh, hda⟩, hha⟩ := hO
  unfold pick_checker
  rcases hfmt with ⟨hf, hc⟩ | ⟨hf, hc⟩ | ⟨hf, hc⟩
  · rw [if_pos hf, hc]
  · rw [if_neg (by rw [hf]; exact fun h => hdh h.symm), if_pos hf, hc]
  · rw [if_neg (by rw [hf]; exact fun h => hda h.symm),
      if_neg (by rw [hf]; exact fun h => hha h.symm), if_pos hf, hc]

theorem tokeninfo_collect_checker (O : OtpConsts) (ti : krb5_responder_otp_tokeninfo)
    (pwd : List Nat) (len : Nat)
    (hT : has_flag ti.flags O.KRB5_RESPONDER_OTP_FLAGS_COLLECT_TOKEN = true)
    (hP : has_flag ti.flags O.KRB5_RESPONDER_OTP_FLAGS_COLLECT_PIN = false ∨
      has_flag ti.flags O.KRB5_RESPONDER_OTP_FLAGS_SEPARATE_PIN = true)
    (v : Option (List Nat) × Option (List Nat) × Option (Nat → Bool))
    (h : tokeninfo_collect O ti pwd len = .ok v) :
    (∃ t, v.1 = some t) ∧ v.2.2 = pick_checker O ti.format := by
  unfold tokeninfo_collect at h
  simp only [hT, if_true] at h
  split_ifs at h with h1 h2 h3 h4 h5 h6 h7 h8 h9
  all_goals first
    | (cases h; exact ⟨⟨_, rfl⟩, rfl⟩)
    | (rcases hP with hP | hP <;> simp_all)

/-- C27 (as amended): for every tokeninfo that collects a token value, that
either collects no PIN or has the PIN split off (`SEPARATE_PIN`), and that
declares the decimal, hexadecimal or alphanumeric format, `tokeninfo_matches`
succeeds only if every character of the token value it returns is
respectively a decimal digit, a hexadecimal digit or an alphanumeric
character; when the statements before the loop leave a token value with a
character outside the class, it returns `EBADMSG` and hands back nothing. -/
theorem tokeninfo_matches_checks_format (O : OtpConsts) (hO : O.FormatsDistinct)
    (ti : krb5_responder_otp_tokeninfo) (pwd : List Nat) (len : Nat) (cls : Nat → Bool)
    (hT : has_flag ti.flags O.KRB5_RESPONDER_OTP_FLAGS_COLLECT_TOKEN = true)
    (hP : has_flag ti.flags O.KRB5_RESPONDER_OTP_FLAGS_COLLECT_PIN = false ∨
      has_flag ti.flags O.KRB5_RESPONDER_OTP_FLAGS_SEPARATE_PIN = true)
    (hfmt : (ti.format = O.KRB5_RESPONDER_OTP_FORMAT_DECIMAL ∧ cls = isdigit) ∨
      (ti.format = O.KRB5_RESPONDER_OTP_FORMAT_HEXADECIMAL ∧ cls = isxdigit) ∨
      (ti.format = O.KRB5_RESPONDER_OTP_FORMAT_ALPHANUMERIC ∧ cls = isalnum)) :
    ((tokeninfo_matches O ti pwd len).ret = 0 →
      ∃ t, (tokeninfo_matches O ti pwd len).token = some t ∧ ∀ c ∈ t, cls c = true) ∧
    (∀ t pin chk, tokeninfo_collect O ti pwd len = .ok (some t, pin, chk) →
      (∃ c ∈ t, cls c = false) →
      tokeninfo_matches O ti pwd len = { ret := EBADMSG, token := none, pin := none }) := by
  have hpc := pick_checker_of_format O hO ti.format cls hfmt
  constructor
  · intro hret
    cases hc : tokeninfo_collect O ti pwd len with
    | error e =>
      rw [tokeninfo_matches_error O ti pwd len e hc] at hret
      dsimp only at hret
      rcases tokeninfo_collect_error_cases O ti pwd len e hc with h | h | h <;>
        (rw [h] at hret; exact absurd hret (by decide))
    | ok v =>
      obtain ⟨⟨t, ht⟩, hchk⟩ := tokeninfo_collect_checker O ti pwd len hT hP v hc
      obtain ⟨token, pin, check⟩ := v
      dsimp only at ht hchk
      subst ht
      rw [hchk, hpc] at hc
      rw [tokeninfo_matches_checked O ti pwd len t pin cls hc] at hret ⊢
      by_cases hall : t.all cls = true
      · rw [if_pos hall]
        refine ⟨t, rfl, ?_⟩
        simpa [List.all_eq_true] using hall
      · rw [if_neg hall] at hret
        exact absurd hret (by decide)
  · intro t pin chk hc hbad
    obtain ⟨_, hchk⟩ := tokeninfo_collect_checker O ti pwd len hT hP _ hc
    dsimp only at hchk
    rw [hchk, hpc] at hc
    rw [tokeninfo_matches_checked O ti pwd len t pin cls hc]
    have hall : ¬ (t.all cls = true) := by
      obtain ⟨c, hmem, hcls⟩ := hbad
      simp only [List.all_eq_true, not_forall]
      exact ⟨c, hmem, by simp [hcls]⟩
    rw [if_neg hall]

/-- Witness of the amended C27: the tokeninfo for a decimal token value of 6
digits accepts `123456`, whose characters are all digits, and rejects
`12345a` with `EBADMSG`. -/
theorem tokeninfo_matches_checks_format_witness :
    (tokeninfo_matches mitOtp sixDigitTokeninfo [49, 50, 51, 52, 53, 54] 6).ret = 0 ∧
    (∃ t, (tokeninfo_matches mitOtp sixDigitTokeninfo [49, 50, 51, 52, 53, 54] 6).token = some t ∧
      ∀ c ∈ t, isdigit c = true) ∧
    tokeninfo_matches mitOtp sixDigitTokeninfo [49, 50, 51, 52, 53, 97] 6
      = { ret := EBADMSG, token := none, pin := none } :=
  ⟨rfl,
    (tokeninfo_matches_checks_format mitOtp (by decide) sixDigitTokeninfo
      [49, 50, 51, 52, 53, 54] 6 isdigit rfl (Or.inl rfl) (Or.inl ⟨rfl, rfl⟩)).1 rfl,
    (tokeninfo_matches_checks_format mitOtp (by decide) sixDigitTokeninfo
      [49, 50, 51, 52, 53, 97] 6 isdigit rfl (Or.inl rfl) (Or.inl ⟨rfl, rfl⟩)).2
      [49, 50, 51, 52, 53, 97] none (some isdigit) rfl ⟨97, by decide, by decide⟩⟩

/-- Counterexample to C27 as stated: a tokeninfo that collects token value
and PIN together (`COLLECT_TOKEN` and `COLLECT_PIN`, no `SEPARATE_PIN`) and
declares the decimal format matches the password `ab12`: `tokeninfo_matches`
returns 0 with the token value `ab12`, whose first character is no decimal
digit. -/
theorem tokeninfo_matches_joint_pin_unchecked :
    has_flag pinAndTokenTokeninfo.flags mitOtp.KRB5_RESPONDER_OTP_FLAGS_COLLECT_TOKEN = true ∧
    pinAndTokenTokeninfo.format = mitOtp.KRB5_RESPONDER_OTP_FORMAT_DECIMAL ∧
    tokeninfo_matches mitOtp pinAndTokenTokeninfo [97, 98, 49, 50] 4
      = { ret := 0, token := some [97, 98, 49, 50], pin := none } ∧
    isdigit 97 = false := by
  refine ⟨rfl, rfl, rfl, rfl⟩

/-! ### The password of an authenticate request -/

theorem get_and_save_tgt_calls_head (K : Krb5Codes) (R : ResponseTypes) (env : OpEnv)
    (st : KrState) (password : Option (List Nat)) :
    (get_and_save_tgt K R env st password).calls.head?
      = some (Call.krb5_get_init_creds_password password none) := by
  unfold get_and_save_tgt
  simp only []
  split_ifs <;> simp

/-- Every run of `tgt_req_child` begins with the acquisition of
`get_and_save_tgt`, made with the pointer that `sss_authtok_get_password`
left, whatever that call returned. -/
theorem tgt_req_child_calls_head (K : Krb5Codes) (E : SssdErrors) (R : ResponseTypes)
    (A : AuthtokTypes) (env : OpEnv) (st : KrState) :
    (tgt_req_child K E R A env st).calls.head?
      = some (Call.krb5_get_init_creds_password
          (env.sss_authtok_get_password st.req.authtok).2 none) := by
  have h := get_and_save_tgt_calls_head K R env st (env.sss_authtok_get_password st.req.authtok).2
  unfold tgt_req_child
  simp only []
  split_ifs
  all_goals first
    | exact h
    | (dsimp only; rw [List.head?_append, h]; rfl)

/-- C23 (the code at the failing inputs): an authenticate request whose
credential token is a cache-file token makes `sss_authtok_get_password` fail
with `EACCES` and leave the password `NULL`; `tgt_req_child` calls the
acquisition of `get_and_save_tgt` with that `NULL` password all the same and
returns the mapping of its error, `ERR_NO_CREDS`, not
`ERR_INVALID_CRED_TYPE`.  With an empty token the getter fails with `ENOENT`
and the acquisition is called as well. -/
theorem tgt_req_child_acquires_without_password :
    (opEnv acquireNeedsPassword changeAccepted true).sss_authtok_get_password
        ccfileAuthState.req.authtok = (EACCES, none) ∧
    (tgt_req_child mitCodes sssdErrors responseTypes authtokTypes
        (opEnv acquireNeedsPassword changeAccepted true) ccfileAuthState).calls
      = [Call.krb5_get_init_creds_password none none] ∧
    (tgt_req_child mitCodes sssdErrors responseTypes authtokTypes
        (opEnv acquireNeedsPassword changeAccepted true) ccfileAuthState).ret
      = sssdErrors.ERR_NO_CREDS ∧
    sssdErrors.ERR_NO_CREDS ≠ sssdErrors.ERR_INVALID_CRED_TYPE ∧
    (opEnv acquireNeedsPassword changeAccepted true).sss_authtok_get_password
        emptyAuthState.req.authtok = (ENOENT, none) ∧
    (tgt_req_child mitCodes sssdErrors responseTypes authtokTypes
        (opEnv acquireNeedsPassword changeAccepted true) emptyAuthState).calls
      = [Call.krb5_get_init_creds_password none none] := by
  refine ⟨rfl, ?_, ?_, by decide, rfl, ?_⟩
  · rfl
  · rfl
  · rfl

/-! ### The SID of the domain -/

/-- C29 (the code at the failing input): for the object SID
`S-1-5-21-9223372036854775808-2-3-500`, whose first sub-authority is
`2 ^ 63` and so above `UINT32_MAX`, `sdap_idmap_get_dom_sid_from_object`
returns `EOK` and yields `S-1-5-21-9223372036854775808-2-3`: `strtoull`
converts the number without an error, and stored in the `long long` variable
it is negative.  A first sub-authority of `UINT32_MAX + 1` is refused with
`EINVAL`, and `S-1-5-21-1-2-3-500` yields `S-1-5-21-1-2-3`. -/
theorem sdap_idmap_get_dom_sid_from_object_huge_subauthority :
    strtoull 0 (sidHugeSubauthority.drop 9) = { value := 2 ^ 63, endptr := 19, errno := 0 } ∧
    ((2 ^ 63 : Nat) : Int) > UINT32_MAX ∧
    long_long_of_ull (2 ^ 63) = -(2 ^ 63) ∧
    sdap_idmap_get_dom_sid_from_object sidConsts 0 (some sidHugeSubauthority)
      = (EOK, some (sidHugeSubauthority.take 32)) ∧
    sdap_idmap_get_dom_sid_from_object sidConsts 0 (some sidLargeSubauthority) = (EINVAL, none) ∧
    sdap_idmap_get_dom_sid_from_object sidConsts 0 (some sidOfUser)
      = (EOK, some (sidOfUser.take 14)) := by
  refine ⟨by decide, by decide, by decide, by decide, by decide, by decide⟩

/-- A sub-authority with a minus sign is accepted as well: `strtoull` takes
the sign and negates the value, which is negative in the `long long`. -/
theorem sdap_idmap_get_dom_sid_from_object_signed_subauthority :
    sdap_idmap_get_dom_sid_from_object sidConsts 0 (some sidSignedSubauthority)
      = (EOK, some (sidSignedSubauthority.take 15)) := by
  decide

/-! ### Host groups -/

/-- C30 (the code at the failing input): for the valid DN
`cn=g,cn=host,cn=acc,dc=x`, whose second component is `cn=host` and whose
third is `cn=acc`, `get_ipa_hostgroupname` returns `EOK` with the name `g`:
the values are compared with `hostgroups` and `accounts` over their own
length only.  The DN `cn=g,cn=hostgroups,cn=accounts,dc=x` gives `g`, and a
second component `cn=hostgroupsx` gives `ENOENT`. -/
theorem get_ipa_hostgroupname_accepts_prefix_values :
    plainLdbEnv.ldb_dn_validate dnShortValues
      = some [{ name := [99, 110], value := [103] },
          { name := [99, 110], value := [104, 111, 115, 116] },
          { name := [99, 110], value := [97, 99, 99] },
          { name := [100, 99], value := [120] }] ∧
    strcasecmp_eq str_hostgroups [104, 111, 115, 116] = false ∧
    strcasecmp_eq str_accounts [97, 99, 99] = false ∧
    get_ipa_hostgroupname plainLdbEnv dnShortValues = (EOK, some [103]) ∧
    get_ipa_hostgroupname plainLdbEnv dnHostgroup = (EOK, some [103]) ∧
    get_ipa_hostgroupname plainLdbEnv dnLongValue = (ENOENT, none) := by
  refine ⟨by decide, by decide, by decide, by decide, by decide, by decide⟩

end Krb5Child
